import Mathlib

/-!
# virtio-gpu device model (devicemodel/hw/pci/virtio/virtio_gpu.c)

A shallow embedding of the command-processing core of the ACRN virtio-gpu
device: the 2D resource list, the command handlers, the dispatcher of
`virtio_gpu_ctrl_bh`, and the properties proved about them.

Conventions of the embedding.

* Machine integers are natural numbers; where the C code computes in a
  32-bit or 64-bit unsigned type the wrap is written `% 4294967296` or
  `% 18446744073709551616`; `int` values are integers wrapped by `int32`.
* Host memory that the guest can reach (descriptor segments, backing
  pages) is a function from host address to byte; address `0` is `NULL`.
* Pixel buffers live on the device-model heap; each image carries its own
  byte function, indexed from the start of the buffer.
* pixman, the display backend (`vdpy_*`) and the guest-memory mapper
  (`paddr_guest2host`) are external to the file; they are taken as
  parameters gathered in `host_env`.
* A handler that would dereference `NULL` or write past a heap block has
  no result (`none`).
-/

namespace VirtioGpu

/-! ## Constants -/

def VIRTIO_GPU_MAXSEGS : Nat := 256
def VIRTIO_GPU_MAX_SCANOUTS : Nat := 16
def VIRTIO_GPU_FLAG_FENCE : Nat := 1

def VIRTIO_GPU_CMD_GET_DISPLAY_INFO : Nat := 0x0100
def VIRTIO_GPU_CMD_RESOURCE_CREATE_2D : Nat := 0x0101
def VIRTIO_GPU_CMD_RESOURCE_UNREF : Nat := 0x0102
def VIRTIO_GPU_CMD_SET_SCANOUT : Nat := 0x0103
def VIRTIO_GPU_CMD_RESOURCE_FLUSH : Nat := 0x0104
def VIRTIO_GPU_CMD_TRANSFER_TO_HOST_2D : Nat := 0x0105
def VIRTIO_GPU_CMD_RESOURCE_ATTACH_BACKING : Nat := 0x0106
def VIRTIO_GPU_CMD_RESOURCE_DETACH_BACKING : Nat := 0x0107
def VIRTIO_GPU_CMD_GET_EDID : Nat := 0x010a

def VIRTIO_GPU_RESP_OK_NODATA : Nat := 0x1100
def VIRTIO_GPU_RESP_OK_DISPLAY_INFO : Nat := 0x1101
def VIRTIO_GPU_RESP_OK_EDID : Nat := 0x1104
def VIRTIO_GPU_RESP_ERR_UNSPEC : Nat := 0x1200
def VIRTIO_GPU_RESP_ERR_OUT_OF_MEMORY : Nat := 0x1201
def VIRTIO_GPU_RESP_ERR_INVALID_SCANOUT_ID : Nat := 0x1202
def VIRTIO_GPU_RESP_ERR_INVALID_RESOURCE_ID : Nat := 0x1203
def VIRTIO_GPU_RESP_ERR_INVALID_CONTEXT_ID : Nat := 0x1204
def VIRTIO_GPU_RESP_ERR_INVALID_PARAMETER : Nat := 0x1205

def VIRTIO_GPU_FORMAT_B8G8R8A8_UNORM : Nat := 1
def VIRTIO_GPU_FORMAT_B8G8R8X8_UNORM : Nat := 2
def VIRTIO_GPU_FORMAT_A8R8G8B8_UNORM : Nat := 3
def VIRTIO_GPU_FORMAT_X8R8G8B8_UNORM : Nat := 4
def VIRTIO_GPU_FORMAT_R8G8B8A8_UNORM : Nat := 67
def VIRTIO_GPU_FORMAT_X8B8G8R8_UNORM : Nat := 68
def VIRTIO_GPU_FORMAT_A8B8G8R8_UNORM : Nat := 121
def VIRTIO_GPU_FORMAT_R8G8B8X8_UNORM : Nat := 134

/-! ## Data model -/

/-- Config space registers (`struct virtio_gpu_config`). -/
structure virtio_gpu_config where
  events_read : Nat
  events_clear : Nat
  num_scanouts : Nat
  num_capsets : Nat
deriving DecidableEq, Repr

/-- The 24-byte control header (`struct virtio_gpu_ctrl_hdr`); the three
padding bytes are not represented. -/
structure virtio_gpu_ctrl_hdr where
  type : Nat
  flags : Nat
  fence_id : Nat
  ctx_id : Nat
  ring_idx : Nat
deriving DecidableEq, Repr

/-- A rectangle (`struct virtio_gpu_rect`). -/
structure virtio_gpu_rect where
  x : Nat
  y : Nat
  width : Nat
  height : Nat
deriving DecidableEq, Repr

/-- A host byte range (`struct iovec`): base address (`0` is `NULL`) and length. -/
structure iovec where
  iov_base : Nat
  iov_len : Nat
deriving DecidableEq, Repr

/-- The pixman format codes the device uses. `zero` is the literal `0`
that `virtio_gpu_get_pixman_format` returns for a format it does not know. -/
inductive pixman_format_code_t where
  | PIXMAN_x8r8g8b8
  | PIXMAN_a8r8g8b8
  | PIXMAN_b8g8r8x8
  | PIXMAN_b8g8r8a8
  | PIXMAN_x8b8g8r8
  | PIXMAN_a8b8g8r8
  | PIXMAN_r8g8b8x8
  | PIXMAN_r8g8b8a8
  | zero
deriving DecidableEq, Repr

/-- Bits per pixel of a format code (`PIXMAN_FORMAT_BPP` of pixman.h): the
eight named codes are 32-bit formats, the code `0` has no bits. -/
def PIXMAN_FORMAT_BPP : pixman_format_code_t → Nat
  | .zero => 0
  | _ => 32

/-- A pixman bits image as the device sees it through
`pixman_image_get_format`, `pixman_image_get_stride` and
`pixman_image_get_data`: its format, its row stride in bytes and the bytes
of its pixel buffer, indexed from the start of the buffer. -/
structure pixman_image_t where
  format : pixman_format_code_t
  stride : Nat
  data : Nat → Nat

/-- A 2D resource (`struct virtio_gpu_resource_2d`). `image` is the pixel
buffer; every resource on the list owns one, because
`virtio_gpu_cmd_resource_create_2d` links a resource only when
`pixman_image_create_bits` returned an image. `iov` is the backing vector
(`none` is the `NULL` pointer) and `iovcnt` the stored element count. -/
structure virtio_gpu_resource_2d where
  resource_id : Nat
  width : Nat
  height : Nat
  format : pixman_format_code_t
  image : pixman_image_t
  iov : Option (List iovec)
  iovcnt : Nat

/-- The surface descriptor handed to the display (`struct surface`);
`pixel` is the image data the descriptor points to. -/
structure surface where
  pixel : Nat → Nat
  x : Nat
  y : Nat
  width : Nat
  height : Nat
  stride : Nat
  surf_format : pixman_format_code_t
  surf_pixman : Bool

/-- A call made to the display backend. -/
inductive vdpy_call where
  | surface_set (surf : Option surface)
  | surface_update (surf : surface)

/-- What `vdpy_get_display_info` reports (`struct display_info`). -/
structure display_info where
  xoff : Nat
  yoff : Nat
  width : Nat
  height : Nat
deriving DecidableEq, Repr

/-- The device (`struct virtio_gpu`): config registers, the resource list
`r2d_list` in list order (head first), and the calls made so far to the
display backend, oldest first. -/
structure virtio_gpu where
  cfg : virtio_gpu_config
  r2d_list : List virtio_gpu_resource_2d
  vdpy : List vdpy_call

/-- The parts of the host the device calls into.
`pixman_image_create_bits format width height` is the call with `NULL` bits
and row stride `0`; `none` is a `NULL` result.
`paddr_guest2host addr len` is the host address of a guest range, `0` when
the range is not mapped. `mem` is host memory, `heap` the bytes found in a
freshly allocated, uninitialised heap block. -/
structure host_env where
  pixman_image_create_bits : pixman_format_code_t → Nat → Nat → Option pixman_image_t
  paddr_guest2host : Nat → Nat → Nat
  mem : Nat → Nat
  heap : Nat → Nat
  vdpy_get_display_info : display_info
  vdpy_get_edid : Nat → Nat

/-! ## Requests and responses -/

structure virtio_gpu_get_edid where
  scanout : Nat
deriving DecidableEq, Repr

structure virtio_gpu_resource_create_2d where
  resource_id : Nat
  format : Nat
  width : Nat
  height : Nat
deriving DecidableEq, Repr

structure virtio_gpu_resource_unref where
  resource_id : Nat
deriving DecidableEq, Repr

structure virtio_gpu_mem_entry where
  addr : Nat
  length : Nat
deriving DecidableEq, Repr

structure virtio_gpu_resource_attach_backing where
  resource_id : Nat
  nr_entries : Nat
deriving DecidableEq, Repr

structure virtio_gpu_resource_detach_backing where
  resource_id : Nat
deriving DecidableEq, Repr

structure virtio_gpu_set_scanout where
  r : virtio_gpu_rect
  scanout_id : Nat
  resource_id : Nat
deriving DecidableEq, Repr

structure virtio_gpu_transfer_to_host_2d where
  r : virtio_gpu_rect
  offset : Nat
  resource_id : Nat
deriving DecidableEq, Repr

structure virtio_gpu_resource_flush where
  r : virtio_gpu_rect
  resource_id : Nat
deriving DecidableEq, Repr

/-- One entry of `pmodes` (`struct virtio_gpu_display_one`). -/
structure virtio_gpu_display_one where
  r : virtio_gpu_rect
  enabled : Nat
  flags : Nat
deriving DecidableEq, Repr

/-- The response structures a handler copies into a segment. -/
inductive virtio_gpu_resp where
  | ctrl (hdr : virtio_gpu_ctrl_hdr)
  | display_info (hdr : virtio_gpu_ctrl_hdr) (pmodes : List virtio_gpu_display_one)
  | edid (hdr : virtio_gpu_ctrl_hdr) (size : Nat) (edid : Nat → Nat)

/-- The header of a response structure. -/
def virtio_gpu_resp.hdr : virtio_gpu_resp → virtio_gpu_ctrl_hdr
  | .ctrl h => h
  | .display_info h _ => h
  | .edid h _ _ => h

/-- The `sizeof` of a response structure: 24 bytes of header, 16 display
entries of 24 bytes, or two words and 1024 EDID bytes. -/
def virtio_gpu_resp.sizeof : virtio_gpu_resp → Nat
  | .ctrl _ => 24
  | .display_info _ _ => 24 + VIRTIO_GPU_MAX_SCANOUTS * 24
  | .edid _ _ _ => 24 + 4 + 4 + 1024

/-- A pending command (`struct virtio_gpu_command`): the request header,
the segments of the descriptor chain with their count, and the length
reported when the chain is released. -/
structure virtio_gpu_command where
  hdr : virtio_gpu_ctrl_hdr
  iov : List iovec
  iovcnt : Nat
  iolen : Nat
deriving DecidableEq, Repr

/-- What running a handler leaves behind: the device, the command (its
`iolen` may have been set) and the `memcpy` calls that stored a response,
each as the index of the target segment in `cmd->iov` and the structure
stored, oldest first. -/
structure cmd_result where
  gpu : virtio_gpu
  cmd : virtio_gpu_command
  writes : List (Nat × virtio_gpu_resp)

/-- A response header after `memset(&resp, 0, sizeof(resp))`. -/
def resp_zero : virtio_gpu_ctrl_hdr :=
  { type := 0, flags := 0, fence_id := 0, ctx_id := 0, ring_idx := 0 }

/-! ## Resource list -/

/-- Walk of `LIST_FOREACH` in `virtio_gpu_find_resource_2d`: the first
resource on the list with the given id. -/
def find_r2d (resource_id : Nat) : List virtio_gpu_resource_2d → Option virtio_gpu_resource_2d
  | [] => none
  | r2d :: rest => if r2d.resource_id = resource_id then some r2d else find_r2d resource_id rest

def virtio_gpu_find_resource_2d (gpu : virtio_gpu) (resource_id : Nat) :
    Option virtio_gpu_resource_2d :=
  find_r2d resource_id gpu.r2d_list

/-- Unlinking the node `virtio_gpu_find_resource_2d` returned
(`LIST_REMOVE(r2d, link)`): the first resource with the id leaves the list. -/
def remove_r2d (resource_id : Nat) : List virtio_gpu_resource_2d → List virtio_gpu_resource_2d
  | [] => []
  | r2d :: rest => if r2d.resource_id = resource_id then rest else r2d :: remove_r2d resource_id rest

/-- Writing through the pointer `virtio_gpu_find_resource_2d` returned: the
first resource with the id is replaced by `f` of it, in place. -/
def update_r2d (resource_id : Nat) (f : virtio_gpu_resource_2d → virtio_gpu_resource_2d) :
    List virtio_gpu_resource_2d → List virtio_gpu_resource_2d
  | [] => []
  | r2d :: rest =>
    if r2d.resource_id = resource_id then f r2d :: rest
    else r2d :: update_r2d resource_id f rest

/-! ## Handlers -/

def virtio_gpu_update_resp_fence (hdr resp : virtio_gpu_ctrl_hdr) : virtio_gpu_ctrl_hdr :=
  if hdr.flags &&& VIRTIO_GPU_FLAG_FENCE ≠ 0 then
    { resp with flags := resp.flags ||| VIRTIO_GPU_FLAG_FENCE, fence_id := hdr.fence_id }
  else resp

def virtio_gpu_cmd_unspec (gpu : virtio_gpu) (cmd : virtio_gpu_command) : cmd_result :=
  let resp := resp_zero
  let cmd := { cmd with iolen := 24 }
  let resp := { resp with type := VIRTIO_GPU_RESP_ERR_UNSPEC }
  let resp := virtio_gpu_update_resp_fence cmd.hdr resp
  { gpu := gpu, cmd := cmd, writes := [(cmd.iovcnt - 1, .ctrl resp)] }

def virtio_gpu_get_pixman_format (format : Nat) : pixman_format_code_t :=
  if format = VIRTIO_GPU_FORMAT_B8G8R8X8_UNORM then .PIXMAN_x8r8g8b8
  else if format = VIRTIO_GPU_FORMAT_B8G8R8A8_UNORM then .PIXMAN_a8r8g8b8
  else if format = VIRTIO_GPU_FORMAT_X8R8G8B8_UNORM then .PIXMAN_b8g8r8x8
  else if format = VIRTIO_GPU_FORMAT_A8R8G8B8_UNORM then .PIXMAN_b8g8r8a8
  else if format = VIRTIO_GPU_FORMAT_R8G8B8X8_UNORM then .PIXMAN_x8b8g8r8
  else if format = VIRTIO_GPU_FORMAT_R8G8B8A8_UNORM then .PIXMAN_a8b8g8r8
  else if format = VIRTIO_GPU_FORMAT_X8B8G8R8_UNORM then .PIXMAN_r8g8b8x8
  else if format = VIRTIO_GPU_FORMAT_A8B8G8R8_UNORM then .PIXMAN_r8g8b8a8
  else .zero

/-- The shared tail of the handlers that end in
`cmd->iolen = sizeof(resp); virtio_gpu_update_resp_fence(&cmd->hdr, &resp);
memcpy(cmd->iov[1].iov_base, &resp, sizeof(resp));`. -/
def respond_iov1 (gpu : virtio_gpu) (cmd : virtio_gpu_command) (resp : virtio_gpu_ctrl_hdr) :
    cmd_result :=
  let cmd := { cmd with iolen := 24 }
  let resp := virtio_gpu_update_resp_fence cmd.hdr resp
  { gpu := gpu, cmd := cmd, writes := [(1, .ctrl resp)] }

def virtio_gpu_cmd_resource_create_2d (env : host_env) (gpu : virtio_gpu)
    (cmd : virtio_gpu_command) (req : virtio_gpu_resource_create_2d) : cmd_result :=
  let resp := resp_zero
  match virtio_gpu_find_resource_2d gpu req.resource_id with
  | some _ =>
    respond_iov1 gpu cmd { resp with type := VIRTIO_GPU_RESP_ERR_INVALID_RESOURCE_ID }
  | none =>
    let format := virtio_gpu_get_pixman_format req.format
    match env.pixman_image_create_bits format req.width req.height with
    | none =>
      respond_iov1 gpu cmd { resp with type := VIRTIO_GPU_RESP_ERR_OUT_OF_MEMORY }
    | some image =>
      let r2d : virtio_gpu_resource_2d :=
        { resource_id := req.resource_id, width := req.width, height := req.height,
          format := format, image := image, iov := none, iovcnt := 0 }
      respond_iov1 { gpu with r2d_list := r2d :: gpu.r2d_list } cmd
        { resp with type := VIRTIO_GPU_RESP_OK_NODATA }

def virtio_gpu_cmd_resource_unref (gpu : virtio_gpu) (cmd : virtio_gpu_command)
    (req : virtio_gpu_resource_unref) : cmd_result :=
  let resp := resp_zero
  match virtio_gpu_find_resource_2d gpu req.resource_id with
  | some _ =>
    respond_iov1 { gpu with r2d_list := remove_r2d req.resource_id gpu.r2d_list } cmd
      { resp with type := VIRTIO_GPU_RESP_OK_NODATA }
  | none =>
    respond_iov1 gpu cmd { resp with type := VIRTIO_GPU_RESP_ERR_INVALID_RESOURCE_ID }

def virtio_gpu_cmd_get_edid (env : host_env) (gpu : virtio_gpu) (cmd : virtio_gpu_command)
    (_req : virtio_gpu_get_edid) : cmd_result :=
  let cmd := { cmd with iolen := 24 + 4 + 4 + 1024 }
  let hdr := resp_zero
  let size := 128
  let hdr := virtio_gpu_update_resp_fence cmd.hdr hdr
  let edid : Nat → Nat := fun k => if k < size then env.vdpy_get_edid k else 0
  { gpu := gpu, cmd := cmd, writes := [(1, .edid hdr size edid)] }

/-- An all-zero `pmodes` entry. -/
def display_one_zero : virtio_gpu_display_one :=
  { r := { x := 0, y := 0, width := 0, height := 0 }, enabled := 0, flags := 0 }

def virtio_gpu_cmd_get_display_info (env : host_env) (gpu : virtio_gpu)
    (cmd : virtio_gpu_command) : cmd_result :=
  let cmd := { cmd with iolen := 24 + VIRTIO_GPU_MAX_SCANOUTS * 24 }
  let hdr := resp_zero
  let info := env.vdpy_get_display_info
  let hdr := { hdr with type := VIRTIO_GPU_RESP_OK_DISPLAY_INFO }
  let hdr := virtio_gpu_update_resp_fence cmd.hdr hdr
  let pmode0 : virtio_gpu_display_one :=
    { r := { x := info.xoff, y := info.yoff, width := info.width, height := info.height },
      enabled := 1, flags := 0 }
  let pmodes := pmode0 :: List.replicate (VIRTIO_GPU_MAX_SCANOUTS - 1) display_one_zero
  { gpu := gpu, cmd := cmd, writes := [(1, .display_info hdr pmodes)] }

/-! ### Reading host memory -/

/-- Little-endian value of the `n` bytes of `mem` starting at `addr`. -/
def le_bytes (mem : Nat → Nat) (addr : Nat) : Nat → Nat
  | 0 => 0
  | n + 1 => mem addr % 256 + 256 * le_bytes mem (addr + 1) n

/-- The bytes of a segment, in address order. -/
def iov_bytes (mem : Nat → Nat) (seg : iovec) : List Nat :=
  (List.range seg.iov_len).map (fun k => mem (seg.iov_base + k))

/-- The bytes the first loop of `virtio_gpu_cmd_resource_attach_backing`
copies: those of `cmd->iov[1]` up to `cmd->iov[cmd->iovcnt - 2]`, in order. -/
def attach_entry_bytes (mem : Nat → Nat) (cmd : virtio_gpu_command) : List Nat :=
  (((cmd.iov.take (cmd.iovcnt - 1)).drop 1).map (iov_bytes mem)).flatten

/-- Entry `i` of an array of `struct virtio_gpu_mem_entry` stored in a byte
function: `addr` in bytes 0..7, `length` in bytes 8..11 of the 16-byte entry. -/
def mem_entry_at (buf : Nat → Nat) (i : Nat) : virtio_gpu_mem_entry :=
  { addr := le_bytes buf (16 * i) 8, length := le_bytes buf (16 * i + 8) 4 }

/-- Attach a backing vector. The two `malloc` calls are taken to succeed
(a zero-byte request included). The entries buffer has
`nr_entries * 16` bytes; copying more than that into it has no result;
bytes of it that no segment filled are those of the fresh heap block. -/
def virtio_gpu_cmd_resource_attach_backing (env : host_env) (gpu : virtio_gpu)
    (cmd : virtio_gpu_command) (req : virtio_gpu_resource_attach_backing) :
    Option cmd_result :=
  let resp := resp_zero
  let finish (gpu : virtio_gpu) (resp : virtio_gpu_ctrl_hdr) : cmd_result :=
    let cmd := { cmd with iolen := 24 }
    let resp := { resp with type := VIRTIO_GPU_RESP_OK_NODATA }
    let resp := virtio_gpu_update_resp_fence cmd.hdr resp
    { gpu := gpu, cmd := cmd, writes := [(cmd.iovcnt - 1, .ctrl resp)] }
  match virtio_gpu_find_resource_2d gpu req.resource_id with
  | some _ =>
    let copied := attach_entry_bytes env.mem cmd
    if req.nr_entries * 16 < copied.length then none
    else
      let entries : Nat → Nat := fun k => if h : k < copied.length then copied[k] else env.heap k
      let iov := (List.range req.nr_entries).map (fun i =>
        let e := mem_entry_at entries i
        ({ iov_base := env.paddr_guest2host e.addr e.length, iov_len := e.length } : iovec))
      let r2d_list := update_r2d req.resource_id
        (fun r2d => { r2d with iov := some iov, iovcnt := req.nr_entries }) gpu.r2d_list
      some (finish { gpu with r2d_list := r2d_list } resp)
  | none =>
    some (finish gpu { resp with type := VIRTIO_GPU_RESP_ERR_INVALID_RESOURCE_ID })

def virtio_gpu_cmd_resource_detach_backing (gpu : virtio_gpu) (cmd : virtio_gpu_command)
    (req : virtio_gpu_resource_detach_backing) : cmd_result :=
  let resp := resp_zero
  let gpu :=
    match virtio_gpu_find_resource_2d gpu req.resource_id with
    | some r2d =>
      if r2d.iov.isSome then
        let r2d_list := update_r2d req.resource_id
          (fun r2d => { r2d with iov := none }) gpu.r2d_list
        { gpu with r2d_list := r2d_list }
      else gpu
    | none => gpu
  respond_iov1 gpu cmd { resp with type := VIRTIO_GPU_RESP_OK_NODATA }

/-- The six comparisons both `virtio_gpu_cmd_set_scanout` and
`virtio_gpu_cmd_transfer_to_host_2d` make; the two sums are `uint32_t`. -/
def rect_out_of_bounds (r : virtio_gpu_rect) (r2d : virtio_gpu_resource_2d) : Bool :=
  decide (r.x > r2d.width) ||
  decide (r.y > r2d.height) ||
  decide (r.width > r2d.width) ||
  decide (r.height > r2d.height) ||
  decide ((r.x + r.width) % 4294967296 > r2d.width) ||
  decide ((r.y + r.height) % 4294967296 > r2d.height)

def virtio_gpu_cmd_set_scanout (gpu : virtio_gpu) (cmd : virtio_gpu_command)
    (req : virtio_gpu_set_scanout) : cmd_result :=
  let resp := resp_zero
  let resp := virtio_gpu_update_resp_fence cmd.hdr resp
  match virtio_gpu_find_resource_2d gpu req.resource_id with
  | none =>
    { gpu := { gpu with vdpy := gpu.vdpy ++ [.surface_set none] }, cmd := cmd,
      writes := [(1, .ctrl { resp with type := VIRTIO_GPU_RESP_OK_NODATA })] }
  | some r2d =>
    if req.resource_id = 0 then
      { gpu := { gpu with vdpy := gpu.vdpy ++ [.surface_set none] }, cmd := cmd,
        writes := [(1, .ctrl { resp with type := VIRTIO_GPU_RESP_OK_NODATA })] }
    else if rect_out_of_bounds req.r r2d then
      { gpu := gpu, cmd := { cmd with iolen := 24 },
        writes := [(1, .ctrl { resp with type := VIRTIO_GPU_RESP_ERR_INVALID_PARAMETER })] }
    else
      let surf : surface :=
        { pixel := r2d.image.data, x := 0, y := 0, width := r2d.width, height := r2d.height,
          stride := r2d.image.stride, surf_format := r2d.format, surf_pixman := true }
      { gpu := { gpu with vdpy := gpu.vdpy ++ [.surface_set (some surf)] },
        cmd := { cmd with iolen := 24 },
        writes := [(1, .ctrl { resp with type := VIRTIO_GPU_RESP_OK_NODATA })] }

def virtio_gpu_cmd_resource_flush (gpu : virtio_gpu) (cmd : virtio_gpu_command)
    (req : virtio_gpu_resource_flush) : cmd_result :=
  let resp := resp_zero
  let resp := virtio_gpu_update_resp_fence cmd.hdr resp
  match virtio_gpu_find_resource_2d gpu req.resource_id with
  | none =>
    { gpu := gpu, cmd := cmd,
      writes := [(1, .ctrl { resp with type := VIRTIO_GPU_RESP_ERR_INVALID_RESOURCE_ID })] }
  | some r2d =>
    let surf : surface :=
      { pixel := r2d.image.data, x := req.r.x, y := req.r.y, width := r2d.width,
        height := r2d.height, stride := r2d.image.stride, surf_format := r2d.format,
        surf_pixman := true }
    { gpu := { gpu with vdpy := gpu.vdpy ++ [.surface_update surf] },
      cmd := { cmd with iolen := 24 },
      writes := [(1, .ctrl { resp with type := VIRTIO_GPU_RESP_OK_NODATA })] }

/-! ### TRANSFER_TO_HOST_2D -/

/-- Conversion of an integer value to `int` (32-bit two's complement). -/
def int32 (n : Int) : Int := (n + 2147483648) % 4294967296 - 2147483648

/-- Conversion of an `int` to `size_t` (64-bit unsigned). -/
def size_t_of_int (n : Int) : Nat := (n % 18446744073709551616).toNat

/-- The pixel bytes after `memcpy(img_data + dst, src, n)` with `src` in host memory. -/
def memcpy_image (data : Nat → Nat) (dst : Nat) (mem : Nat → Nat) (src n : Nat) : Nat → Nat :=
  fun j => if dst ≤ j ∧ j < dst + n then mem (src + (j - dst)) else data j

/-- The inner loop of `virtio_gpu_cmd_transfer_to_host_2d` for one row,
`for (i = ...; i < r2d->iovcnt; i++)`: the first argument counts the
iterations left, `i` is the element index, `src_offset` and `done` are the
loop variables and `data` the pixel bytes so far. Reading `r2d->iov[i]`
when `r2d->iov` is `NULL` or has no element `i`, and a `memcpy` whose `int`
length is negative, have no result. -/
def transfer_row (mem : Nat → Nat) (iov : Option (List iovec)) (dst_offset : Nat) (total : Int) :
    Nat → Nat → Nat → Int → (Nat → Nat) → Option (Nat → Nat)
  | 0, _, _, _, data => some data
  | n + 1, i, src_offset, done, data =>
    match iov with
    | none => none
    | some l =>
      match l[i]? with
      | none => none
      | some e =>
        if e.iov_base = 0 ∨ e.iov_len = 0 then
          transfer_row mem iov dst_offset total n (i + 1) src_offset done data
        else if src_offset < e.iov_len then
          let src := e.iov_base + src_offset
          let bytes : Int :=
            if size_t_of_int (total - done) < e.iov_len - src_offset then total - done
            else int32 ((e.iov_len - src_offset : Nat) : Int)
          if bytes < 0 then none
          else
            let data := memcpy_image data (dst_offset + done.toNat) mem src bytes.toNat
            let done := done + bytes
            if done ≥ total then some data
            else transfer_row mem iov dst_offset total n (i + 1) 0 done data
        else
          transfer_row mem iov dst_offset total n (i + 1) (src_offset - e.iov_len) done data

/-- Bytes per pixel as the handler computes it, `PIXMAN_FORMAT_BPP(format) / 8`. -/
def image_bpp (image : pixman_image_t) : Nat := PIXMAN_FORMAT_BPP image.format / 8

/-- The outer loop `for (h = 0; h < height; h++)`: the first argument counts
the rows left, `h` is the row. `src_offset` and `dst_offset` are `uint32_t`,
`total` is the `int` product `width * bpp`. -/
def transfer_rows (mem : Nat → Nat) (r2d : virtio_gpu_resource_2d)
    (req : virtio_gpu_transfer_to_host_2d) (stride bpp width : Nat) :
    Nat → Nat → (Nat → Nat) → Option (Nat → Nat)
  | 0, _, data => some data
  | n + 1, h, data =>
    let src_offset := (req.offset + stride * h % 4294967296) % 18446744073709551616 % 4294967296
    let dst_offset :=
      ((req.r.y + h) % 4294967296 * stride % 4294967296 + req.r.x * bpp % 4294967296) % 4294967296
    let total := int32 ((width * bpp % 4294967296 : Nat) : Int)
    match transfer_row mem r2d.iov dst_offset total r2d.iovcnt 0 src_offset 0 data with
    | none => none
    | some data => transfer_rows mem r2d req stride bpp width n (h + 1) data

def virtio_gpu_cmd_transfer_to_host_2d (env : host_env) (gpu : virtio_gpu)
    (cmd : virtio_gpu_command) (req : virtio_gpu_transfer_to_host_2d) : Option cmd_result :=
  let resp := resp_zero
  let resp := virtio_gpu_update_resp_fence cmd.hdr resp
  match virtio_gpu_find_resource_2d gpu req.resource_id with
  | none =>
    some { gpu := gpu, cmd := cmd,
           writes := [(1, .ctrl { resp with type := VIRTIO_GPU_RESP_ERR_INVALID_RESOURCE_ID })] }
  | some r2d =>
    if rect_out_of_bounds req.r r2d then
      some { gpu := gpu, cmd := { cmd with iolen := 24 },
             writes := [(1, .ctrl { resp with type := VIRTIO_GPU_RESP_ERR_INVALID_PARAMETER })] }
    else
      let stride := r2d.image.stride % 4294967296
      let bpp := image_bpp r2d.image
      let width := if req.r.width < r2d.width then req.r.width else r2d.width
      let height := if req.r.height < r2d.height then req.r.height else r2d.height
      match transfer_rows env.mem r2d req stride bpp width height 0 r2d.image.data with
      | none => none
      | some data =>
        let r2d_list := update_r2d req.resource_id
          (fun r2d => { r2d with image := { r2d.image with data := data } }) gpu.r2d_list
        some { gpu := { gpu with r2d_list := r2d_list }, cmd := { cmd with iolen := 24 },
               writes := [(1, .ctrl { resp with type := VIRTIO_GPU_RESP_OK_NODATA })] }

/-! ### Reset -/

/-- The loop of `virtio_gpu_reset` unlinks and frees the head of the list
until the list is empty; each turn shortens the list by one. -/
def virtio_gpu_reset_loop : List virtio_gpu_resource_2d → List virtio_gpu_resource_2d
  | [] => []
  | _ :: rest => virtio_gpu_reset_loop rest

def virtio_gpu_reset (gpu : virtio_gpu) : virtio_gpu :=
  { gpu with r2d_list := virtio_gpu_reset_loop gpu.r2d_list }

/-! ### Config space -/

/-- Write to the config registers. `ptr` points `offset` bytes into
`gpu->cfg`; only the offset of `events_clear` (4) is acted on. There
`memcpy(ptr, &value, size)` stores the low `size` bytes of `value` over the
low bytes of `events_clear` (the host is little-endian); a `size` above the
four bytes of `value` would read past it and has no result. `~value` is the
32-bit complement. The C function returns 0. -/
def virtio_gpu_cfgwrite (gpu : virtio_gpu) (offset size value : Nat) : Option virtio_gpu :=
  if offset = 4 then
    if size ≤ 4 then
      let events_clear :=
        gpu.cfg.events_clear / 256 ^ size * 256 ^ size + value % 256 ^ size
      let events_read := gpu.cfg.events_read &&& (4294967295 ^^^ value % 4294967296)
      let events_clear := events_clear &&& (4294967295 ^^^ value % 4294967296)
      some { gpu with cfg :=
        { gpu.cfg with events_read := events_read, events_clear := events_clear } }
    else none
  else some gpu

/-! ### Dispatch -/

/-- The request header `virtio_gpu_ctrl_bh` copies out of the first segment. -/
def read_ctrl_hdr (mem : Nat → Nat) (base : Nat) : virtio_gpu_ctrl_hdr :=
  { type := le_bytes mem base 4, flags := le_bytes mem (base + 4) 4,
    fence_id := le_bytes mem (base + 8) 8, ctx_id := le_bytes mem (base + 16) 4,
    ring_idx := le_bytes mem (base + 20) 1 }

def read_rect (mem : Nat → Nat) (a : Nat) : virtio_gpu_rect :=
  { x := le_bytes mem a 4, y := le_bytes mem (a + 4) 4,
    width := le_bytes mem (a + 8) 4, height := le_bytes mem (a + 12) 4 }

/-- Base address of the first segment of a chain. -/
def chain_base : List iovec → Nat
  | [] => 0
  | seg :: _ => seg.iov_base

/-- Base address of `cmd->iov[0]`. -/
def iov0_base (cmd : virtio_gpu_command) : Nat := chain_base cmd.iov

/-- The `switch (cmd.hdr.type)` of `virtio_gpu_ctrl_bh`. Each handler starts
by copying its request structure out of `cmd->iov[0]`; the fields follow the
24-byte header. The `GET_EDID` case has no `break` and runs on into the
`GET_DISPLAY_INFO` case. -/
def ctrl_dispatch (env : host_env) (gpu : virtio_gpu) (cmd : virtio_gpu_command) :
    Option cmd_result :=
  let a := iov0_base cmd + 24
  let mem := env.mem
  if cmd.hdr.type = VIRTIO_GPU_CMD_GET_EDID then
    let r1 := virtio_gpu_cmd_get_edid env gpu cmd { scanout := le_bytes mem a 4 }
    let r2 := virtio_gpu_cmd_get_display_info env r1.gpu r1.cmd
    some { r2 with writes := r1.writes ++ r2.writes }
  else if cmd.hdr.type = VIRTIO_GPU_CMD_GET_DISPLAY_INFO then
    some (virtio_gpu_cmd_get_display_info env gpu cmd)
  else if cmd.hdr.type = VIRTIO_GPU_CMD_RESOURCE_CREATE_2D then
    some (virtio_gpu_cmd_resource_create_2d env gpu cmd
      { resource_id := le_bytes mem a 4, format := le_bytes mem (a + 4) 4,
        width := le_bytes mem (a + 8) 4, height := le_bytes mem (a + 12) 4 })
  else if cmd.hdr.type = VIRTIO_GPU_CMD_RESOURCE_UNREF then
    some (virtio_gpu_cmd_resource_unref gpu cmd { resource_id := le_bytes mem a 4 })
  else if cmd.hdr.type = VIRTIO_GPU_CMD_RESOURCE_ATTACH_BACKING then
    virtio_gpu_cmd_resource_attach_backing env gpu cmd
      { resource_id := le_bytes mem a 4, nr_entries := le_bytes mem (a + 4) 4 }
  else if cmd.hdr.type = VIRTIO_GPU_CMD_RESOURCE_DETACH_BACKING then
    some (virtio_gpu_cmd_resource_detach_backing gpu cmd { resource_id := le_bytes mem a 4 })
  else if cmd.hdr.type = VIRTIO_GPU_CMD_SET_SCANOUT then
    some (virtio_gpu_cmd_set_scanout gpu cmd
      { r := read_rect mem a, scanout_id := le_bytes mem (a + 16) 4,
        resource_id := le_bytes mem (a + 20) 4 })
  else if cmd.hdr.type = VIRTIO_GPU_CMD_TRANSFER_TO_HOST_2D then
    virtio_gpu_cmd_transfer_to_host_2d env gpu cmd
      { r := read_rect mem a, offset := le_bytes mem (a + 16) 8,
        resource_id := le_bytes mem (a + 24) 4 }
  else if cmd.hdr.type = VIRTIO_GPU_CMD_RESOURCE_FLUSH then
    some (virtio_gpu_cmd_resource_flush gpu cmd
      { r := read_rect mem a, resource_id := le_bytes mem (a + 16) 4 })
  else some (virtio_gpu_cmd_unspec gpu cmd)

/-- One chain as `vq_getchain` hands it over: `none` when it reports invalid
descriptors (`n < 0`), else the `n` segments. -/
abbrev chain := Option (List iovec)

/-- What `virtio_gpu_ctrl_bh` did for one chain: the responses stored and the
length passed to `vq_relchain`. -/
structure released_chain where
  writes : List (Nat × virtio_gpu_resp)
  iolen : Nat

/-- One turn of the `while (vq_has_descs(vq))` loop for a chain of `n > 0`
segments: fill in `cmd`, dispatch, release with `cmd.iolen`. `iolen` is the
value `cmd.iolen` holds on entry; `cmd` is declared outside the loop. -/
def ctrl_bh_chain (env : host_env) (gpu : virtio_gpu) (iolen : Nat) (iov : List iovec) :
    Option cmd_result :=
  let cmd : virtio_gpu_command :=
    { hdr := read_ctrl_hdr env.mem (chain_base iov),
      iov := iov, iovcnt := iov.length, iolen := iolen }
  ctrl_dispatch env gpu cmd

/-- The loop of `virtio_gpu_ctrl_bh` over the chains the queue holds, in
order; `cmd.iolen` starts at `0`. The result is the device afterwards, the
chains released, and whether the loop ran to `vq_endchains` (it returns
early on a chain with `n < 0` or `n == 0`). -/
def ctrl_bh_loop (env : host_env) :
    List chain → virtio_gpu → Nat → Option (virtio_gpu × List released_chain × Bool)
  | [], gpu, _ => some (gpu, [], true)
  | none :: _, gpu, _ => some (gpu, [], false)
  | some [] :: _, gpu, _ => some (gpu, [], false)
  | some (seg :: segs) :: rest, gpu, iolen =>
    match ctrl_bh_chain env gpu iolen (seg :: segs) with
    | none => none
    | some r =>
      match ctrl_bh_loop env rest r.gpu r.cmd.iolen with
      | none => none
      | some (gpu, rel, ended) =>
        some (gpu, { writes := r.writes, iolen := r.cmd.iolen } :: rel, ended)

def virtio_gpu_ctrl_bh (env : host_env) (queue : List chain) (gpu : virtio_gpu) :
    Option (virtio_gpu × List released_chain × Bool) :=
  ctrl_bh_loop env queue gpu 0

/-! ## Definitions used to state the properties -/

/-- The type of the response a handler stored last, if it stored one. -/
def reply_type (res : cmd_result) : Option Nat :=
  res.writes.getLast?.map (fun w => w.2.hdr.type)

/-- States the device can be in: any state with an empty resource list,
and from there any number of dispatched commands that ran to completion
(with any host environment, any pending command) and resets. -/
inductive Reachable : virtio_gpu → Prop where
  | init (cfg : virtio_gpu_config) (vdpy : List vdpy_call) :
      Reachable { cfg := cfg, r2d_list := [], vdpy := vdpy }
  | dispatch {gpu : virtio_gpu} (env : host_env) (cmd : virtio_gpu_command) (res : cmd_result) :
      Reachable gpu → ctrl_dispatch env gpu cmd = some res → Reachable res.gpu
  | reset {gpu : virtio_gpu} : Reachable gpu → Reachable (virtio_gpu_reset gpu)

/-- The pixel format table of the specification (guest format to host layout). -/
def spec_pixel_format_mapping (format : Nat) : Option pixman_format_code_t :=
  if format = VIRTIO_GPU_FORMAT_B8G8R8X8_UNORM then some .PIXMAN_x8r8g8b8
  else if format = VIRTIO_GPU_FORMAT_B8G8R8A8_UNORM then some .PIXMAN_a8r8g8b8
  else if format = VIRTIO_GPU_FORMAT_X8R8G8B8_UNORM then some .PIXMAN_b8g8r8x8
  else if format = VIRTIO_GPU_FORMAT_A8R8G8B8_UNORM then some .PIXMAN_b8g8r8a8
  else if format = VIRTIO_GPU_FORMAT_R8G8B8X8_UNORM then some .PIXMAN_x8b8g8r8
  else if format = VIRTIO_GPU_FORMAT_R8G8B8A8_UNORM then some .PIXMAN_a8b8g8r8
  else if format = VIRTIO_GPU_FORMAT_X8B8G8R8_UNORM then some .PIXMAN_r8g8b8x8
  else if format = VIRTIO_GPU_FORMAT_A8B8G8R8_UNORM then some .PIXMAN_r8g8b8a8
  else none


/-- The resource ids on the list, head first. -/
def resource_ids (gpu : virtio_gpu) : List Nat :=
  gpu.r2d_list.map (fun r => r.resource_id)

/-! ### Concrete inputs -/

/-- A host in which pixman allocates every image asked for, zero-filled and
with rows of `width * bpp` bytes (no rows and stride 0 when the height is
0), and guest addresses map to themselves. -/
def ex_env (mem : Nat → Nat) : host_env where
  pixman_image_create_bits := fun f w h =>
    some { format := f, stride := if h = 0 then 0 else w * (PIXMAN_FORMAT_BPP f / 8),
           data := fun _ => 0 }
  paddr_guest2host := fun a _ => a
  mem := mem
  heap := fun _ => 0
  vdpy_get_display_info := { xoff := 0, yoff := 0, width := 640, height := 480 }
  vdpy_get_edid := fun _ => 0

/-- A host in which pixman returns `NULL` for every image. -/
def ex_env_oom (mem : Nat → Nat) : host_env where
  pixman_image_create_bits := fun _ _ _ => none
  paddr_guest2host := fun a _ => a
  mem := mem
  heap := fun _ => 0
  vdpy_get_display_info := { xoff := 0, yoff := 0, width := 640, height := 480 }
  vdpy_get_edid := fun _ => 0

/-- Host memory holding the given bytes from address 0 on, zero elsewhere. -/
def ex_mem (bytes : List Nat) : Nat → Nat := fun a => bytes.getD a 0

/-- The device before any command. -/
def ex_gpu_empty : virtio_gpu :=
  { cfg := { events_read := 0, events_clear := 0, num_scanouts := 1, num_capsets := 0 },
    r2d_list := [], vdpy := [] }

/-- The bytes of `RESOURCE_CREATE_2D(id=7, B8G8R8A8, 4, 2)` with the fence
flag set and `fence_id = 0xDEADBEEF`. -/
def ex_create_bytes : List Nat :=
  [0x01, 0x01, 0, 0,  1, 0, 0, 0,  0xEF, 0xBE, 0xAD, 0xDE, 0, 0, 0, 0,  0, 0, 0, 0,  0, 0, 0, 0,
   7, 0, 0, 0,  1, 0, 0, 0,  4, 0, 0, 0,  2, 0, 0, 0]

/-- A two-segment chain: request at address 0, response at address 4096. -/
def ex_chain : List iovec :=
  [{ iov_base := 0, iov_len := 40 }, { iov_base := 4096, iov_len := 24 }]

/-- The pending command `virtio_gpu_ctrl_bh` builds for `ex_chain` holding `ex_create_bytes`. -/
def ex_create_cmd : virtio_gpu_command :=
  { hdr := read_ctrl_hdr (ex_mem ex_create_bytes) 0, iov := ex_chain, iovcnt := 2, iolen := 0 }

/-- The device after `RESOURCE_CREATE_2D(id=7, B8G8R8A8, 4, 2)` on the empty device. -/
def ex_gpu_one : virtio_gpu :=
  (virtio_gpu_cmd_resource_create_2d (ex_env (ex_mem ex_create_bytes)) ex_gpu_empty ex_create_cmd
    { resource_id := 7, format := 1, width := 4, height := 2 }).gpu

/-- A stored response echoes the fence of the request header `hdr`: its
fence flag is set and its `fence_id` is that of the request. -/
def fence_echoed (hdr : virtio_gpu_ctrl_hdr) (w : Nat × virtio_gpu_resp) : Prop :=
  w.2.hdr.flags &&& VIRTIO_GPU_FLAG_FENCE ≠ 0 ∧ w.2.hdr.fence_id = hdr.fence_id

/-- The bytes of `GET_DISPLAY_INFO` with the fence flag set and `fence_id = 0xDEADBEEF`. -/
def ex_display_info_bytes : List Nat :=
  [0x00, 0x01, 0, 0,  1, 0, 0, 0,  0xEF, 0xBE, 0xAD, 0xDE, 0, 0, 0, 0,  0, 0, 0, 0,  0, 0, 0, 0]


/-- The device after `RESOURCE_CREATE_2D(id=1, B8G8R8A8, 1, 1073741825)`: an
image of one pixel per row and 2^30 + 1 rows, 4 GiB + 4 bytes. -/
def ex_gpu_tall : virtio_gpu :=
  (virtio_gpu_cmd_resource_create_2d (ex_env (ex_mem [])) ex_gpu_empty ex_create_cmd
    { resource_id := 1, format := 1, width := 1, height := 1073741825 }).gpu

/-- Host memory for the attach and transfer on `ex_gpu_tall`: one
`virtio_gpu_mem_entry` `{addr = 8192, length = 4}` at address 256 and the
four backing bytes 0xAA 0xBB 0xCC 0xDD at address 8192. -/
def ex_mem_tall : Nat → Nat := fun a =>
  if a = 257 then 32 else if a = 264 then 4
  else if a = 8192 then 0xAA else if a = 8193 then 0xBB
  else if a = 8194 then 0xCC else if a = 8195 then 0xDD else 0

/-- A three-segment chain: request at 0, entries at 256, response at 4096. -/
def ex_attach_cmd : virtio_gpu_command :=
  { hdr := resp_zero,
    iov := [{ iov_base := 0, iov_len := 32 }, { iov_base := 256, iov_len := 16 },
            { iov_base := 4096, iov_len := 24 }],
    iovcnt := 3, iolen := 0 }

/-- The device after `RESOURCE_CREATE_2D(id=1, B8G8R8A8, 2147483648, 0)`. -/
def ex_gpu_wide : virtio_gpu :=
  (virtio_gpu_cmd_resource_create_2d (ex_env (ex_mem [])) ex_gpu_empty ex_create_cmd
    { resource_id := 1, format := 1, width := 2147483648, height := 0 }).gpu

/-- The concatenation of the backing ranges, in order. -/
def backing_bytes (mem : Nat → Nat) (iov : List iovec) : List Nat :=
  (iov.map (iov_bytes mem)).flatten

/-- Total length of the backing ranges. -/
def iov_total_len : List iovec → Nat
  | [] => 0
  | e :: rest => e.iov_len + iov_total_len rest

/-- Byte `j` of the concatenation of the backing ranges, found by walking the ranges. -/
def backing_byte (mem : Nat → Nat) : List iovec → Nat → Nat
  | [], _ => 0
  | e :: rest, j => if j < e.iov_len then mem (e.iov_base + j) else backing_byte mem rest (j - e.iov_len)

/-- Host memory of scenario A: one `virtio_gpu_mem_entry`
`{addr = 8192, length = 32}` at address 256 and the bytes `0x00..0x1F` at
address 8192. -/
def ex_mem_a : Nat → Nat := fun a =>
  if a = 257 then 32 else if a = 264 then 32
  else if 8192 ≤ a ∧ a < 8224 then a - 8192 else 0

/-- The resource of scenario A after CREATE_2D and ATTACH_BACKING. -/
def ex_r2d_a : virtio_gpu_resource_2d :=
  { resource_id := 1, width := 4, height := 2, format := .PIXMAN_a8r8g8b8,
    image := { format := .PIXMAN_a8r8g8b8, stride := 16, data := fun _ => 0 },
    iov := some [{ iov_base := 8192, iov_len := 32 }], iovcnt := 1 }

/-- The device of scenario A after `CREATE_2D(id=1, B8G8R8A8, 4, 2)` and
`ATTACH_BACKING(id=1, entries=[(8192, 32)])`. -/
def ex_gpu_a : virtio_gpu :=
  match virtio_gpu_cmd_resource_attach_backing (ex_env ex_mem_a)
      (virtio_gpu_cmd_resource_create_2d (ex_env ex_mem_a) ex_gpu_empty ex_create_cmd
        { resource_id := 1, format := 1, width := 4, height := 2 }).gpu
      ex_attach_cmd { resource_id := 1, nr_entries := 1 } with
  | some res => res.gpu
  | none => ex_gpu_empty

/-- The device after `RESOURCE_CREATE_2D(id=1, B8G8R8A8, 1, 1073741825)` and
`ATTACH_BACKING(id=1, entries=[(8192, 4)])`. -/
def ex_gpu_tall_backed : virtio_gpu :=
  match virtio_gpu_cmd_resource_attach_backing (ex_env ex_mem_tall) ex_gpu_tall ex_attach_cmd
      { resource_id := 1, nr_entries := 1 } with
  | some res => res.gpu
  | none => ex_gpu_empty

/-- The resource of `ex_gpu_tall_backed`: 1 x 1073741825 pixels, stride 4,
backing of four bytes at 8192. -/
def ex_r2d_tall : virtio_gpu_resource_2d :=
  { resource_id := 1, width := 1, height := 1073741825, format := .PIXMAN_a8r8g8b8,
    image := { format := .PIXMAN_a8r8g8b8, stride := 4, data := fun _ => 0 },
    iov := some [{ iov_base := 8192, iov_len := 4 }], iovcnt := 1 }

/-- The resource of `ex_gpu_wide`: 2147483648 x 0 pixels, no rows. -/
def ex_r2d_wide : virtio_gpu_resource_2d :=
  { resource_id := 1, width := 2147483648, height := 0, format := .PIXMAN_a8r8g8b8,
    image := { format := .PIXMAN_a8r8g8b8, stride := 0, data := fun _ => 0 },
    iov := none, iovcnt := 0 }

/-! ### Definitions for the later properties -/

/-- The command is a RESOURCE_CREATE_2D whose request carries `resource_id = 0`. -/
def creates_id_zero (env : host_env) (cmd : virtio_gpu_command) : Prop :=
  cmd.hdr.type = VIRTIO_GPU_CMD_RESOURCE_CREATE_2D ∧ le_bytes env.mem (iov0_base cmd + 24) 4 = 0

/-- States reachable from the empty table by dispatched commands and resets
when no RESOURCE_CREATE_2D with `resource_id = 0` is among the commands. -/
inductive ReachableNoCreateZero : virtio_gpu → Prop where
  | init (cfg : virtio_gpu_config) (vdpy : List vdpy_call) :
      ReachableNoCreateZero { cfg := cfg, r2d_list := [], vdpy := vdpy }
  | dispatch {gpu : virtio_gpu} (env : host_env) (cmd : virtio_gpu_command) (res : cmd_result) :
      ReachableNoCreateZero gpu → ¬ creates_id_zero env cmd →
      ctrl_dispatch env gpu cmd = some res → ReachableNoCreateZero res.gpu
  | reset {gpu : virtio_gpu} : ReachableNoCreateZero gpu →
      ReachableNoCreateZero (virtio_gpu_reset gpu)

/-- The `n` little-endian bytes of a value. -/
def le_encode : Nat → Nat → List Nat
  | 0, _ => []
  | n + 1, v => v % 256 :: le_encode n (v / 256)

/-- The 16 bytes of a `struct virtio_gpu_mem_entry` on the wire: `addr`
(8 bytes), `length` (4 bytes), `padding` (4 bytes), little-endian. -/
def mem_entry_bytes (e : virtio_gpu_mem_entry) (padding : Nat) : List Nat :=
  le_encode 8 e.addr ++ le_encode 4 e.length ++ le_encode 4 padding

/-- The backing element the specification asks for an entry: the
translated base and the length. -/
def translate_entry (env : host_env) (e : virtio_gpu_mem_entry) : iovec :=
  { iov_base := env.paddr_guest2host e.addr e.length, iov_len := e.length }

/-- The display call publishes a null surface through `vdpy_surface_set`. -/
def is_null_surface_set : vdpy_call → Bool
  | .surface_set none => true
  | _ => false

/-- The bytes of `RESOURCE_CREATE_2D(id=0, B8G8R8A8, 4, 2)`. -/
def ex_create_zero_bytes : List Nat :=
  [0x01, 0x01, 0, 0,  0, 0, 0, 0,  0, 0, 0, 0, 0, 0, 0, 0,  0, 0, 0, 0,  0, 0, 0, 0,
   0, 0, 0, 0,  1, 0, 0, 0,  4, 0, 0, 0,  2, 0, 0, 0]

/-- The pending command for `ex_chain` holding `ex_create_zero_bytes`. -/
def ex_create_zero_cmd : virtio_gpu_command :=
  { hdr := read_ctrl_hdr (ex_mem ex_create_zero_bytes) 0, iov := ex_chain, iovcnt := 2,
    iolen := 0 }

/-- The device after `RESOURCE_CREATE_2D(id=0, B8G8R8A8, 4, 2)` on the empty device. -/
def ex_gpu_zero : virtio_gpu :=
  (virtio_gpu_cmd_resource_create_2d (ex_env (ex_mem ex_create_zero_bytes)) ex_gpu_empty
    ex_create_zero_cmd { resource_id := 0, format := 1, width := 4, height := 2 }).gpu

/-- The bytes of `GET_EDID(scanout=0)`. -/
def ex_get_edid_bytes : List Nat :=
  [0x0a, 0x01, 0, 0,  0, 0, 0, 0,  0, 0, 0, 0, 0, 0, 0, 0,  0, 0, 0, 0,  0, 0, 0, 0,
   0, 0, 0, 0,  0, 0, 0, 0]

/-- The pending command for `ex_chain` holding `ex_get_edid_bytes`. -/
def ex_get_edid_cmd : virtio_gpu_command :=
  { hdr := read_ctrl_hdr (ex_mem ex_get_edid_bytes) 0, iov := ex_chain, iovcnt := 2,
    iolen := 0 }

/-- The device after scenario A steps 1 and 4 on resource 7:
`CREATE_2D(id=7, B8G8R8A8, 4, 2)` and `SET_SCANOUT(scanout=0, id=7, rect=(0,0,4,2))`. -/
def ex_gpu_bound : virtio_gpu :=
  (virtio_gpu_cmd_set_scanout ex_gpu_one ex_create_cmd
    { r := { x := 0, y := 0, width := 4, height := 2 }, scanout_id := 0, resource_id := 7 }).gpu

/-- Host memory in which one `virtio_gpu_mem_entry` `{addr = 8192, length = 32}`
is split over two segments: its first 5 bytes at address 256, the other 11
at address 512. -/
def ex_mem_split : Nat → Nat := fun a =>
  if a = 257 then 32 else if a = 515 then 32 else 0

/-- A four-segment chain: request at 0, entry bytes at 256 (5 bytes) and
512 (11 bytes), response at 4096. -/
def ex_attach_split_cmd : virtio_gpu_command :=
  { hdr := resp_zero,
    iov := [{ iov_base := 0, iov_len := 32 }, { iov_base := 256, iov_len := 5 },
            { iov_base := 512, iov_len := 11 }, { iov_base := 4096, iov_len := 24 }],
    iovcnt := 4, iolen := 0 }

/-! ### Definitions for the queue and backing properties -/

/-- Host memory holding a `GET_DISPLAY_INFO` request at address 0 and a
`SET_SCANOUT(scanout=0, id=0, rect=(0,0,0,0))` request at address 1024. -/
def ex_mem_queue : Nat → Nat := fun a =>
  if a = 1 then 1 else if a = 1024 then 3 else if a = 1025 then 1 else 0

/-- The chain of the `GET_DISPLAY_INFO` request of `ex_mem_queue`. -/
def ex_chain_display_info : List iovec :=
  [{ iov_base := 0, iov_len := 24 }, { iov_base := 4096, iov_len := 408 }]

/-- The chain of the `SET_SCANOUT` request of `ex_mem_queue`. -/
def ex_chain_set_scanout : List iovec :=
  [{ iov_base := 1024, iov_len := 48 }, { iov_base := 8192, iov_len := 24 }]

/-- A three-segment chain for the 40 request bytes at address 0: header
(24 bytes), body (16 bytes), response at address 4096. -/
def ex_chain_three : List iovec :=
  [{ iov_base := 0, iov_len := 24 }, { iov_base := 24, iov_len := 16 },
   { iov_base := 4096, iov_len := 24 }]

/-- The device of scenario A after a further `DETACH_BACKING(id=1)`. -/
def ex_gpu_detached : virtio_gpu :=
  (virtio_gpu_cmd_resource_detach_backing ex_gpu_a ex_create_cmd { resource_id := 1 }).gpu

/-- The stored element count of every resource with a backing vector is the
length of the vector. -/
def iovcnt_matches (gpu : virtio_gpu) : Prop :=
  ∀ r2d ∈ gpu.r2d_list, ∀ l, r2d.iov = some l → r2d.iovcnt = l.length

/-- What holds of every handler run for a pending command `cmd`: each
response is stored in `cmd->iov[1]` or in `cmd->iov[cmd->iovcnt - 1]`, and
`cmd->iolen` afterwards is either the size of the response stored last or
the value it had before the handler ran. -/
def reply_shape (cmd : virtio_gpu_command) (res : cmd_result) : Prop :=
  (∀ w ∈ res.writes, w.1 = 1 ∨ w.1 = cmd.iovcnt - 1) ∧
  (res.cmd.iolen = cmd.iolen ∨
    ∃ w, res.writes.getLast? = some w ∧ res.cmd.iolen = w.2.sizeof)

/-- Host memory holding `RESOURCE_CREATE_2D(id=1, B8G8R8A8, 4, 2)` at address 0. -/
def ex_mem_create_a : Nat → Nat := ex_mem
  [0x01, 0x01, 0, 0,  0, 0, 0, 0,  0, 0, 0, 0, 0, 0, 0, 0,  0, 0, 0, 0,  0, 0, 0, 0,
   1, 0, 0, 0,  1, 0, 0, 0,  4, 0, 0, 0,  2, 0, 0, 0]

/-- Host memory holding `RESOURCE_ATTACH_BACKING(id=1, nr_entries=1)` at
address 0, over the entry and backing bytes of `ex_mem_a`. -/
def ex_mem_attach_a : Nat → Nat := fun a =>
  if a = 0 then 6 else if a = 1 then 1 else if a = 24 then 1 else if a = 28 then 1
  else ex_mem_a a

/-- Host memory holding `RESOURCE_DETACH_BACKING(id=1)` at address 0. -/
def ex_mem_detach_a : Nat → Nat := ex_mem
  [0x07, 0x01, 0, 0,  0, 0, 0, 0,  0, 0, 0, 0, 0, 0, 0, 0,  0, 0, 0, 0,  0, 0, 0, 0,
   1, 0, 0, 0,  0, 0, 0, 0]

/-- The pending command `virtio_gpu_ctrl_bh` builds for a chain and a host memory. -/
def ex_cmd_of (mem : Nat → Nat) (iov : List iovec) : virtio_gpu_command :=
  { hdr := read_ctrl_hdr mem (chain_base iov), iov := iov, iovcnt := iov.length, iolen := 0 }

/-! ## Resource list lemmas -/

theorem find_r2d_eq_none_iff (id : Nat) (l : List virtio_gpu_resource_2d) :
    find_r2d id l = none ↔ id ∉ l.map (fun r => r.resource_id) := by
  induction l with
  | nil => simp [find_r2d]
  | cons r rest ih =>
    by_cases h : r.resource_id = id
    · simp [find_r2d, h]
    · simp only [find_r2d, h, if_false, List.map_cons, List.mem_cons, not_or]
      constructor
      · intro hn; exact ⟨fun e => h e.symm, ih.mp hn⟩
      · intro hn; exact ih.mpr hn.2

theorem find_r2d_some_id {id : Nat} {l : List virtio_gpu_resource_2d}
    {r : virtio_gpu_resource_2d} (h : find_r2d id l = some r) : r.resource_id = id ∧ r ∈ l := by
  induction l with
  | nil => simp [find_r2d] at h
  | cons a rest ih =>
    by_cases ha : a.resource_id = id
    · simp [find_r2d, ha] at h; subst h; exact ⟨ha, List.mem_cons_self _ _⟩
    · simp [find_r2d, ha] at h; exact ⟨(ih h).1, List.mem_cons_of_mem _ (ih h).2⟩

theorem find_remove_other (id other : Nat) (hne : other ≠ id) (l : List virtio_gpu_resource_2d) :
    find_r2d other (remove_r2d id l) = find_r2d other l := by
  induction l with
  | nil => rfl
  | cons a rest ih =>
    by_cases ha : a.resource_id = id
    · have : a.resource_id ≠ other := fun e => hne (e.symm.trans ha)
      simp [remove_r2d, find_r2d, ha, this, hne.symm]
    · by_cases hb : a.resource_id = other
      · simp [remove_r2d, find_r2d, ha, hb, hne]
      · simp [remove_r2d, find_r2d, ha, hb, ih]

theorem remove_ids_sublist (id : Nat) (l : List virtio_gpu_resource_2d) :
    ((remove_r2d id l).map (fun r => r.resource_id)).Sublist (l.map (fun r => r.resource_id)) := by
  induction l with
  | nil => simp [remove_r2d]
  | cons a rest ih =>
    by_cases ha : a.resource_id = id
    · simp [remove_r2d, ha]
    · simp only [remove_r2d, ha, if_false, List.map_cons]
      exact ih.cons₂ _

theorem find_remove_self (id : Nat) (l : List virtio_gpu_resource_2d)
    (hnd : (l.map (fun r => r.resource_id)).Nodup) :
    find_r2d id (remove_r2d id l) = none := by
  induction l with
  | nil => rfl
  | cons a rest ih =>
    rw [List.map_cons, List.nodup_cons] at hnd
    by_cases ha : a.resource_id = id
    · simp only [remove_r2d, ha, if_true]
      rw [find_r2d_eq_none_iff]; rw [← ha]; exact hnd.1
    · simp only [remove_r2d, ha, if_false, find_r2d]
      exact ih hnd.2

theorem update_ids (id : Nat) (f : virtio_gpu_resource_2d → virtio_gpu_resource_2d)
    (hf : ∀ r, (f r).resource_id = r.resource_id) (l : List virtio_gpu_resource_2d) :
    (update_r2d id f l).map (fun r => r.resource_id) = l.map (fun r => r.resource_id) := by
  induction l with
  | nil => rfl
  | cons a rest ih =>
    by_cases ha : a.resource_id = id
    · simp [update_r2d, ha, hf]
    · simp [update_r2d, ha, ih]

theorem reset_loop_nil (l : List virtio_gpu_resource_2d) : virtio_gpu_reset_loop l = [] := by
  induction l with
  | nil => rfl
  | cons a rest ih => simpa [virtio_gpu_reset_loop] using ih


/-! ## The branches of the handlers -/

theorem create_2d_dup (env : host_env) (gpu : virtio_gpu) (cmd : virtio_gpu_command)
    (req : virtio_gpu_resource_create_2d) (r : virtio_gpu_resource_2d)
    (hf : find_r2d req.resource_id gpu.r2d_list = some r) :
    virtio_gpu_cmd_resource_create_2d env gpu cmd req =
      respond_iov1 gpu cmd { resp_zero with type := VIRTIO_GPU_RESP_ERR_INVALID_RESOURCE_ID } := by
  simp only [virtio_gpu_cmd_resource_create_2d, virtio_gpu_find_resource_2d, hf]

theorem create_2d_oom (env : host_env) (gpu : virtio_gpu) (cmd : virtio_gpu_command)
    (req : virtio_gpu_resource_create_2d)
    (hf : find_r2d req.resource_id gpu.r2d_list = none)
    (ha : env.pixman_image_create_bits (virtio_gpu_get_pixman_format req.format)
      req.width req.height = none) :
    virtio_gpu_cmd_resource_create_2d env gpu cmd req =
      respond_iov1 gpu cmd { resp_zero with type := VIRTIO_GPU_RESP_ERR_OUT_OF_MEMORY } := by
  simp only [virtio_gpu_cmd_resource_create_2d, virtio_gpu_find_resource_2d, hf, ha]

theorem create_2d_ok (env : host_env) (gpu : virtio_gpu) (cmd : virtio_gpu_command)
    (req : virtio_gpu_resource_create_2d) (image : pixman_image_t)
    (hf : find_r2d req.resource_id gpu.r2d_list = none)
    (ha : env.pixman_image_create_bits (virtio_gpu_get_pixman_format req.format)
      req.width req.height = some image) :
    virtio_gpu_cmd_resource_create_2d env gpu cmd req =
      respond_iov1
        { gpu with r2d_list :=
            { resource_id := req.resource_id, width := req.width, height := req.height,
              format := virtio_gpu_get_pixman_format req.format, image := image,
              iov := none, iovcnt := 0 } :: gpu.r2d_list }
        cmd { resp_zero with type := VIRTIO_GPU_RESP_OK_NODATA } := by
  simp only [virtio_gpu_cmd_resource_create_2d, virtio_gpu_find_resource_2d, hf, ha]

theorem unref_present (gpu : virtio_gpu) (cmd : virtio_gpu_command)
    (req : virtio_gpu_resource_unref) (r : virtio_gpu_resource_2d)
    (hf : find_r2d req.resource_id gpu.r2d_list = some r) :
    virtio_gpu_cmd_resource_unref gpu cmd req =
      respond_iov1 { gpu with r2d_list := remove_r2d req.resource_id gpu.r2d_list } cmd
        { resp_zero with type := VIRTIO_GPU_RESP_OK_NODATA } := by
  simp only [virtio_gpu_cmd_resource_unref, virtio_gpu_find_resource_2d, hf]

theorem unref_absent (gpu : virtio_gpu) (cmd : virtio_gpu_command)
    (req : virtio_gpu_resource_unref)
    (hf : find_r2d req.resource_id gpu.r2d_list = none) :
    virtio_gpu_cmd_resource_unref gpu cmd req =
      respond_iov1 gpu cmd { resp_zero with type := VIRTIO_GPU_RESP_ERR_INVALID_RESOURCE_ID } := by
  simp only [virtio_gpu_cmd_resource_unref, virtio_gpu_find_resource_2d, hf]

theorem reply_type_respond_iov1 (gpu : virtio_gpu) (cmd : virtio_gpu_command)
    (resp : virtio_gpu_ctrl_hdr) :
    reply_type (respond_iov1 gpu cmd resp) = some resp.type := by
  unfold reply_type respond_iov1 virtio_gpu_update_resp_fence
  by_cases h : cmd.hdr.flags &&& VIRTIO_GPU_FLAG_FENCE ≠ 0
  · simp [h, virtio_gpu_resp.hdr]
  · simp [h, virtio_gpu_resp.hdr]

/-! ## Effect of each handler on the resource ids -/

theorem create_2d_nodup (env : host_env) (gpu : virtio_gpu) (cmd : virtio_gpu_command)
    (req : virtio_gpu_resource_create_2d) (hnd : (resource_ids gpu).Nodup) :
    (resource_ids (virtio_gpu_cmd_resource_create_2d env gpu cmd req).gpu).Nodup := by
  cases hf : find_r2d req.resource_id gpu.r2d_list with
  | some r => rw [create_2d_dup env gpu cmd req r hf]; exact hnd
  | none =>
    cases ha : env.pixman_image_create_bits (virtio_gpu_get_pixman_format req.format)
        req.width req.height with
    | none => rw [create_2d_oom env gpu cmd req hf ha]; exact hnd
    | some img =>
      rw [create_2d_ok env gpu cmd req img hf ha]
      have hfresh := (find_r2d_eq_none_iff _ _).mp hf
      simp only [respond_iov1, resource_ids, List.map_cons, List.nodup_cons]
      exact ⟨hfresh, hnd⟩

theorem unref_nodup (gpu : virtio_gpu) (cmd : virtio_gpu_command)
    (req : virtio_gpu_resource_unref) (hnd : (resource_ids gpu).Nodup) :
    (resource_ids (virtio_gpu_cmd_resource_unref gpu cmd req).gpu).Nodup := by
  cases hf : find_r2d req.resource_id gpu.r2d_list with
  | some r =>
    rw [unref_present gpu cmd req r hf]
    exact hnd.sublist (remove_ids_sublist _ _)
  | none => rw [unref_absent gpu cmd req hf]; exact hnd

theorem attach_backing_ids (env : host_env) (gpu : virtio_gpu) (cmd : virtio_gpu_command)
    (req : virtio_gpu_resource_attach_backing) (res : cmd_result)
    (h : virtio_gpu_cmd_resource_attach_backing env gpu cmd req = some res) :
    resource_ids res.gpu = resource_ids gpu := by
  cases hf : find_r2d req.resource_id gpu.r2d_list with
  | some r =>
    simp only [virtio_gpu_cmd_resource_attach_backing, virtio_gpu_find_resource_2d, hf] at h
    split at h
    · exact absurd h (by simp)
    · simp only [Option.some.injEq] at h
      subst h
      (unfold resource_ids; apply update_ids; intro _; rfl)
  | none =>
    simp only [virtio_gpu_cmd_resource_attach_backing, virtio_gpu_find_resource_2d, hf,
      Option.some.injEq] at h
    subst h
    rfl

theorem detach_backing_ids (gpu : virtio_gpu) (cmd : virtio_gpu_command)
    (req : virtio_gpu_resource_detach_backing) :
    resource_ids (virtio_gpu_cmd_resource_detach_backing gpu cmd req).gpu = resource_ids gpu := by
  cases hf : find_r2d req.resource_id gpu.r2d_list with
  | some r =>
    by_cases hi : r.iov.isSome
    · simp only [virtio_gpu_cmd_resource_detach_backing, virtio_gpu_find_resource_2d, hf, hi,
        if_true, respond_iov1]
      (unfold resource_ids; apply update_ids; intro _; rfl)
    · simp [virtio_gpu_cmd_resource_detach_backing, virtio_gpu_find_resource_2d, hf, hi,
        respond_iov1]
  | none =>
    simp [virtio_gpu_cmd_resource_detach_backing, virtio_gpu_find_resource_2d, hf, respond_iov1]

theorem set_scanout_r2d_list (gpu : virtio_gpu) (cmd : virtio_gpu_command)
    (req : virtio_gpu_set_scanout) :
    (virtio_gpu_cmd_set_scanout gpu cmd req).gpu.r2d_list = gpu.r2d_list := by
  unfold virtio_gpu_cmd_set_scanout
  split
  · rfl
  · split
    · rfl
    · split <;> rfl

theorem flush_r2d_list (gpu : virtio_gpu) (cmd : virtio_gpu_command)
    (req : virtio_gpu_resource_flush) :
    (virtio_gpu_cmd_resource_flush gpu cmd req).gpu.r2d_list = gpu.r2d_list := by
  unfold virtio_gpu_cmd_resource_flush
  split <;> rfl

theorem transfer_ids (env : host_env) (gpu : virtio_gpu) (cmd : virtio_gpu_command)
    (req : virtio_gpu_transfer_to_host_2d) (res : cmd_result)
    (h : virtio_gpu_cmd_transfer_to_host_2d env gpu cmd req = some res) :
    resource_ids res.gpu = resource_ids gpu := by
  cases hf : find_r2d req.resource_id gpu.r2d_list with
  | none =>
    simp only [virtio_gpu_cmd_transfer_to_host_2d, virtio_gpu_find_resource_2d, hf,
      Option.some.injEq] at h
    subst h; rfl
  | some r =>
    simp only [virtio_gpu_cmd_transfer_to_host_2d, virtio_gpu_find_resource_2d, hf] at h
    split at h
    · simp only [Option.some.injEq] at h; subst h; rfl
    · split at h
      · exact absurd h (by simp)
      · simp only [Option.some.injEq] at h
        subst h
        (unfold resource_ids; apply update_ids; intro _; rfl)

theorem dispatch_nodup (env : host_env) (gpu : virtio_gpu) (cmd : virtio_gpu_command)
    (res : cmd_result) (h : ctrl_dispatch env gpu cmd = some res)
    (hnd : (resource_ids gpu).Nodup) : (resource_ids res.gpu).Nodup := by
  unfold ctrl_dispatch at h
  simp only at h
  split at h
  · simp only [Option.some.injEq] at h; subst h; exact hnd
  split at h
  · simp only [Option.some.injEq] at h; subst h; exact hnd
  split at h
  · simp only [Option.some.injEq] at h; subst h; exact create_2d_nodup _ _ _ _ hnd
  split at h
  · simp only [Option.some.injEq] at h; subst h; exact unref_nodup _ _ _ hnd
  split at h
  · rw [attach_backing_ids _ _ _ _ _ h]; exact hnd
  split at h
  · simp only [Option.some.injEq] at h; subst h
    rw [detach_backing_ids]; exact hnd
  split at h
  · simp only [Option.some.injEq] at h; subst h
    simpa [resource_ids, set_scanout_r2d_list] using hnd
  split at h
  · rw [transfer_ids _ _ _ _ _ h]; exact hnd
  split at h
  · simp only [Option.some.injEq] at h; subst h
    simpa [resource_ids, flush_r2d_list] using hnd
  · simp only [Option.some.injEq] at h; subst h; exact hnd

theorem reachable_nodup {gpu : virtio_gpu} (h : Reachable gpu) : (resource_ids gpu).Nodup := by
  induction h with
  | init cfg vdpy => simp [resource_ids]
  | dispatch env cmd res _ hd ih => exact dispatch_nodup env _ cmd res hd ih
  | reset _ _ => simp [virtio_gpu_reset, resource_ids, reset_loop_nil]


/-! ## RESOURCE_UNREF and RESOURCE_CREATE_2D -/

/-- C5: in every state reachable from the empty table by dispatched commands
and resets, once `virtio_gpu_cmd_resource_unref` has run with an id,
`virtio_gpu_find_resource_2d` returns none for that id. -/
theorem unref_then_find_none (gpu : virtio_gpu) (hreach : Reachable gpu)
    (cmd : virtio_gpu_command) (req : virtio_gpu_resource_unref) :
    virtio_gpu_find_resource_2d (virtio_gpu_cmd_resource_unref gpu cmd req).gpu
      req.resource_id = none := by
  have hnd := reachable_nodup hreach
  unfold virtio_gpu_find_resource_2d
  cases hf : find_r2d req.resource_id gpu.r2d_list with
  | some r =>
    rw [unref_present gpu cmd req r hf]
    exact find_remove_self _ _ hnd
  | none =>
    rw [unref_absent gpu cmd req hf]
    exact hf

/-- Witness of C5: unref of id 7 on the device that holds resource 7. -/
theorem unref_then_find_none_witness :
    Reachable ex_gpu_one ∧
    virtio_gpu_find_resource_2d
      (virtio_gpu_cmd_resource_unref ex_gpu_one ex_create_cmd { resource_id := 7 }).gpu 7 = none :=
  have hreach : Reachable ex_gpu_one :=
    Reachable.dispatch (ex_env (ex_mem ex_create_bytes)) ex_create_cmd _ (Reachable.init _ _)
      (by rfl : ctrl_dispatch (ex_env (ex_mem ex_create_bytes)) ex_gpu_empty ex_create_cmd =
        some (virtio_gpu_cmd_resource_create_2d (ex_env (ex_mem ex_create_bytes)) ex_gpu_empty
          ex_create_cmd { resource_id := 7, format := 1, width := 4, height := 2 }))
  ⟨hreach, unref_then_find_none ex_gpu_one hreach ex_create_cmd { resource_id := 7 }⟩

/-- C6: RESOURCE_UNREF replies OK_NODATA exactly when the id is on the
list and ERR_INVALID_RESOURCE_ID exactly when it is not; when the id is
absent the device is unchanged; in both cases every other id is found as
before. -/
theorem unref_reply (gpu : virtio_gpu) (cmd : virtio_gpu_command)
    (req : virtio_gpu_resource_unref) :
    (reply_type (virtio_gpu_cmd_resource_unref gpu cmd req) = some VIRTIO_GPU_RESP_OK_NODATA ↔
      ∃ r, virtio_gpu_find_resource_2d gpu req.resource_id = some r) ∧
    (reply_type (virtio_gpu_cmd_resource_unref gpu cmd req) =
        some VIRTIO_GPU_RESP_ERR_INVALID_RESOURCE_ID ↔
      virtio_gpu_find_resource_2d gpu req.resource_id = none) ∧
    (virtio_gpu_find_resource_2d gpu req.resource_id = none →
      (virtio_gpu_cmd_resource_unref gpu cmd req).gpu = gpu) ∧
    (∀ other, other ≠ req.resource_id →
      virtio_gpu_find_resource_2d (virtio_gpu_cmd_resource_unref gpu cmd req).gpu other =
        virtio_gpu_find_resource_2d gpu other) := by
  unfold virtio_gpu_find_resource_2d
  cases hf : find_r2d req.resource_id gpu.r2d_list with
  | some r =>
    rw [unref_present gpu cmd req r hf, reply_type_respond_iov1]
    refine ⟨⟨fun _ => ⟨r, rfl⟩, fun _ => rfl⟩, ⟨fun h => ?_, fun h => ?_⟩, fun h => ?_, ?_⟩
    · exact absurd h (by decide)
    · exact absurd h (by simp)
    · exact absurd h (by simp)
    · intro other hne
      exact find_remove_other _ _ hne _
  | none =>
    rw [unref_absent gpu cmd req hf, reply_type_respond_iov1]
    refine ⟨⟨fun h => ?_, fun h => ?_⟩, ⟨fun _ => rfl, fun _ => rfl⟩, fun _ => rfl, ?_⟩
    · exact absurd h (by decide)
    · obtain ⟨r, hr⟩ := h; exact absurd hr (by simp)
    · intro other _; rfl

/-- C7: RESOURCE_CREATE_2D with an id already on the list replies
ERR_INVALID_RESOURCE_ID and leaves the device unchanged; the id is still
found, with the original resource. -/
theorem create_2d_duplicate (env : host_env) (gpu : virtio_gpu) (cmd : virtio_gpu_command)
    (req : virtio_gpu_resource_create_2d) (r : virtio_gpu_resource_2d)
    (hf : virtio_gpu_find_resource_2d gpu req.resource_id = some r) :
    reply_type (virtio_gpu_cmd_resource_create_2d env gpu cmd req) =
      some VIRTIO_GPU_RESP_ERR_INVALID_RESOURCE_ID ∧
    (virtio_gpu_cmd_resource_create_2d env gpu cmd req).gpu = gpu ∧
    virtio_gpu_find_resource_2d (virtio_gpu_cmd_resource_create_2d env gpu cmd req).gpu
      req.resource_id = some r := by
  unfold virtio_gpu_find_resource_2d at hf
  rw [create_2d_dup env gpu cmd req r hf, reply_type_respond_iov1]
  exact ⟨rfl, rfl, hf⟩

/-- Witness of C7: a second `CREATE_2D(id=7, ...)` on the device that holds resource 7. -/
theorem create_2d_duplicate_witness :
    reply_type (virtio_gpu_cmd_resource_create_2d (ex_env (ex_mem ex_create_bytes)) ex_gpu_one
        ex_create_cmd { resource_id := 7, format := 2, width := 9, height := 9 }) =
      some VIRTIO_GPU_RESP_ERR_INVALID_RESOURCE_ID ∧
    (virtio_gpu_cmd_resource_create_2d (ex_env (ex_mem ex_create_bytes)) ex_gpu_one
        ex_create_cmd { resource_id := 7, format := 2, width := 9, height := 9 }).gpu = ex_gpu_one ∧
    virtio_gpu_find_resource_2d (virtio_gpu_cmd_resource_create_2d (ex_env (ex_mem ex_create_bytes))
        ex_gpu_one ex_create_cmd { resource_id := 7, format := 2, width := 9, height := 9 }).gpu 7 =
      some { resource_id := 7, width := 4, height := 2, format := .PIXMAN_a8r8g8b8,
             image := { format := .PIXMAN_a8r8g8b8, stride := 16, data := fun _ => 0 },
             iov := none, iovcnt := 0 } :=
  create_2d_duplicate (ex_env (ex_mem ex_create_bytes)) ex_gpu_one ex_create_cmd
    { resource_id := 7, format := 2, width := 9, height := 9 } _ rfl

theorem get_pixman_format_of_spec (format : Nat) (f : pixman_format_code_t)
    (h : spec_pixel_format_mapping format = some f) : virtio_gpu_get_pixman_format format = f := by
  unfold spec_pixel_format_mapping at h
  unfold virtio_gpu_get_pixman_format
  split_ifs at h ⊢ <;> simp_all

theorem get_pixman_format_unsupported (format : Nat)
    (h : spec_pixel_format_mapping format = none) :
    virtio_gpu_get_pixman_format format = .zero := by
  unfold spec_pixel_format_mapping at h
  unfold virtio_gpu_get_pixman_format
  split_ifs at h ⊢
  rfl

/-- C8: RESOURCE_CREATE_2D with an id not on the list and one of the eight
formats of the specification table asks pixman for an image of the mapped
host format and the requested size. If pixman returns an image the reply is
OK_NODATA, the id is then found with the requested width and height, the
mapped host format, that image and no backing, and every other id is found
as before; if pixman returns NULL the reply is ERR_OUT_OF_MEMORY and the
device is unchanged. -/
theorem create_2d_fresh (env : host_env) (gpu : virtio_gpu) (cmd : virtio_gpu_command)
    (req : virtio_gpu_resource_create_2d) (f : pixman_format_code_t)
    (hfresh : virtio_gpu_find_resource_2d gpu req.resource_id = none)
    (hfmt : spec_pixel_format_mapping req.format = some f) :
    (∀ image, env.pixman_image_create_bits f req.width req.height = some image →
      reply_type (virtio_gpu_cmd_resource_create_2d env gpu cmd req) =
        some VIRTIO_GPU_RESP_OK_NODATA ∧
      virtio_gpu_find_resource_2d (virtio_gpu_cmd_resource_create_2d env gpu cmd req).gpu
          req.resource_id =
        some { resource_id := req.resource_id, width := req.width, height := req.height,
               format := f, image := image, iov := none, iovcnt := 0 } ∧
      (∀ other, other ≠ req.resource_id →
        virtio_gpu_find_resource_2d (virtio_gpu_cmd_resource_create_2d env gpu cmd req).gpu other =
          virtio_gpu_find_resource_2d gpu other)) ∧
    (env.pixman_image_create_bits f req.width req.height = none →
      reply_type (virtio_gpu_cmd_resource_create_2d env gpu cmd req) =
        some VIRTIO_GPU_RESP_ERR_OUT_OF_MEMORY ∧
      (virtio_gpu_cmd_resource_create_2d env gpu cmd req).gpu = gpu) := by
  have hf := get_pixman_format_of_spec _ _ hfmt
  unfold virtio_gpu_find_resource_2d at hfresh ⊢
  constructor
  · intro image ha
    rw [← hf] at ha
    rw [create_2d_ok env gpu cmd req image hfresh ha, reply_type_respond_iov1]
    refine ⟨rfl, ?_, ?_⟩
    · simp [respond_iov1, find_r2d, hf]
    · intro other hne
      simp [respond_iov1, find_r2d, hne.symm]
  · intro ha
    rw [← hf] at ha
    rw [create_2d_oom env gpu cmd req hfresh ha, reply_type_respond_iov1]
    exact ⟨rfl, rfl⟩

/-- Witness of C8: `CREATE_2D(id=1, B8G8R8A8, 4, 2)` on the empty device. -/
theorem create_2d_fresh_witness :
    reply_type (virtio_gpu_cmd_resource_create_2d (ex_env (ex_mem [])) ex_gpu_empty ex_create_cmd
        { resource_id := 1, format := VIRTIO_GPU_FORMAT_B8G8R8A8_UNORM, width := 4, height := 2 }) =
      some VIRTIO_GPU_RESP_OK_NODATA ∧
    virtio_gpu_find_resource_2d (virtio_gpu_cmd_resource_create_2d (ex_env (ex_mem []))
        ex_gpu_empty ex_create_cmd
        { resource_id := 1, format := VIRTIO_GPU_FORMAT_B8G8R8A8_UNORM, width := 4, height := 2 }).gpu
        1 =
      some { resource_id := 1, width := 4, height := 2, format := .PIXMAN_a8r8g8b8,
             image := { format := .PIXMAN_a8r8g8b8, stride := 16, data := fun _ => 0 },
             iov := none, iovcnt := 0 } :=
  have h := (create_2d_fresh (ex_env (ex_mem [])) ex_gpu_empty ex_create_cmd
    { resource_id := 1, format := VIRTIO_GPU_FORMAT_B8G8R8A8_UNORM, width := 4, height := 2 }
    .PIXMAN_a8r8g8b8 rfl rfl).1 _ rfl
  ⟨h.1, h.2.1⟩

/-- RESOURCE_CREATE_2D with a format outside the table and an id not on the
list: the format code handed to pixman is 0 and the handler does not test
it. If pixman returns an image the reply is OK_NODATA and the id is then
found with format code 0, that image and no backing; if pixman returns NULL
the reply is ERR_OUT_OF_MEMORY and the device is unchanged. The reply is
never ERR_UNSPEC. -/
theorem create_2d_unsupported_format_replies (env : host_env) (gpu : virtio_gpu)
    (cmd : virtio_gpu_command) (req : virtio_gpu_resource_create_2d)
    (hfresh : virtio_gpu_find_resource_2d gpu req.resource_id = none)
    (hfmt : spec_pixel_format_mapping req.format = none) :
    (∀ image, env.pixman_image_create_bits .zero req.width req.height = some image →
      reply_type (virtio_gpu_cmd_resource_create_2d env gpu cmd req) =
        some VIRTIO_GPU_RESP_OK_NODATA ∧
      virtio_gpu_find_resource_2d (virtio_gpu_cmd_resource_create_2d env gpu cmd req).gpu
          req.resource_id =
        some { resource_id := req.resource_id, width := req.width, height := req.height,
               format := .zero, image := image, iov := none, iovcnt := 0 }) ∧
    (env.pixman_image_create_bits .zero req.width req.height = none →
      reply_type (virtio_gpu_cmd_resource_create_2d env gpu cmd req) =
        some VIRTIO_GPU_RESP_ERR_OUT_OF_MEMORY ∧
      (virtio_gpu_cmd_resource_create_2d env gpu cmd req).gpu = gpu) ∧
    reply_type (virtio_gpu_cmd_resource_create_2d env gpu cmd req) ≠
      some VIRTIO_GPU_RESP_ERR_UNSPEC := by
  have hf := get_pixman_format_unsupported _ hfmt
  unfold virtio_gpu_find_resource_2d at hfresh
  cases ha : env.pixman_image_create_bits .zero req.width req.height with
  | none =>
    have ha2 := ha
    rw [← hf] at ha2
    rw [create_2d_oom env gpu cmd req hfresh ha2, reply_type_respond_iov1]
    exact ⟨fun _ h => absurd h (by simp), fun _ => ⟨rfl, rfl⟩, by decide⟩
  | some image =>
    have ha2 := ha
    rw [← hf] at ha2
    rw [create_2d_ok env gpu cmd req image hfresh ha2, reply_type_respond_iov1]
    refine ⟨?_, fun h => absurd h (by simp), by decide⟩
    intro image1 h1
    simp only [Option.some.injEq] at h1
    subst h1
    refine ⟨rfl, ?_⟩
    simp [respond_iov1, virtio_gpu_find_resource_2d, find_r2d, hf]

/-- C9 at an input where it fails. `RESOURCE_CREATE_2D(id=1, format=5, 4, 0)`
on the empty device: format code 5 is none of the eight formats of the
table and id 1 is not on the list. The handler hands pixman the format code
0 without testing it; for a height of 0 pixman returns an image with no rows
(stride 0), so the reply is OK_NODATA, not ERR_UNSPEC, and resource 1 is
inserted into the table with format code 0. -/
theorem create_2d_unsupported_format_inserted :
    spec_pixel_format_mapping 5 = none ∧
    virtio_gpu_find_resource_2d ex_gpu_empty 1 = none ∧
    reply_type (virtio_gpu_cmd_resource_create_2d (ex_env (ex_mem [])) ex_gpu_empty
        ex_create_cmd { resource_id := 1, format := 5, width := 4, height := 0 }) =
      some VIRTIO_GPU_RESP_OK_NODATA ∧
    reply_type (virtio_gpu_cmd_resource_create_2d (ex_env (ex_mem [])) ex_gpu_empty
        ex_create_cmd { resource_id := 1, format := 5, width := 4, height := 0 }) ≠
      some VIRTIO_GPU_RESP_ERR_UNSPEC ∧
    resource_ids (virtio_gpu_cmd_resource_create_2d (ex_env (ex_mem [])) ex_gpu_empty
        ex_create_cmd { resource_id := 1, format := 5, width := 4, height := 0 }).gpu = [1] ∧
    (∃ r2d, virtio_gpu_find_resource_2d
        (virtio_gpu_cmd_resource_create_2d (ex_env (ex_mem [])) ex_gpu_empty
          ex_create_cmd { resource_id := 1, format := 5, width := 4, height := 0 }).gpu 1 =
        some r2d ∧
      r2d.format = .zero ∧ r2d.width = 4 ∧ r2d.height = 0 ∧ r2d.image.stride = 0) := by
  refine ⟨by decide, rfl, by decide, by decide, by decide, ⟨_, rfl, rfl, rfl, rfl, rfl⟩⟩

/-- C10: in every state reachable from the empty table by dispatched
commands (of any type, known or unknown) and resets, no two resources on the
list have the same `resource_id`. -/
theorem resource_ids_unique (gpu : virtio_gpu) (hreach : Reachable gpu) :
    gpu.r2d_list.Pairwise (fun a b => a.resource_id ≠ b.resource_id) := by
  have h := reachable_nodup hreach
  unfold resource_ids List.Nodup at h
  exact (List.pairwise_map.mp h)

/-- Witness of C10: the device after `RESOURCE_CREATE_2D(id=7, ...)` and
`RESOURCE_CREATE_2D(id=1, ...)`, each dispatched as `virtio_gpu_ctrl_bh`
does; the table holds the two ids 1 and 7. -/
theorem resource_ids_unique_witness :
    Reachable (virtio_gpu_cmd_resource_create_2d (ex_env ex_mem_create_a) ex_gpu_one
      (ex_cmd_of ex_mem_create_a ex_chain)
      { resource_id := 1, format := 1, width := 4, height := 2 }).gpu ∧
    resource_ids (virtio_gpu_cmd_resource_create_2d (ex_env ex_mem_create_a) ex_gpu_one
      (ex_cmd_of ex_mem_create_a ex_chain)
      { resource_id := 1, format := 1, width := 4, height := 2 }).gpu = [1, 7] ∧
    (virtio_gpu_cmd_resource_create_2d (ex_env ex_mem_create_a) ex_gpu_one
      (ex_cmd_of ex_mem_create_a ex_chain)
      { resource_id := 1, format := 1, width := 4, height := 2 }).gpu.r2d_list.Pairwise
        (fun a b => a.resource_id ≠ b.resource_id) :=
  have hone : Reachable ex_gpu_one :=
    Reachable.dispatch (ex_env (ex_mem ex_create_bytes)) ex_create_cmd _ (Reachable.init _ _)
      (by rfl : ctrl_dispatch (ex_env (ex_mem ex_create_bytes)) ex_gpu_empty ex_create_cmd =
        some (virtio_gpu_cmd_resource_create_2d (ex_env (ex_mem ex_create_bytes)) ex_gpu_empty
          ex_create_cmd { resource_id := 7, format := 1, width := 4, height := 2 }))
  have htwo : Reachable (virtio_gpu_cmd_resource_create_2d (ex_env ex_mem_create_a) ex_gpu_one
      (ex_cmd_of ex_mem_create_a ex_chain)
      { resource_id := 1, format := 1, width := 4, height := 2 }).gpu :=
    Reachable.dispatch (ex_env ex_mem_create_a) (ex_cmd_of ex_mem_create_a ex_chain) _ hone
      (by rfl : ctrl_dispatch (ex_env ex_mem_create_a) ex_gpu_one
          (ex_cmd_of ex_mem_create_a ex_chain) =
        some (virtio_gpu_cmd_resource_create_2d (ex_env ex_mem_create_a) ex_gpu_one
          (ex_cmd_of ex_mem_create_a ex_chain)
          { resource_id := 1, format := 1, width := 4, height := 2 }))
  ⟨htwo, by decide, resource_ids_unique _ htwo⟩


/-! ## Fence -/

theorem update_resp_fence_set (hdr resp : virtio_gpu_ctrl_hdr)
    (hf : hdr.flags &&& VIRTIO_GPU_FLAG_FENCE ≠ 0) :
    virtio_gpu_update_resp_fence hdr resp =
      { resp with flags := resp.flags ||| VIRTIO_GPU_FLAG_FENCE, fence_id := hdr.fence_id } := by
  simp only [virtio_gpu_update_resp_fence, hf, ne_eq, not_false_eq_true, if_true]

theorem fence_echoed_mk (hdr : virtio_gpu_ctrl_hdr) (k : Nat) (resp : virtio_gpu_resp)
    (h1 : resp.hdr.flags = resp_zero.flags ||| VIRTIO_GPU_FLAG_FENCE)
    (h2 : resp.hdr.fence_id = hdr.fence_id) : fence_echoed hdr (k, resp) := by
  unfold fence_echoed
  refine ⟨?_, h2⟩
  show resp.hdr.flags &&& VIRTIO_GPU_FLAG_FENCE ≠ 0
  rw [h1]
  decide

theorem respond_iov1_fenced (gpu : virtio_gpu) (cmd : virtio_gpu_command) (t : Nat)
    (hf : cmd.hdr.flags &&& VIRTIO_GPU_FLAG_FENCE ≠ 0) :
    (respond_iov1 gpu cmd { resp_zero with type := t }).writes ≠ [] ∧
    ∀ w ∈ (respond_iov1 gpu cmd { resp_zero with type := t }).writes, fence_echoed cmd.hdr w := by
  simp only [respond_iov1, update_resp_fence_set _ _ hf]
  refine ⟨by simp, ?_⟩
  intro w hw
  simp only [List.mem_singleton] at hw
  subst hw
  exact fence_echoed_mk _ _ _ rfl rfl

theorem unspec_fenced (gpu : virtio_gpu) (cmd : virtio_gpu_command)
    (hf : cmd.hdr.flags &&& VIRTIO_GPU_FLAG_FENCE ≠ 0) :
    (virtio_gpu_cmd_unspec gpu cmd).writes ≠ [] ∧
    ∀ w ∈ (virtio_gpu_cmd_unspec gpu cmd).writes, fence_echoed cmd.hdr w := by
  simp only [virtio_gpu_cmd_unspec, update_resp_fence_set _ _ hf]
  refine ⟨by simp, ?_⟩
  intro w hw
  simp only [List.mem_singleton] at hw
  subst hw
  exact fence_echoed_mk _ _ _ rfl rfl

theorem get_display_info_fenced (env : host_env) (gpu : virtio_gpu) (cmd : virtio_gpu_command)
    (hf : cmd.hdr.flags &&& VIRTIO_GPU_FLAG_FENCE ≠ 0) :
    (virtio_gpu_cmd_get_display_info env gpu cmd).writes ≠ [] ∧
    ∀ w ∈ (virtio_gpu_cmd_get_display_info env gpu cmd).writes, fence_echoed cmd.hdr w := by
  simp only [virtio_gpu_cmd_get_display_info, update_resp_fence_set _ _ hf]
  refine ⟨by simp, ?_⟩
  intro w hw
  simp only [List.mem_singleton] at hw
  subst hw
  exact fence_echoed_mk _ _ _ rfl rfl

theorem get_edid_fenced (env : host_env) (gpu : virtio_gpu) (cmd : virtio_gpu_command)
    (req : virtio_gpu_get_edid) (hf : cmd.hdr.flags &&& VIRTIO_GPU_FLAG_FENCE ≠ 0) :
    (virtio_gpu_cmd_get_edid env gpu cmd req).cmd.hdr = cmd.hdr ∧
    ∀ w ∈ (virtio_gpu_cmd_get_edid env gpu cmd req).writes, fence_echoed cmd.hdr w := by
  simp only [virtio_gpu_cmd_get_edid, update_resp_fence_set _ _ hf]
  refine ⟨trivial, ?_⟩
  intro w hw
  simp only [List.mem_singleton] at hw
  subst hw
  exact fence_echoed_mk _ _ _ rfl rfl

theorem create_2d_fenced (env : host_env) (gpu : virtio_gpu) (cmd : virtio_gpu_command)
    (req : virtio_gpu_resource_create_2d) (hf : cmd.hdr.flags &&& VIRTIO_GPU_FLAG_FENCE ≠ 0) :
    (virtio_gpu_cmd_resource_create_2d env gpu cmd req).writes ≠ [] ∧
    ∀ w ∈ (virtio_gpu_cmd_resource_create_2d env gpu cmd req).writes, fence_echoed cmd.hdr w := by
  cases h1 : find_r2d req.resource_id gpu.r2d_list with
  | some r => rw [create_2d_dup env gpu cmd req r h1]; exact respond_iov1_fenced _ _ _ hf
  | none =>
    cases ha : env.pixman_image_create_bits (virtio_gpu_get_pixman_format req.format)
        req.width req.height with
    | none => rw [create_2d_oom env gpu cmd req h1 ha]; exact respond_iov1_fenced _ _ _ hf
    | some img => rw [create_2d_ok env gpu cmd req img h1 ha]; exact respond_iov1_fenced _ _ _ hf

theorem unref_fenced (gpu : virtio_gpu) (cmd : virtio_gpu_command)
    (req : virtio_gpu_resource_unref) (hf : cmd.hdr.flags &&& VIRTIO_GPU_FLAG_FENCE ≠ 0) :
    (virtio_gpu_cmd_resource_unref gpu cmd req).writes ≠ [] ∧
    ∀ w ∈ (virtio_gpu_cmd_resource_unref gpu cmd req).writes, fence_echoed cmd.hdr w := by
  cases h1 : find_r2d req.resource_id gpu.r2d_list with
  | some r => rw [unref_present gpu cmd req r h1]; exact respond_iov1_fenced _ _ _ hf
  | none => rw [unref_absent gpu cmd req h1]; exact respond_iov1_fenced _ _ _ hf

theorem detach_backing_fenced (gpu : virtio_gpu) (cmd : virtio_gpu_command)
    (req : virtio_gpu_resource_detach_backing)
    (hf : cmd.hdr.flags &&& VIRTIO_GPU_FLAG_FENCE ≠ 0) :
    (virtio_gpu_cmd_resource_detach_backing gpu cmd req).writes ≠ [] ∧
    ∀ w ∈ (virtio_gpu_cmd_resource_detach_backing gpu cmd req).writes,
      fence_echoed cmd.hdr w := by
  unfold virtio_gpu_cmd_resource_detach_backing
  exact respond_iov1_fenced _ _ _ hf

theorem attach_backing_fenced (env : host_env) (gpu : virtio_gpu) (cmd : virtio_gpu_command)
    (req : virtio_gpu_resource_attach_backing) (res : cmd_result)
    (hf : cmd.hdr.flags &&& VIRTIO_GPU_FLAG_FENCE ≠ 0)
    (h : virtio_gpu_cmd_resource_attach_backing env gpu cmd req = some res) :
    res.writes ≠ [] ∧ ∀ w ∈ res.writes, fence_echoed cmd.hdr w := by
  have key : ∀ (g : virtio_gpu) (t : Nat) (r : cmd_result),
      r = { gpu := g, cmd := { cmd with iolen := 24 },
            writes := [(cmd.iovcnt - 1, .ctrl (virtio_gpu_update_resp_fence cmd.hdr
              { ({ resp_zero with type := t } : virtio_gpu_ctrl_hdr) with
                type := VIRTIO_GPU_RESP_OK_NODATA }))] } →
      r.writes ≠ [] ∧ ∀ w ∈ r.writes, fence_echoed cmd.hdr w := by
    intro g t r hr
    subst hr
    simp only [update_resp_fence_set _ _ hf]
    refine ⟨by simp, ?_⟩
    intro w hw
    simp only [List.mem_singleton] at hw
    subst hw
    exact fence_echoed_mk _ _ _ rfl rfl
  cases h1 : find_r2d req.resource_id gpu.r2d_list with
  | some r =>
    simp only [virtio_gpu_cmd_resource_attach_backing, virtio_gpu_find_resource_2d, h1] at h
    split at h
    · exact absurd h (by simp)
    · simp only [Option.some.injEq] at h
      exact key _ 0 res h.symm
  | none =>
    simp only [virtio_gpu_cmd_resource_attach_backing, virtio_gpu_find_resource_2d, h1,
      Option.some.injEq] at h
    exact key _ VIRTIO_GPU_RESP_ERR_INVALID_RESOURCE_ID res h.symm

theorem set_scanout_fenced (gpu : virtio_gpu) (cmd : virtio_gpu_command)
    (req : virtio_gpu_set_scanout) (hf : cmd.hdr.flags &&& VIRTIO_GPU_FLAG_FENCE ≠ 0) :
    (virtio_gpu_cmd_set_scanout gpu cmd req).writes ≠ [] ∧
    ∀ w ∈ (virtio_gpu_cmd_set_scanout gpu cmd req).writes, fence_echoed cmd.hdr w := by
  unfold virtio_gpu_cmd_set_scanout
  simp only [update_resp_fence_set _ _ hf]
  split
  · exact ⟨by simp, fun w hw => by
      simp only [List.mem_singleton] at hw; subst hw; exact fence_echoed_mk _ _ _ rfl rfl⟩
  · split
    · exact ⟨by simp, fun w hw => by
        simp only [List.mem_singleton] at hw; subst hw; exact fence_echoed_mk _ _ _ rfl rfl⟩
    · split
      · exact ⟨by simp, fun w hw => by
          simp only [List.mem_singleton] at hw; subst hw; exact fence_echoed_mk _ _ _ rfl rfl⟩
      · exact ⟨by simp, fun w hw => by
          simp only [List.mem_singleton] at hw; subst hw; exact fence_echoed_mk _ _ _ rfl rfl⟩

theorem flush_fenced (gpu : virtio_gpu) (cmd : virtio_gpu_command)
    (req : virtio_gpu_resource_flush) (hf : cmd.hdr.flags &&& VIRTIO_GPU_FLAG_FENCE ≠ 0) :
    (virtio_gpu_cmd_resource_flush gpu cmd req).writes ≠ [] ∧
    ∀ w ∈ (virtio_gpu_cmd_resource_flush gpu cmd req).writes, fence_echoed cmd.hdr w := by
  unfold virtio_gpu_cmd_resource_flush
  simp only [update_resp_fence_set _ _ hf]
  split
  · exact ⟨by simp, fun w hw => by
      simp only [List.mem_singleton] at hw; subst hw; exact fence_echoed_mk _ _ _ rfl rfl⟩
  · exact ⟨by simp, fun w hw => by
      simp only [List.mem_singleton] at hw; subst hw; exact fence_echoed_mk _ _ _ rfl rfl⟩

theorem transfer_fenced (env : host_env) (gpu : virtio_gpu) (cmd : virtio_gpu_command)
    (req : virtio_gpu_transfer_to_host_2d) (res : cmd_result)
    (hf : cmd.hdr.flags &&& VIRTIO_GPU_FLAG_FENCE ≠ 0)
    (h : virtio_gpu_cmd_transfer_to_host_2d env gpu cmd req = some res) :
    res.writes ≠ [] ∧ ∀ w ∈ res.writes, fence_echoed cmd.hdr w := by
  unfold virtio_gpu_cmd_transfer_to_host_2d at h
  simp only [update_resp_fence_set _ _ hf] at h
  split at h
  · simp only [Option.some.injEq] at h; subst h
    exact ⟨by simp, fun w hw => by
      simp only [List.mem_singleton] at hw; subst hw; exact fence_echoed_mk _ _ _ rfl rfl⟩
  · split at h
    · simp only [Option.some.injEq] at h; subst h
      exact ⟨by simp, fun w hw => by
        simp only [List.mem_singleton] at hw; subst hw; exact fence_echoed_mk _ _ _ rfl rfl⟩
    · split at h
      · exact absurd h (by simp)
      · simp only [Option.some.injEq] at h; subst h
        exact ⟨by simp, fun w hw => by
          simp only [List.mem_singleton] at hw; subst hw; exact fence_echoed_mk _ _ _ rfl rfl⟩

theorem dispatch_fenced (env : host_env) (gpu : virtio_gpu) (cmd : virtio_gpu_command)
    (res : cmd_result) (hf : cmd.hdr.flags &&& VIRTIO_GPU_FLAG_FENCE ≠ 0)
    (h : ctrl_dispatch env gpu cmd = some res) :
    res.writes ≠ [] ∧ ∀ w ∈ res.writes, fence_echoed cmd.hdr w := by
  unfold ctrl_dispatch at h
  simp only at h
  split at h
  · simp only [Option.some.injEq] at h; subst h
    have h1 := get_edid_fenced env gpu cmd { scanout := le_bytes env.mem (iov0_base cmd + 24) 4 } hf
    have hf2 : (virtio_gpu_cmd_get_edid env gpu cmd
        { scanout := le_bytes env.mem (iov0_base cmd + 24) 4 }).cmd.hdr.flags &&&
        VIRTIO_GPU_FLAG_FENCE ≠ 0 := by rw [h1.1]; exact hf
    have h2 := get_display_info_fenced env
      (virtio_gpu_cmd_get_edid env gpu cmd
        { scanout := le_bytes env.mem (iov0_base cmd + 24) 4 }).gpu _ hf2
    rw [h1.1] at h2
    refine ⟨by simp [h2.1], ?_⟩
    intro w hw
    rcases List.mem_append.mp hw with hw | hw
    · exact h1.2 w hw
    · exact h2.2 w hw
  split at h
  · simp only [Option.some.injEq] at h; subst h; exact get_display_info_fenced _ _ _ hf
  split at h
  · simp only [Option.some.injEq] at h; subst h; exact create_2d_fenced _ _ _ _ hf
  split at h
  · simp only [Option.some.injEq] at h; subst h; exact unref_fenced _ _ _ hf
  split at h
  · exact attach_backing_fenced _ _ _ _ _ hf h
  split at h
  · simp only [Option.some.injEq] at h; subst h; exact detach_backing_fenced _ _ _ hf
  split at h
  · simp only [Option.some.injEq] at h; subst h; exact set_scanout_fenced _ _ _ hf
  split at h
  · exact transfer_fenced _ _ _ _ _ hf h
  split at h
  · simp only [Option.some.injEq] at h; subst h; exact flush_fenced _ _ _ hf
  · simp only [Option.some.injEq] at h; subst h; exact unspec_fenced _ _ hf

theorem dispatch_total (env : host_env) (gpu : virtio_gpu) (cmd : virtio_gpu_command)
    (h1 : cmd.hdr.type ≠ VIRTIO_GPU_CMD_TRANSFER_TO_HOST_2D)
    (h2 : cmd.hdr.type ≠ VIRTIO_GPU_CMD_RESOURCE_ATTACH_BACKING) :
    ∃ res, ctrl_dispatch env gpu cmd = some res := by
  unfold ctrl_dispatch
  simp only [h1, h2, if_false]
  split_ifs <;> exact ⟨_, rfl⟩

/-- C4: for a chain whose request header has the fence flag set, whatever
the command type (unknown types included), every response
`virtio_gpu_ctrl_bh` stores for the chain, and so the one stored last, has
the fence flag set and carries the `fence_id` of the request. A response is
stored whenever the handler runs to completion, which every handler other
than TRANSFER_TO_HOST_2D and RESOURCE_ATTACH_BACKING always does. -/
theorem fence_echo (env : host_env) (gpu : virtio_gpu) (iolen : Nat) (iov : List iovec)
    (hf : (read_ctrl_hdr env.mem (chain_base iov)).flags &&& VIRTIO_GPU_FLAG_FENCE ≠ 0) :
    ((read_ctrl_hdr env.mem (chain_base iov)).type ≠ VIRTIO_GPU_CMD_TRANSFER_TO_HOST_2D →
      (read_ctrl_hdr env.mem (chain_base iov)).type ≠ VIRTIO_GPU_CMD_RESOURCE_ATTACH_BACKING →
      ∃ res, ctrl_bh_chain env gpu iolen iov = some res) ∧
    ∀ res, ctrl_bh_chain env gpu iolen iov = some res →
      (∃ w, res.writes.getLast? = some w ∧
        fence_echoed (read_ctrl_hdr env.mem (chain_base iov)) w) ∧
      ∀ w ∈ res.writes, fence_echoed (read_ctrl_hdr env.mem (chain_base iov)) w := by
  unfold ctrl_bh_chain
  refine ⟨fun h1 h2 => dispatch_total env gpu _ h1 h2, ?_⟩
  intro res h
  have hd := dispatch_fenced env gpu _ res hf h
  refine ⟨?_, hd.2⟩
  refine ⟨res.writes.getLast hd.1, List.getLast?_eq_getLast _ hd.1, ?_⟩
  exact hd.2 _ (List.getLast_mem hd.1)

/-- Witness of C4: `GET_DISPLAY_INFO` with `flags = FENCE` and
`fence_id = 0xDEADBEEF`; the response stored last has the flag and the id. -/
theorem fence_echo_witness :
    (∃ w, (virtio_gpu_cmd_get_display_info (ex_env (ex_mem ex_display_info_bytes)) ex_gpu_empty
        { hdr := read_ctrl_hdr (ex_mem ex_display_info_bytes) 0, iov := ex_chain, iovcnt := 2,
          iolen := 0 }).writes.getLast? = some w ∧
      w.2.hdr.flags &&& VIRTIO_GPU_FLAG_FENCE ≠ 0 ∧ w.2.hdr.fence_id = 0xDEADBEEF) :=
  ((fence_echo (ex_env (ex_mem ex_display_info_bytes)) ex_gpu_empty 0 ex_chain (by decide)).2
    _ rfl).1


/-! ## TRANSFER_TO_HOST_2D: one row -/

theorem backing_bytes_length (mem : Nat → Nat) (l : List iovec) :
    (backing_bytes mem l).length = iov_total_len l := by
  induction l with
  | nil => rfl
  | cons e rest ih =>
    simp only [backing_bytes, List.map_cons, List.flatten_cons, List.length_append] at ih ⊢
    rw [ih]
    simp [iov_bytes, iov_total_len]

theorem backing_bytes_get (mem : Nat → Nat) (l : List iovec) (j : Nat)
    (hj : j < iov_total_len l) : (backing_bytes mem l)[j]? = some (backing_byte mem l j) := by
  induction l generalizing j with
  | nil => simp [iov_total_len] at hj
  | cons e rest ih =>
    simp only [backing_bytes, List.map_cons, List.flatten_cons, backing_byte]
    by_cases h : j < e.iov_len
    · rw [List.getElem?_append_left (by simpa [iov_bytes] using h)]
      simp [iov_bytes, h]
    · rw [List.getElem?_append_right (by simpa [iov_bytes] using h)]
      simp only [h, if_false]
      have hlen : (iov_bytes mem e).length = e.iov_len := by simp [iov_bytes]
      rw [hlen]
      simp only [iov_total_len] at hj
      exact ih _ (by omega)

theorem size_t_of_int_natCast (n : Nat) (h : n < 18446744073709551616) :
    size_t_of_int (n : Int) = n := by
  unfold size_t_of_int
  omega

theorem int32_natCast (n : Nat) (h : n < 2147483648) : int32 (n : Int) = n := by
  unfold int32
  omega

/-- One turn of the row loop on a usable element, in natural numbers. -/
theorem transfer_row_step (mem : Nat → Nat) (l : List iovec) (dst T D n i src : Nat)
    (data : Nat → Nat) (e : iovec) (hl : l[i]? = some e)
    (hb : e.iov_base ≠ 0) (hlen : e.iov_len ≠ 0) (hT : T < 2147483648) (hD : D ≤ T) :
    transfer_row mem (some l) dst (T : Int) (n + 1) i src (D : Int) data =
      if src < e.iov_len then
        if D + min (T - D) (e.iov_len - src) ≥ T then
          some (memcpy_image data (dst + D) mem (e.iov_base + src) (min (T - D) (e.iov_len - src)))
        else
          transfer_row mem (some l) dst (T : Int) n (i + 1) 0
            ((D + min (T - D) (e.iov_len - src) : Nat) : Int)
            (memcpy_image data (dst + D) mem (e.iov_base + src) (min (T - D) (e.iov_len - src)))
      else transfer_row mem (some l) dst (T : Int) n (i + 1) (src - e.iov_len) (D : Int) data := by
  rw [transfer_row]
  simp only [hl, hb, hlen, or_self, if_false]
  by_cases hs : src < e.iov_len
  · simp only [hs, if_true]
    have hsub : (T : Int) - (D : Int) = ((T - D : Nat) : Int) := by omega
    rw [hsub, size_t_of_int_natCast _ (by omega)]
    by_cases hlt : T - D < e.iov_len - src
    · have hmin : min (T - D) (e.iov_len - src) = T - D := by omega
      simp only [hlt, if_true, hmin]
      have h1 : ¬ (((T - D : Nat) : Int) < 0) := by omega
      simp only [h1, if_false, Int.toNat_ofNat]
      have h2 : (D : Int) + ((T - D : Nat) : Int) ≥ (T : Int) := by omega
      have h3 : D + (T - D) ≥ T := by omega
      simp only [h2, h3, if_true]
    · have hmin : min (T - D) (e.iov_len - src) = e.iov_len - src := by omega
      simp only [hlt, if_false, hmin]
      rw [int32_natCast _ (by omega)]
      have h1 : ¬ (((e.iov_len - src : Nat) : Int) < 0) := by omega
      simp only [h1, if_false, Int.toNat_ofNat]
      by_cases h4 : D + (e.iov_len - src) ≥ T
      · have h2 : (D : Int) + ((e.iov_len - src : Nat) : Int) ≥ (T : Int) := by omega
        simp only [h2, h4, if_true]
      · have h2 : ¬ ((D : Int) + ((e.iov_len - src : Nat) : Int) ≥ (T : Int)) := by omega
        simp only [h2, h4, if_false]
        have h5 : (D : Int) + ((e.iov_len - src : Nat) : Int) =
            ((D + (e.iov_len - src) : Nat) : Int) := by omega
        rw [h5]
  · simp only [hs, if_false]


theorem drop_eq_cons_of_getElem? {α : Type} (l : List α) (i : Nat) (e : α)
    (h : l[i]? = some e) : l.drop i = e :: l.drop (i + 1) := by
  have hi : i < l.length := by
    rcases Nat.lt_or_ge i l.length with hlt | hge
    · exact hlt
    · rw [List.getElem?_eq_none hge] at h; exact absurd h (by simp)
  rw [List.getElem?_eq_getElem hi] at h
  simp only [Option.some.injEq] at h
  rw [← h]
  exact List.drop_eq_getElem_cons hi

/-- The row loop on a backing vector whose elements are all usable: it
runs to completion, leaves the pixel bytes outside `[dst + D, dst + T)`
alone and fills `[dst + D, dst + T)` with the bytes of the concatenation of
the remaining elements from `src` on. -/
theorem transfer_row_spec (mem : Nat → Nat) (l : List iovec) (dst T : Nat)
    (hT : T < 2147483648) (hvalid : ∀ e ∈ l, e.iov_base ≠ 0 ∧ e.iov_len ≠ 0) :
    ∀ (n i src D : Nat) (data : Nat → Nat), i + n = l.length → D ≤ T →
      src + (T - D) ≤ iov_total_len (l.drop i) →
      ∃ data2, transfer_row mem (some l) dst (T : Int) n i src (D : Int) data = some data2 ∧
        (∀ j, j < dst + D ∨ dst + T ≤ j → data2 j = data j) ∧
        (∀ k, D ≤ k → k < T →
          data2 (dst + k) = backing_byte mem (l.drop i) (src + (k - D))) := by
  intro n
  induction n with
  | zero =>
    intro i src D data hin hD hsrc
    have hi : l.length ≤ i := by omega
    rw [List.drop_eq_nil_of_le hi] at hsrc
    simp only [iov_total_len] at hsrc
    refine ⟨data, by rw [transfer_row], fun _ _ => rfl, ?_⟩
    intro k hk1 hk2
    omega
  | succ n ih =>
    intro i src D data hin hD hsrc
    have hi : i < l.length := by omega
    have hget : l[i]? = some l[i] := List.getElem?_eq_getElem hi
    have hdrop := drop_eq_cons_of_getElem? l i l[i] hget
    have hv := hvalid l[i] (List.getElem_mem hi)
    generalize l[i] = e at hget hdrop hv
    rw [transfer_row_step mem l dst T D n i src data e hget hv.1 hv.2 hT hD]
    rw [hdrop] at hsrc ⊢
    simp only [iov_total_len] at hsrc
    by_cases hs : src < e.iov_len
    · simp only [hs, if_true]
      by_cases hdone : D + min (T - D) (e.iov_len - src) ≥ T
      · simp only [hdone, if_true]
        refine ⟨_, rfl, ?_, ?_⟩
        · intro j hj
          unfold memcpy_image
          have : ¬ (dst + D ≤ j ∧ j < dst + D + min (T - D) (e.iov_len - src)) := by omega
          simp only [this, if_false]
        · intro k hk1 hk2
          unfold memcpy_image
          have h1 : dst + D ≤ dst + k ∧ dst + k < dst + D + min (T - D) (e.iov_len - src) := by
            omega
          have h2 : src + (k - D) < e.iov_len := by omega
          simp only [h1, and_self, if_true, backing_byte, h2]
          congr 1
          omega
      · simp only [hdone, if_false]
        have hmin : min (T - D) (e.iov_len - src) = e.iov_len - src := by omega
        rw [hmin] at hdone ⊢
        obtain ⟨data2, hrun, hframe, hfill⟩ :=
          ih (i + 1) 0 (D + (e.iov_len - src))
            (memcpy_image data (dst + D) mem (e.iov_base + src) (e.iov_len - src))
            (by omega) (by omega) (by omega)
        refine ⟨data2, hrun, ?_, ?_⟩
        · intro j hj
          rw [hframe j (by omega)]
          unfold memcpy_image
          have : ¬ (dst + D ≤ j ∧ j < dst + D + (e.iov_len - src)) := by omega
          simp only [this, if_false]
        · intro k hk1 hk2
          by_cases hk : k < D + (e.iov_len - src)
          · rw [hframe (dst + k) (by omega)]
            unfold memcpy_image
            have h1 : dst + D ≤ dst + k ∧ dst + k < dst + D + (e.iov_len - src) := by omega
            have h2 : src + (k - D) < e.iov_len := by omega
            simp only [h1, and_self, if_true, backing_byte, h2]
            congr 1
            omega
          · rw [hfill k (by omega) hk2]
            have h2 : ¬ (src + (k - D) < e.iov_len) := by omega
            simp only [backing_byte, h2, if_false]
            congr 1
            omega
    · simp only [hs, if_false]
      obtain ⟨data2, hrun, hframe, hfill⟩ :=
        ih (i + 1) (src - e.iov_len) D data (by omega) hD (by omega)
      refine ⟨data2, hrun, hframe, ?_⟩
      intro k hk1 hk2
      rw [hfill k hk1 hk2]
      have h2 : ¬ (src + (k - D) < e.iov_len) := by omega
      simp only [backing_byte, h2, if_false]
      congr 1
      omega


/-! ## TRANSFER_TO_HOST_2D: all rows -/

theorem mod_mul_mod_left (a b m : Nat) : a % m * b % m = a * b % m := by
  rw [Nat.mul_mod (a % m) b m, Nat.mod_mod, ← Nat.mul_mod]

/-- The row loops on a backing vector whose elements are all usable, when no
32-bit offset wraps: rows `h .. h + n - 1` are filled from the concatenated
backing and every byte outside those rows is left alone. -/
theorem transfer_rows_spec (mem : Nat → Nat) (r2d : virtio_gpu_resource_2d)
    (req : virtio_gpu_transfer_to_host_2d) (l : List iovec) (stride bpp width : Nat)
    (hiov : r2d.iov = some l) (hcnt : r2d.iovcnt = l.length)
    (hvalid : ∀ e ∈ l, e.iov_base ≠ 0 ∧ e.iov_len ≠ 0)
    (hwb : width * bpp < 2147483648)
    (hfit : req.r.x * bpp + width * bpp ≤ stride)
    (htot : iov_total_len l < 4294967296) :
    ∀ (n h : Nat) (data : Nat → Nat),
      req.offset + stride * (h + n) ≤ iov_total_len l →
      (req.r.y + (h + n)) * stride < 4294967296 →
      ∃ data2, transfer_rows mem r2d req stride bpp width n h data = some data2 ∧
        (∀ j, (∀ r, h ≤ r → r < h + n →
            j < (req.r.y + r) * stride + req.r.x * bpp ∨
            (req.r.y + r) * stride + req.r.x * bpp + width * bpp ≤ j) → data2 j = data j) ∧
        (∀ r k, h ≤ r → r < h + n → k < width * bpp →
          data2 ((req.r.y + r) * stride + req.r.x * bpp + k) =
            backing_byte mem l (req.offset + stride * r + k)) := by
  intro n
  induction n with
  | zero =>
    intro h data _ _
    refine ⟨data, by rw [transfer_rows], fun _ _ => rfl, ?_⟩
    intro r k h1 h2
    omega
  | succ n ih =>
    intro h data hsrc hdst
    have e1 : stride * (h + (n + 1)) = stride * h + stride * n + stride := by ring
    have e2 : (req.r.y + (h + (n + 1))) * stride =
        (req.r.y + h) * stride + n * stride + stride := by ring
    rw [e1] at hsrc
    rw [e2] at hdst
    rw [transfer_rows]
    have hsrc_eq : (req.offset + stride * h % 4294967296) % 18446744073709551616 % 4294967296 =
        req.offset + stride * h := by omega
    have hdst_eq : ((req.r.y + h) % 4294967296 * stride % 4294967296 +
        req.r.x * bpp % 4294967296) % 4294967296 = (req.r.y + h) * stride + req.r.x * bpp := by
      rw [mod_mul_mod_left]
      omega
    have htotal : int32 ((width * bpp % 4294967296 : Nat) : Int) = ((width * bpp : Nat) : Int) := by
      rw [Nat.mod_eq_of_lt (by omega)]
      exact int32_natCast _ hwb
    simp only [hsrc_eq, hdst_eq, htotal, hiov, hcnt]
    clear hsrc_eq hdst_eq htotal
    have hrow := transfer_row_spec mem l ((req.r.y + h) * stride + req.r.x * bpp) (width * bpp)
      hwb hvalid l.length 0 (req.offset + stride * h) 0 data (by omega) (by omega)
      (by simp only [List.drop_zero]; omega)
    simp only [Nat.cast_zero, List.drop_zero, Nat.add_zero, Nat.sub_zero] at hrow
    obtain ⟨data1, hrun1, hframe1, hfill1⟩ := hrow
    rw [hrun1]
    simp only
    have e3 : stride * (h + 1 + n) = stride * h + stride * n + stride := by ring
    have e4 : (req.r.y + (h + 1 + n)) * stride =
        (req.r.y + h) * stride + n * stride + stride := by ring
    obtain ⟨data2, hrun2, hframe2, hfill2⟩ :=
      ih (h + 1) data1 (by rw [e3]; exact hsrc) (by rw [e4]; exact hdst)
    refine ⟨data2, hrun2, ?_, ?_⟩
    · intro j hj
      rw [hframe2 j (fun r hr1 hr2 => hj r (by omega) (by omega))]
      have := hj h (by omega) (by omega)
      exact hframe1 j (by omega)
    · intro r k hr1 hr2 hk
      by_cases hrh : r = h
      · subst hrh
        rw [hframe2]
        · exact hfill1 k (by omega) hk
        · intro r2 hr3 hr4
          left
          have hm := Nat.mul_le_mul_right stride (by omega : req.r.y + r + 1 ≤ req.r.y + r2)
          have e5 : (req.r.y + r + 1) * stride = (req.r.y + r) * stride + stride := by ring
          omega
      · exact hfill2 r k (by omega) (by omega) hk


/-! ## TRANSFER_TO_HOST_2D: the handler -/

theorem find_update_self (id : Nat) (f : virtio_gpu_resource_2d → virtio_gpu_resource_2d)
    (hf : ∀ r, (f r).resource_id = r.resource_id) (l : List virtio_gpu_resource_2d)
    (r : virtio_gpu_resource_2d) (h : find_r2d id l = some r) :
    find_r2d id (update_r2d id f l) = some (f r) := by
  induction l with
  | nil => simp [find_r2d] at h
  | cons a rest ih =>
    by_cases ha : a.resource_id = id
    · simp only [find_r2d, ha, if_true, Option.some.injEq] at h
      subst h
      simp [update_r2d, find_r2d, ha, hf]
    · simp only [find_r2d, ha, if_false] at h
      simp [update_r2d, find_r2d, ha, ih h]

theorem find_update_other (id other : Nat) (hne : other ≠ id)
    (f : virtio_gpu_resource_2d → virtio_gpu_resource_2d)
    (hf : ∀ r, (f r).resource_id = r.resource_id) (l : List virtio_gpu_resource_2d) :
    find_r2d other (update_r2d id f l) = find_r2d other l := by
  induction l with
  | nil => rfl
  | cons a rest ih =>
    by_cases ha : a.resource_id = id
    · have hao : a.resource_id ≠ other := fun e => hne (e.symm.trans ha)
      simp [update_r2d, find_r2d, ha, hf, hne.symm]
    · by_cases hb : a.resource_id = other
      · simp [update_r2d, find_r2d, ha, hb, hne]
      · simp [update_r2d, find_r2d, ha, hb, ih]

theorem rect_in_bounds (r : virtio_gpu_rect) (r2d : virtio_gpu_resource_2d)
    (hW : r2d.width < 4294967296) (hH : r2d.height < 4294967296)
    (hx : r.x + r.width ≤ r2d.width) (hy : r.y + r.height ≤ r2d.height) :
    rect_out_of_bounds r r2d = false := by
  unfold rect_out_of_bounds
  simp only [Bool.or_eq_false_iff, decide_eq_false_iff_not, not_lt, gt_iff_lt]
  refine ⟨⟨⟨⟨⟨?_, ?_⟩, ?_⟩, ?_⟩, ?_⟩, ?_⟩ <;> omega

/-- The accepting branch of the handler, once the row loops are known to
run to completion with result `data`. -/
theorem transfer_accept (env : host_env) (gpu : virtio_gpu) (cmd : virtio_gpu_command)
    (req : virtio_gpu_transfer_to_host_2d) (r2d : virtio_gpu_resource_2d) (data : Nat → Nat)
    (hfind : virtio_gpu_find_resource_2d gpu req.resource_id = some r2d)
    (hok : rect_out_of_bounds req.r r2d = false)
    (hrows : transfer_rows env.mem r2d req (r2d.image.stride % 4294967296) (image_bpp r2d.image)
      (if req.r.width < r2d.width then req.r.width else r2d.width)
      (if req.r.height < r2d.height then req.r.height else r2d.height) 0 r2d.image.data =
        some data) :
    ∃ res, virtio_gpu_cmd_transfer_to_host_2d env gpu cmd req = some res ∧
      reply_type res = some VIRTIO_GPU_RESP_OK_NODATA ∧
      res.cmd.iolen = 24 ∧
      res.gpu.r2d_list = update_r2d req.resource_id
        (fun r2d => { r2d with image := { r2d.image with data := data } }) gpu.r2d_list ∧
      virtio_gpu_find_resource_2d res.gpu req.resource_id =
        some { r2d with image := { r2d.image with data := data } } := by
  simp only [virtio_gpu_cmd_transfer_to_host_2d, hfind, hok, hrows]
  refine ⟨_, rfl, ?_, rfl, rfl, ?_⟩
  · simp [reply_type, virtio_gpu_resp.hdr]
  · unfold virtio_gpu_find_resource_2d at hfind ⊢
    exact find_update_self req.resource_id
      (fun r2d => { r2d with image := { r2d.image with data := data } }) (fun _ => rfl) _ _ hfind

/-- Reassembly when no 32-bit offset wraps: for a resource whose backing
elements are all usable, a rectangle inside the resource, a backing that
holds `offset + stride * h` bytes and is shorter than 4 GiB, rows that fit
in the stride, and a pixel buffer shorter than 4 GiB, the handler replies
OK_NODATA, every byte of every row of the rectangle is the matching byte of
the concatenated backing, and every byte outside the rows is as before. -/
theorem transfer_reassembles (env : host_env) (gpu : virtio_gpu) (cmd : virtio_gpu_command)
    (req : virtio_gpu_transfer_to_host_2d) (r2d : virtio_gpu_resource_2d) (l : List iovec)
    (hfind : virtio_gpu_find_resource_2d gpu req.resource_id = some r2d)
    (hiov : r2d.iov = some l) (hcnt : r2d.iovcnt = l.length)
    (hvalid : ∀ e ∈ l, e.iov_base ≠ 0 ∧ e.iov_len ≠ 0)
    (hW : r2d.width < 4294967296) (hH : r2d.height < 4294967296)
    (hx : req.r.x + req.r.width ≤ r2d.width) (hy : req.r.y + req.r.height ≤ r2d.height)
    (hoff : req.offset + r2d.image.stride * req.r.height ≤ iov_total_len l)
    (htot : iov_total_len l < 4294967296)
    (hpitch : r2d.width * image_bpp r2d.image ≤ r2d.image.stride)
    (hs : r2d.image.stride < 2147483648)
    (hsize : r2d.image.stride * r2d.height < 4294967296) :
    ∃ res data, virtio_gpu_cmd_transfer_to_host_2d env gpu cmd req = some res ∧
      reply_type res = some VIRTIO_GPU_RESP_OK_NODATA ∧
      virtio_gpu_find_resource_2d res.gpu req.resource_id =
        some { r2d with image := { r2d.image with data := data } } ∧
      (∀ r k, r < req.r.height → k < req.r.width * image_bpp r2d.image →
        data ((req.r.y + r) * r2d.image.stride + req.r.x * image_bpp r2d.image + k) =
          backing_byte env.mem l (req.offset + r2d.image.stride * r + k)) ∧
      (∀ j, (∀ r, r < req.r.height →
          j < (req.r.y + r) * r2d.image.stride + req.r.x * image_bpp r2d.image ∨
          (req.r.y + r) * r2d.image.stride + req.r.x * image_bpp r2d.image +
            req.r.width * image_bpp r2d.image ≤ j) → data j = r2d.image.data j) := by
  have hok := rect_in_bounds req.r r2d hW hH hx hy
  have hwidth : (if req.r.width < r2d.width then req.r.width else r2d.width) = req.r.width := by
    split_ifs <;> omega
  have hheight : (if req.r.height < r2d.height then req.r.height else r2d.height) =
      req.r.height := by
    split_ifs <;> omega
  have hsmod : r2d.image.stride % 4294967296 = r2d.image.stride := Nat.mod_eq_of_lt (by omega)
  have hxw : req.r.x * image_bpp r2d.image + req.r.width * image_bpp r2d.image ≤
      r2d.image.stride := by
    have := Nat.mul_le_mul_right (image_bpp r2d.image) hx
    rw [Nat.add_mul] at this
    omega
  have hyh : (req.r.y + (0 + req.r.height)) * r2d.image.stride < 4294967296 := by
    have := Nat.mul_le_mul_right r2d.image.stride hy
    rw [Nat.zero_add]
    rw [Nat.mul_comm r2d.image.stride r2d.height] at hsize
    omega
  obtain ⟨data, hrun, hframe, hfill⟩ :=
    transfer_rows_spec env.mem r2d req l r2d.image.stride (image_bpp r2d.image) req.r.width
      hiov hcnt hvalid (by omega) hxw htot req.r.height 0 r2d.image.data
      (by rw [Nat.zero_add]; exact hoff) hyh
  have hrows : transfer_rows env.mem r2d req (r2d.image.stride % 4294967296)
      (image_bpp r2d.image)
      (if req.r.width < r2d.width then req.r.width else r2d.width)
      (if req.r.height < r2d.height then req.r.height else r2d.height) 0 r2d.image.data =
        some data := by
    rw [hwidth, hheight, hsmod]; exact hrun
  obtain ⟨res, hres, hreply, _, _, hfound⟩ := transfer_accept env gpu cmd req r2d data hfind hok hrows
  refine ⟨res, data, hres, hreply, hfound, ?_, ?_⟩
  · intro r k hr hk
    exact hfill r k (Nat.zero_le _) (by omega) hk
  · intro j hj
    exact hframe j (fun r _ hr2 => hj r (by omega))


theorem transfer_rows_skip (mem : Nat → Nat) (r2d : virtio_gpu_resource_2d)
    (req : virtio_gpu_transfer_to_host_2d) (stride bpp width base : Nat)
    (hiov : r2d.iov = some [{ iov_base := base, iov_len := 0 }]) (hcnt : r2d.iovcnt = 1) :
    ∀ (n h : Nat) (data : Nat → Nat),
      transfer_rows mem r2d req stride bpp width n h data = some data := by
  intro n
  induction n with
  | zero => intro h data; rw [transfer_rows]
  | succ n ih =>
    intro h data
    rw [transfer_rows]
    simp only [hiov, hcnt]
    rw [transfer_row]
    simp only [List.getElem?_cons_zero, or_true, if_true]
    rw [transfer_row]
    exact ih (h + 1) data

/-- C2: for a resource of size W x H whose backing is one byte range of
exactly `stride * H` bytes with a mapped base, TRANSFER_TO_HOST_2D of the
full rectangle `(0, 0, W, H)` at offset 0 replies OK_NODATA and leaves every
one of the `stride * H` bytes of the pixel buffer equal to the backing byte
at the same position. The resource is one the device can hold: its
dimensions are 32-bit values, the length of the backing element fits the
32-bit `length` of a memory entry, the stride pixman reports is an `int`,
and the rows of the image are not padded (`stride = W * bpp`, as pixman lays
out the images of the eight 32-bit formats). -/
theorem transfer_full_copy (env : host_env) (gpu : virtio_gpu) (cmd : virtio_gpu_command)
    (req : virtio_gpu_transfer_to_host_2d) (r2d : virtio_gpu_resource_2d) (base : Nat)
    (hfind : virtio_gpu_find_resource_2d gpu req.resource_id = some r2d)
    (hiov : r2d.iov = some [{ iov_base := base, iov_len := r2d.image.stride * r2d.height }])
    (hcnt : r2d.iovcnt = 1) (hbase : base ≠ 0)
    (hlen : r2d.image.stride * r2d.height < 4294967296)
    (hW : r2d.width < 4294967296) (hH : r2d.height < 4294967296)
    (hs : r2d.image.stride < 2147483648)
    (hpitch : r2d.height ≠ 0 → r2d.image.stride = r2d.width * image_bpp r2d.image)
    (hrect : req.r = { x := 0, y := 0, width := r2d.width, height := r2d.height })
    (hoff : req.offset = 0) :
    ∃ res data, virtio_gpu_cmd_transfer_to_host_2d env gpu cmd req = some res ∧
      reply_type res = some VIRTIO_GPU_RESP_OK_NODATA ∧
      virtio_gpu_find_resource_2d res.gpu req.resource_id =
        some { r2d with image := { r2d.image with data := data } } ∧
      (∀ j, j < r2d.image.stride * r2d.height → data j = env.mem (base + j)) ∧
      (List.range (r2d.image.stride * r2d.height)).map data =
        backing_bytes env.mem [{ iov_base := base, iov_len := r2d.image.stride * r2d.height }] := by
  have hx : req.r.x + req.r.width ≤ r2d.width := by rw [hrect]; simp
  have hy : req.r.y + req.r.height ≤ r2d.height := by rw [hrect]; simp
  have hlist : ∀ data : Nat → Nat,
      (∀ j, j < r2d.image.stride * r2d.height → data j = env.mem (base + j)) →
      (List.range (r2d.image.stride * r2d.height)).map data =
        backing_bytes env.mem
          [{ iov_base := base, iov_len := r2d.image.stride * r2d.height }] := by
    intro data hd
    simp only [backing_bytes, List.map_cons, List.map_nil, List.flatten_cons, List.flatten_nil,
      List.append_nil, iov_bytes]
    apply List.map_congr_left
    intro j hj
    exact hd j (List.mem_range.mp hj)
  by_cases hzero : r2d.image.stride * r2d.height = 0
  · rw [hzero] at hiov
    have hrows := transfer_rows_skip env.mem r2d req (r2d.image.stride % 4294967296)
      (image_bpp r2d.image) (if req.r.width < r2d.width then req.r.width else r2d.width) base
      hiov hcnt (if req.r.height < r2d.height then req.r.height else r2d.height) 0
      r2d.image.data
    obtain ⟨res, hres, hreply, _, _, hfound⟩ :=
      transfer_accept env gpu cmd req r2d r2d.image.data hfind
        (rect_in_bounds req.r r2d hW hH hx hy) hrows
    have hd : ∀ j, j < r2d.image.stride * r2d.height → r2d.image.data j = env.mem (base + j) := by
      intro j hj; omega
    exact ⟨res, r2d.image.data, hres, hreply, hfound, hd, hlist _ hd⟩
  · have hHne : r2d.height ≠ 0 := fun h => hzero (by rw [h, Nat.mul_zero])
    have hSne : r2d.image.stride ≠ 0 := fun h => hzero (by rw [h, Nat.zero_mul])
    have hp := hpitch hHne
    obtain ⟨res, data, hres, hreply, hfound, hfill, _⟩ :=
      transfer_reassembles env gpu cmd req r2d
        [{ iov_base := base, iov_len := r2d.image.stride * r2d.height }] hfind hiov (by rw [hcnt]; rfl)
        (by
          intro e he
          simp only [List.mem_singleton] at he
          subst he
          exact ⟨hbase, hzero⟩)
        hW hH hx hy
        (by rw [hoff, hrect]; simp [iov_total_len])
        (by simpa [iov_total_len] using hlen)
        (by omega) hs hlen
    have hd : ∀ j, j < r2d.image.stride * r2d.height → data j = env.mem (base + j) := by
      intro j hj
      have hr : j / r2d.image.stride < r2d.height :=
        Nat.div_lt_of_lt_mul hj
      have hk : j % r2d.image.stride < r2d.image.stride := Nat.mod_lt _ (Nat.pos_of_ne_zero hSne)
      have hdecomp : r2d.image.stride * (j / r2d.image.stride) + j % r2d.image.stride = j :=
        Nat.div_add_mod j r2d.image.stride
      have := hfill (j / r2d.image.stride) (j % r2d.image.stride)
        (by rw [hrect]; exact hr) (by rw [hrect]; simp only; rw [← hp]; exact hk)
      rw [hrect, hoff] at this
      simp only [Nat.zero_add, Nat.zero_mul, Nat.add_zero] at this
      rw [Nat.mul_comm (j / r2d.image.stride) r2d.image.stride, hdecomp] at this
      rw [this]
      simp only [backing_byte, hj, if_true]
    exact ⟨res, data, hres, hreply, hfound, hd, hlist _ hd⟩

/-- Witness of C2: scenario A of the specification, a 4 x 2 resource whose
backing is the 32 bytes `0x00..0x1F`. -/
theorem transfer_full_copy_witness :
    ∃ res data, virtio_gpu_cmd_transfer_to_host_2d (ex_env ex_mem_a) ex_gpu_a ex_create_cmd
        { r := { x := 0, y := 0, width := 4, height := 2 }, offset := 0, resource_id := 1 } =
        some res ∧
      reply_type res = some VIRTIO_GPU_RESP_OK_NODATA ∧
      virtio_gpu_find_resource_2d res.gpu 1 =
        some { ex_r2d_a with image := { ex_r2d_a.image with data := data } } ∧
      (∀ j, j < 32 → data j = ex_mem_a (8192 + j)) ∧
      (List.range 32).map data =
        backing_bytes ex_mem_a [{ iov_base := 8192, iov_len := 32 }] :=
  transfer_full_copy (ex_env ex_mem_a) ex_gpu_a ex_create_cmd
    { r := { x := 0, y := 0, width := 4, height := 2 }, offset := 0, resource_id := 1 }
    ex_r2d_a 8192 rfl rfl rfl (by decide) (by decide) (by decide) (by decide) (by decide)
    (fun _ => rfl) rfl rfl


/-! ## TRANSFER_TO_HOST_2D: 32-bit offsets -/

/-- C1 at an input where it fails. The resource is 1 x 1073741825 pixels
(stride 4, 4 bytes per pixel, a pixel buffer of 4 GiB + 4 bytes) with one
usable backing element of 4 bytes; the request is the rectangle
`(0, 1073741824, 1, 1)` at offset 0, inside the resource, and the backing
holds `offset + stride * h = 4` bytes. The handler replies OK_NODATA, but
`dst_offset = (1073741824 + 0) * 4` is computed in `uint32_t` and wraps to
0: pixel byte 4294967296 keeps its old value 0 although byte 0 of the
concatenated backing is 0xAA, and the row lands on pixel byte 0 instead. -/
theorem transfer_dst_offset_wraps :
    ∃ res r2d,
      virtio_gpu_find_resource_2d ex_gpu_tall_backed 1 = some ex_r2d_tall ∧
      (0 + 1 ≤ ex_r2d_tall.width ∧ 1073741824 + 1 ≤ ex_r2d_tall.height) ∧
      (0 + ex_r2d_tall.image.stride * 1 ≤ iov_total_len [{ iov_base := 8192, iov_len := 4 }] ∧
        iov_total_len [{ iov_base := 8192, iov_len := 4 }] < 4294967296) ∧
      virtio_gpu_cmd_transfer_to_host_2d (ex_env ex_mem_tall) ex_gpu_tall_backed ex_create_cmd
        { r := { x := 0, y := 1073741824, width := 1, height := 1 }, offset := 0,
          resource_id := 1 } = some res ∧
      reply_type res = some VIRTIO_GPU_RESP_OK_NODATA ∧
      virtio_gpu_find_resource_2d res.gpu 1 = some r2d ∧
      (backing_bytes ex_mem_tall [{ iov_base := 8192, iov_len := 4 }])[0 + 4 * 0 + 0]? =
        some 0xAA ∧
      r2d.image.data ((1073741824 + 0) * 4 + 0 * 4 + 0) = 0 ∧
      r2d.image.data 0 = 0xAA := by
  refine ⟨_, _, rfl, by decide, by decide, rfl, by decide, rfl, by decide, by decide, by decide⟩

/-- C3 at an input where it fails. The resource is 2147483648 x 0 pixels;
the request rectangle is `(2147483648, 0, 2147483648, 0)`, so
`x + w = 4294967296 > W` as exact integers. Each of `x` and `w` passes its
own comparison with `W`, the `uint32_t` sum `x + w` wraps to 0, and the
handler replies OK_NODATA instead of ERR_INVALID_PARAMETER. -/
theorem transfer_rect_sum_wraps :
    ∃ res,
      virtio_gpu_find_resource_2d ex_gpu_wide 1 = some ex_r2d_wide ∧
      2147483648 + 2147483648 > ex_r2d_wide.width ∧
      virtio_gpu_cmd_transfer_to_host_2d (ex_env (ex_mem [])) ex_gpu_wide ex_create_cmd
        { r := { x := 2147483648, y := 0, width := 2147483648, height := 0 }, offset := 0,
          resource_id := 1 } = some res ∧
      reply_type res = some VIRTIO_GPU_RESP_OK_NODATA ∧
      reply_type res ≠ some VIRTIO_GPU_RESP_ERR_INVALID_PARAMETER := by
  refine ⟨_, rfl, by decide, rfl, by decide, by decide⟩

/-- Out-of-bounds rectangles where the 32-bit sums cannot wrap: against a
resource narrower and lower than 2^31, a request whose 32-bit rectangle has
`x + w > W` or `y + h > H` is answered ERR_INVALID_PARAMETER and the device
is unchanged. -/
theorem transfer_rejects_out_of_bounds (env : host_env) (gpu : virtio_gpu)
    (cmd : virtio_gpu_command) (req : virtio_gpu_transfer_to_host_2d)
    (r2d : virtio_gpu_resource_2d)
    (hfind : virtio_gpu_find_resource_2d gpu req.resource_id = some r2d)
    (hW : r2d.width < 2147483648) (hH : r2d.height < 2147483648)
    (hx : req.r.x < 4294967296) (hy : req.r.y < 4294967296)
    (hw : req.r.width < 4294967296) (hh : req.r.height < 4294967296)
    (hout : req.r.x + req.r.width > r2d.width ∨ req.r.y + req.r.height > r2d.height) :
    ∃ res, virtio_gpu_cmd_transfer_to_host_2d env gpu cmd req = some res ∧
      reply_type res = some VIRTIO_GPU_RESP_ERR_INVALID_PARAMETER ∧ res.gpu = gpu := by
  have hb : rect_out_of_bounds req.r r2d = true := by
    unfold rect_out_of_bounds
    simp only [Bool.or_eq_true, decide_eq_true_eq, gt_iff_lt]
    omega
  simp only [virtio_gpu_cmd_transfer_to_host_2d, hfind, hb, if_true]
  refine ⟨_, rfl, ?_, rfl⟩
  simp [reply_type, virtio_gpu_resp.hdr]


/-! ## Resource id 0 -/

theorem create_2d_ids_mem (env : host_env) (gpu : virtio_gpu) (cmd : virtio_gpu_command)
    (req : virtio_gpu_resource_create_2d) :
    ∀ x ∈ resource_ids (virtio_gpu_cmd_resource_create_2d env gpu cmd req).gpu,
      x ∈ resource_ids gpu ∨ x = req.resource_id := by
  intro x hx
  cases hf : find_r2d req.resource_id gpu.r2d_list with
  | some r => rw [create_2d_dup env gpu cmd req r hf] at hx; exact Or.inl hx
  | none =>
    cases ha : env.pixman_image_create_bits (virtio_gpu_get_pixman_format req.format)
        req.width req.height with
    | none => rw [create_2d_oom env gpu cmd req hf ha] at hx; exact Or.inl hx
    | some img =>
      rw [create_2d_ok env gpu cmd req img hf ha] at hx
      simp only [respond_iov1, resource_ids, List.map_cons, List.mem_cons] at hx
      rcases hx with hx | hx
      · exact Or.inr hx
      · exact Or.inl hx

theorem unref_ids_mem (gpu : virtio_gpu) (cmd : virtio_gpu_command)
    (req : virtio_gpu_resource_unref) :
    ∀ x ∈ resource_ids (virtio_gpu_cmd_resource_unref gpu cmd req).gpu, x ∈ resource_ids gpu := by
  intro x hx
  cases hf : find_r2d req.resource_id gpu.r2d_list with
  | some r =>
    rw [unref_present gpu cmd req r hf] at hx
    exact (remove_ids_sublist _ _).subset hx
  | none => rw [unref_absent gpu cmd req hf] at hx; exact hx

theorem dispatch_ids_mem (env : host_env) (gpu : virtio_gpu) (cmd : virtio_gpu_command)
    (res : cmd_result) (h : ctrl_dispatch env gpu cmd = some res) :
    ∀ x ∈ resource_ids res.gpu, x ∈ resource_ids gpu ∨
      (cmd.hdr.type = VIRTIO_GPU_CMD_RESOURCE_CREATE_2D ∧
        x = le_bytes env.mem (iov0_base cmd + 24) 4) := by
  intro x hx
  unfold ctrl_dispatch at h
  simp only at h
  split at h
  · simp only [Option.some.injEq] at h; subst h; exact Or.inl hx
  split at h
  · simp only [Option.some.injEq] at h; subst h; exact Or.inl hx
  split at h
  · rename_i hty
    simp only [Option.some.injEq] at h; subst h
    rcases create_2d_ids_mem _ _ _ _ x hx with h1 | h1
    · exact Or.inl h1
    · exact Or.inr ⟨hty, h1⟩
  split at h
  · simp only [Option.some.injEq] at h; subst h; exact Or.inl (unref_ids_mem _ _ _ x hx)
  split at h
  · rw [attach_backing_ids _ _ _ _ _ h] at hx; exact Or.inl hx
  split at h
  · simp only [Option.some.injEq] at h; subst h
    rw [detach_backing_ids] at hx; exact Or.inl hx
  split at h
  · simp only [Option.some.injEq] at h; subst h
    simp only [resource_ids, set_scanout_r2d_list] at hx; exact Or.inl hx
  split at h
  · rw [transfer_ids _ _ _ _ _ h] at hx; exact Or.inl hx
  split at h
  · simp only [Option.some.injEq] at h; subst h
    simp only [resource_ids, flush_r2d_list] at hx; exact Or.inl hx
  · simp only [Option.some.injEq] at h; subst h; exact Or.inl hx

/-- C11, as the specification states it, fails: RESOURCE_CREATE_2D with
`resource_id = 0` on the empty table, dispatched as `virtio_gpu_ctrl_bh`
does, puts a resource with id 0 on the list, and `find(0)` returns it. -/
theorem create_2d_accepts_id_zero :
    Reachable ex_gpu_zero ∧
    ctrl_dispatch (ex_env (ex_mem ex_create_zero_bytes)) ex_gpu_empty ex_create_zero_cmd =
      some (virtio_gpu_cmd_resource_create_2d (ex_env (ex_mem ex_create_zero_bytes)) ex_gpu_empty
        ex_create_zero_cmd { resource_id := 0, format := 1, width := 4, height := 2 }) ∧
    reply_type (virtio_gpu_cmd_resource_create_2d (ex_env (ex_mem ex_create_zero_bytes))
      ex_gpu_empty ex_create_zero_cmd { resource_id := 0, format := 1, width := 4, height := 2 }) =
      some VIRTIO_GPU_RESP_OK_NODATA ∧
    (virtio_gpu_find_resource_2d ex_gpu_zero 0).isSome = true :=
  ⟨Reachable.dispatch (ex_env (ex_mem ex_create_zero_bytes)) ex_create_zero_cmd _
      (Reachable.init _ _)
      (by rfl : ctrl_dispatch (ex_env (ex_mem ex_create_zero_bytes)) ex_gpu_empty
        ex_create_zero_cmd =
        some (virtio_gpu_cmd_resource_create_2d (ex_env (ex_mem ex_create_zero_bytes))
          ex_gpu_empty ex_create_zero_cmd
          { resource_id := 0, format := 1, width := 4, height := 2 })),
    rfl, by decide, rfl⟩

/-- C11 amended: starting from the empty table, after any sequence of
dispatched commands and resets among which there is no RESOURCE_CREATE_2D
with `resource_id = 0`, no resource with id 0 is on the list: `find(0)`
returns none. -/
theorem id_zero_absent_without_create (gpu : virtio_gpu) (hreach : ReachableNoCreateZero gpu) :
    virtio_gpu_find_resource_2d gpu 0 = none := by
  unfold virtio_gpu_find_resource_2d
  rw [find_r2d_eq_none_iff]
  induction hreach with
  | init cfg vdpy => simp
  | dispatch env cmd res _ hnz hd ih =>
    intro hx
    rcases dispatch_ids_mem env _ cmd res hd 0 hx with h1 | h1
    · exact ih h1
    · exact hnz ⟨h1.1, h1.2.symm⟩
  | reset _ _ => simp [virtio_gpu_reset, reset_loop_nil]

/-- Witness of amended C11: the device after `RESOURCE_CREATE_2D(id=7, ...)`. -/
theorem id_zero_absent_without_create_witness :
    ReachableNoCreateZero ex_gpu_one ∧ virtio_gpu_find_resource_2d ex_gpu_one 0 = none :=
  have hreach : ReachableNoCreateZero ex_gpu_one :=
    ReachableNoCreateZero.dispatch (ex_env (ex_mem ex_create_bytes)) ex_create_cmd _
      (ReachableNoCreateZero.init _ _)
      (by unfold creates_id_zero; decide)
      (by rfl : ctrl_dispatch (ex_env (ex_mem ex_create_bytes)) ex_gpu_empty ex_create_cmd =
        some (virtio_gpu_cmd_resource_create_2d (ex_env (ex_mem ex_create_bytes)) ex_gpu_empty
          ex_create_cmd { resource_id := 7, format := 1, width := 4, height := 2 }))
  ⟨hreach, id_zero_absent_without_create ex_gpu_one hreach⟩


/-! ## RESOURCE_ATTACH_BACKING and RESOURCE_DETACH_BACKING: replies -/

/-- The response RESOURCE_ATTACH_BACKING stores: type OK_NODATA with the fence of the request. -/
theorem attach_backing_result (env : host_env) (gpu : virtio_gpu) (cmd : virtio_gpu_command)
    (req : virtio_gpu_resource_attach_backing) (res : cmd_result)
    (h : virtio_gpu_cmd_resource_attach_backing env gpu cmd req = some res) :
    ∃ hdr, res.writes = [(cmd.iovcnt - 1, .ctrl hdr)] ∧ hdr.type = VIRTIO_GPU_RESP_OK_NODATA ∧
      res.cmd.iolen = 24 := by
  have key : ∀ (g : virtio_gpu) (t : Nat) (r : cmd_result),
      r = { gpu := g, cmd := { cmd with iolen := 24 },
            writes := [(cmd.iovcnt - 1, .ctrl (virtio_gpu_update_resp_fence cmd.hdr
              { ({ resp_zero with type := t } : virtio_gpu_ctrl_hdr) with
                type := VIRTIO_GPU_RESP_OK_NODATA }))] } →
      ∃ hdr, r.writes = [(cmd.iovcnt - 1, .ctrl hdr)] ∧ hdr.type = VIRTIO_GPU_RESP_OK_NODATA ∧
        r.cmd.iolen = 24 := by
    intro g t r hr
    subst hr
    refine ⟨_, rfl, ?_, rfl⟩
    unfold virtio_gpu_update_resp_fence
    split <;> rfl
  cases h1 : find_r2d req.resource_id gpu.r2d_list with
  | some r =>
    simp only [virtio_gpu_cmd_resource_attach_backing, virtio_gpu_find_resource_2d, h1] at h
    split at h
    · exact absurd h (by simp)
    · simp only [Option.some.injEq] at h
      exact key _ 0 res h.symm
  | none =>
    simp only [virtio_gpu_cmd_resource_attach_backing, virtio_gpu_find_resource_2d, h1,
      Option.some.injEq] at h
    exact key _ VIRTIO_GPU_RESP_ERR_INVALID_RESOURCE_ID res h.symm

theorem attach_backing_unknown (env : host_env) (gpu : virtio_gpu) (cmd : virtio_gpu_command)
    (req : virtio_gpu_resource_attach_backing)
    (hf : virtio_gpu_find_resource_2d gpu req.resource_id = none) :
    ∃ res, virtio_gpu_cmd_resource_attach_backing env gpu cmd req = some res ∧ res.gpu = gpu := by
  simp only [virtio_gpu_cmd_resource_attach_backing, hf]
  exact ⟨_, rfl, rfl⟩

theorem attach_backing_fits (env : host_env) (gpu : virtio_gpu) (cmd : virtio_gpu_command)
    (req : virtio_gpu_resource_attach_backing)
    (hfit : (attach_entry_bytes env.mem cmd).length ≤ req.nr_entries * 16) :
    ∃ res, virtio_gpu_cmd_resource_attach_backing env gpu cmd req = some res := by
  cases h1 : find_r2d req.resource_id gpu.r2d_list with
  | some r =>
    have hn : ¬ (req.nr_entries * 16 < (attach_entry_bytes env.mem cmd).length) := by omega
    simp only [virtio_gpu_cmd_resource_attach_backing, virtio_gpu_find_resource_2d, h1, hn,
      if_false]
    exact ⟨_, rfl⟩
  | none =>
    simp only [virtio_gpu_cmd_resource_attach_backing, virtio_gpu_find_resource_2d, h1]
    exact ⟨_, rfl⟩

/-- C13: whenever RESOURCE_ATTACH_BACKING runs to completion the one
response it stores goes to the last segment (`cmd->iov[cmd->iovcnt - 1]`) and
has type OK_NODATA, also when the `resource_id` is not on the list; in that
case the handler does run to completion and leaves the device unchanged. It
also runs to completion whenever the bytes of the entry segments fit the
entries buffer of `nr_entries * 16` bytes. -/
theorem attach_backing_reply (env : host_env) (gpu : virtio_gpu) (cmd : virtio_gpu_command)
    (req : virtio_gpu_resource_attach_backing) :
    (∀ res, virtio_gpu_cmd_resource_attach_backing env gpu cmd req = some res →
      reply_type res = some VIRTIO_GPU_RESP_OK_NODATA ∧
      ∃ hdr, res.writes = [(cmd.iovcnt - 1, .ctrl hdr)] ∧
        hdr.type = VIRTIO_GPU_RESP_OK_NODATA) ∧
    (virtio_gpu_find_resource_2d gpu req.resource_id = none →
      ∃ res, virtio_gpu_cmd_resource_attach_backing env gpu cmd req = some res ∧
        reply_type res = some VIRTIO_GPU_RESP_OK_NODATA ∧ res.gpu = gpu) ∧
    ((attach_entry_bytes env.mem cmd).length ≤ req.nr_entries * 16 →
      ∃ res, virtio_gpu_cmd_resource_attach_backing env gpu cmd req = some res) := by
  have hall : ∀ res, virtio_gpu_cmd_resource_attach_backing env gpu cmd req = some res →
      reply_type res = some VIRTIO_GPU_RESP_OK_NODATA ∧
      ∃ hdr, res.writes = [(cmd.iovcnt - 1, .ctrl hdr)] ∧
        hdr.type = VIRTIO_GPU_RESP_OK_NODATA := by
    intro res h
    obtain ⟨hdr, hw, ht, _⟩ := attach_backing_result env gpu cmd req res h
    refine ⟨?_, hdr, hw, ht⟩
    simp [reply_type, hw, virtio_gpu_resp.hdr, ht]
  refine ⟨hall, ?_, attach_backing_fits env gpu cmd req⟩
  intro hf
  obtain ⟨res, hres, hgpu⟩ := attach_backing_unknown env gpu cmd req hf
  exact ⟨res, hres, (hall res hres).1, hgpu⟩

/-- Witness of C13: ATTACH_BACKING for id 42 on the empty device. -/
theorem attach_backing_reply_witness :
    ∃ res, virtio_gpu_cmd_resource_attach_backing (ex_env ex_mem_a) ex_gpu_empty ex_attach_cmd
        { resource_id := 42, nr_entries := 1 } = some res ∧
      reply_type res = some VIRTIO_GPU_RESP_OK_NODATA ∧ res.gpu = ex_gpu_empty :=
  (attach_backing_reply (ex_env ex_mem_a) ex_gpu_empty ex_attach_cmd
    { resource_id := 42, nr_entries := 1 }).2.1 rfl

/-- C14: RESOURCE_DETACH_BACKING replies OK_NODATA for every table and
every `resource_id`. A resource with that id is afterwards found without a
backing vector and with its id, width, height, format and image as before;
every other id is found as before; when the id is not on the list the
device is unchanged. -/
theorem detach_backing_effect (gpu : virtio_gpu) (cmd : virtio_gpu_command)
    (req : virtio_gpu_resource_detach_backing) :
    reply_type (virtio_gpu_cmd_resource_detach_backing gpu cmd req) =
      some VIRTIO_GPU_RESP_OK_NODATA ∧
    (∀ r2d, virtio_gpu_find_resource_2d gpu req.resource_id = some r2d →
      ∃ r2d2, virtio_gpu_find_resource_2d
          (virtio_gpu_cmd_resource_detach_backing gpu cmd req).gpu req.resource_id = some r2d2 ∧
        r2d2.iov = none ∧ r2d2.resource_id = r2d.resource_id ∧ r2d2.width = r2d.width ∧
        r2d2.height = r2d.height ∧ r2d2.format = r2d.format ∧ r2d2.image = r2d.image) ∧
    (∀ other, other ≠ req.resource_id →
      virtio_gpu_find_resource_2d (virtio_gpu_cmd_resource_detach_backing gpu cmd req).gpu other =
        virtio_gpu_find_resource_2d gpu other) ∧
    (virtio_gpu_find_resource_2d gpu req.resource_id = none →
      (virtio_gpu_cmd_resource_detach_backing gpu cmd req).gpu = gpu) := by
  unfold virtio_gpu_find_resource_2d
  cases hf : find_r2d req.resource_id gpu.r2d_list with
  | none =>
    simp only [virtio_gpu_cmd_resource_detach_backing, virtio_gpu_find_resource_2d, hf,
      reply_type_respond_iov1]
    refine ⟨trivial, ?_, ?_, ?_⟩
    · intro r2d h; exact absurd h (by simp)
    · intro other _; rfl
    · intro _; rfl
  | some r =>
    by_cases hi : r.iov.isSome
    · simp only [virtio_gpu_cmd_resource_detach_backing, virtio_gpu_find_resource_2d, hf, hi,
        if_true, reply_type_respond_iov1]
      refine ⟨trivial, ?_, ?_, ?_⟩
      · intro r2d h
        simp only [Option.some.injEq] at h
        subst h
        refine ⟨{ r with iov := none }, ?_, rfl, rfl, rfl, rfl, rfl, rfl⟩
        exact find_update_self req.resource_id (fun r2d => { r2d with iov := none })
          (fun _ => rfl) _ _ hf
      · intro other hne
        exact find_update_other req.resource_id other hne (fun r2d => { r2d with iov := none })
          (fun _ => rfl) _
      · intro h; exact absurd h (by simp)
    · simp only [virtio_gpu_cmd_resource_detach_backing, virtio_gpu_find_resource_2d, hf, hi,
        reply_type_respond_iov1]
      refine ⟨trivial, ?_, ?_, ?_⟩
      · intro r2d h
        simp only [Option.some.injEq] at h
        subst h
        refine ⟨r, hf, ?_, rfl, rfl, rfl, rfl, rfl⟩
        cases hiov : r.iov with
        | none => rfl
        | some l => rw [hiov] at hi; exact absurd rfl hi
      · intro other _; rfl
      · intro h; exact absurd h (by simp)


/-! ## SET_SCANOUT and RESOURCE_FLUSH -/

/-- C15: SET_SCANOUT with `resource_id == 0` or with a `resource_id` not on
the list, whatever the rectangle, makes exactly one call to the display,
`vdpy_surface_set` with a null surface, replies OK_NODATA, and leaves the
resource list and the config registers unchanged. -/
theorem set_scanout_unbind (gpu : virtio_gpu) (cmd : virtio_gpu_command)
    (req : virtio_gpu_set_scanout)
    (h : req.resource_id = 0 ∨ virtio_gpu_find_resource_2d gpu req.resource_id = none) :
    (virtio_gpu_cmd_set_scanout gpu cmd req).gpu.vdpy = gpu.vdpy ++ [.surface_set none] ∧
    reply_type (virtio_gpu_cmd_set_scanout gpu cmd req) = some VIRTIO_GPU_RESP_OK_NODATA ∧
    (virtio_gpu_cmd_set_scanout gpu cmd req).gpu.r2d_list = gpu.r2d_list ∧
    (virtio_gpu_cmd_set_scanout gpu cmd req).gpu.cfg = gpu.cfg := by
  unfold virtio_gpu_cmd_set_scanout
  cases hf : virtio_gpu_find_resource_2d gpu req.resource_id with
  | none => exact ⟨rfl, by simp [reply_type, virtio_gpu_resp.hdr], rfl, rfl⟩
  | some r2d =>
    rcases h with h | h
    · simp [h, reply_type, virtio_gpu_resp.hdr]
    · rw [hf] at h; exact absurd h (by simp)

/-- Witness of C15: scenario E, `SET_SCANOUT(scanout=0, id=0, rect=(0,0,0,0))`
on the device whose scanout is bound to resource 7. -/
theorem set_scanout_unbind_witness :
    (virtio_gpu_cmd_set_scanout ex_gpu_bound ex_create_cmd
      { r := { x := 0, y := 0, width := 0, height := 0 }, scanout_id := 0,
        resource_id := 0 }).gpu.vdpy = ex_gpu_bound.vdpy ++ [.surface_set none] ∧
    reply_type (virtio_gpu_cmd_set_scanout ex_gpu_bound ex_create_cmd
      { r := { x := 0, y := 0, width := 0, height := 0 }, scanout_id := 0,
        resource_id := 0 }) = some VIRTIO_GPU_RESP_OK_NODATA ∧
    (virtio_gpu_cmd_set_scanout ex_gpu_bound ex_create_cmd
      { r := { x := 0, y := 0, width := 0, height := 0 }, scanout_id := 0,
        resource_id := 0 }).gpu.r2d_list = ex_gpu_bound.r2d_list ∧
    (virtio_gpu_cmd_set_scanout ex_gpu_bound ex_create_cmd
      { r := { x := 0, y := 0, width := 0, height := 0 }, scanout_id := 0,
        resource_id := 0 }).gpu.cfg = ex_gpu_bound.cfg :=
  set_scanout_unbind ex_gpu_bound ex_create_cmd
    { r := { x := 0, y := 0, width := 0, height := 0 }, scanout_id := 0, resource_id := 0 }
    (Or.inl rfl)

/-- SET_SCANOUT on a resource that is on the list under a non-zero id, when
the 32-bit sums cannot wrap (resource narrower and lower than 2^31, 32-bit
rectangle fields): a rectangle within the six bounds publishes one pixman
surface `(0, 0, W, H)` with the stride and format of the resource and is
answered OK_NODATA; a rectangle violating a bound is answered
ERR_INVALID_PARAMETER and nothing is published; the resource list is
unchanged either way. -/
theorem set_scanout_bounds (gpu : virtio_gpu) (cmd : virtio_gpu_command)
    (req : virtio_gpu_set_scanout) (r2d : virtio_gpu_resource_2d)
    (hfind : virtio_gpu_find_resource_2d gpu req.resource_id = some r2d)
    (hid : req.resource_id ≠ 0)
    (hW : r2d.width < 2147483648) (hH : r2d.height < 2147483648)
    (hx : req.r.x < 4294967296) (hy : req.r.y < 4294967296)
    (hw : req.r.width < 4294967296) (hh : req.r.height < 4294967296) :
    ((req.r.x ≤ r2d.width ∧ req.r.y ≤ r2d.height ∧ req.r.width ≤ r2d.width ∧
        req.r.height ≤ r2d.height ∧ req.r.x + req.r.width ≤ r2d.width ∧
        req.r.y + req.r.height ≤ r2d.height) →
      (virtio_gpu_cmd_set_scanout gpu cmd req).gpu.vdpy = gpu.vdpy ++
        [.surface_set (some
          { pixel := r2d.image.data, x := 0, y := 0, width := r2d.width,
            height := r2d.height, stride := r2d.image.stride, surf_format := r2d.format,
            surf_pixman := true })] ∧
      reply_type (virtio_gpu_cmd_set_scanout gpu cmd req) = some VIRTIO_GPU_RESP_OK_NODATA) ∧
    (¬ (req.r.x ≤ r2d.width ∧ req.r.y ≤ r2d.height ∧ req.r.width ≤ r2d.width ∧
        req.r.height ≤ r2d.height ∧ req.r.x + req.r.width ≤ r2d.width ∧
        req.r.y + req.r.height ≤ r2d.height) →
      (virtio_gpu_cmd_set_scanout gpu cmd req).gpu.vdpy = gpu.vdpy ∧
      reply_type (virtio_gpu_cmd_set_scanout gpu cmd req) =
        some VIRTIO_GPU_RESP_ERR_INVALID_PARAMETER) ∧
    (virtio_gpu_cmd_set_scanout gpu cmd req).gpu.r2d_list = gpu.r2d_list := by
  refine ⟨?_, ?_, set_scanout_r2d_list gpu cmd req⟩
  · intro hin
    have hb : rect_out_of_bounds req.r r2d = false :=
      rect_in_bounds req.r r2d (by omega) (by omega) hin.2.2.2.2.1 hin.2.2.2.2.2
    simp only [virtio_gpu_cmd_set_scanout, hfind, hid, if_false, hb]
    constructor <;> rfl
  · intro hout
    have hb : rect_out_of_bounds req.r r2d = true := by
      unfold rect_out_of_bounds
      simp only [Bool.or_eq_true, decide_eq_true_eq, gt_iff_lt]
      omega
    simp only [virtio_gpu_cmd_set_scanout, hfind, hid, if_false, hb, if_true]
    constructor <;> first | rfl | trivial

/-- C16 at an input where it fails. The resource with id 1 is
2147483648 x 0 pixels; the request rectangle is
`(2147483648, 0, 2147483648, 0)`, which violates `x + w <= W`
(`4294967296 > 2147483648`). The `uint32_t` sum `x + w` wraps to 0, the
handler publishes a surface to the display and replies OK_NODATA instead of
replying ERR_INVALID_PARAMETER and publishing nothing. -/
theorem set_scanout_rect_sum_wraps :
    virtio_gpu_find_resource_2d ex_gpu_wide 1 = some ex_r2d_wide ∧
    ¬ (2147483648 + 2147483648 ≤ ex_r2d_wide.width) ∧
    reply_type (virtio_gpu_cmd_set_scanout ex_gpu_wide ex_create_cmd
      { r := { x := 2147483648, y := 0, width := 2147483648, height := 0 }, scanout_id := 0,
        resource_id := 1 }) = some VIRTIO_GPU_RESP_OK_NODATA ∧
    reply_type (virtio_gpu_cmd_set_scanout ex_gpu_wide ex_create_cmd
      { r := { x := 2147483648, y := 0, width := 2147483648, height := 0 }, scanout_id := 0,
        resource_id := 1 }) ≠ some VIRTIO_GPU_RESP_ERR_INVALID_PARAMETER ∧
    (virtio_gpu_cmd_set_scanout ex_gpu_wide ex_create_cmd
      { r := { x := 2147483648, y := 0, width := 2147483648, height := 0 }, scanout_id := 0,
        resource_id := 1 }).gpu.vdpy.length = ex_gpu_wide.vdpy.length + 1 := by
  refine ⟨rfl, by decide, by decide, by decide, by decide⟩

/-- C17: RESOURCE_FLUSH with a `resource_id` not on the list replies
ERR_INVALID_RESOURCE_ID and makes no call to the display; with a
`resource_id` on the list, for any rectangle, it makes exactly one call,
`vdpy_surface_update` with a surface at `(rect.x, rect.y)` of the width,
height, stride and format of the resource, and replies OK_NODATA. The
resource list (pixel buffers included) and the config registers are
unchanged in both cases. -/
theorem resource_flush_effect (gpu : virtio_gpu) (cmd : virtio_gpu_command)
    (req : virtio_gpu_resource_flush) :
    (virtio_gpu_find_resource_2d gpu req.resource_id = none →
      reply_type (virtio_gpu_cmd_resource_flush gpu cmd req) =
        some VIRTIO_GPU_RESP_ERR_INVALID_RESOURCE_ID ∧
      (virtio_gpu_cmd_resource_flush gpu cmd req).gpu.vdpy = gpu.vdpy) ∧
    (∀ r2d, virtio_gpu_find_resource_2d gpu req.resource_id = some r2d →
      reply_type (virtio_gpu_cmd_resource_flush gpu cmd req) = some VIRTIO_GPU_RESP_OK_NODATA ∧
      (virtio_gpu_cmd_resource_flush gpu cmd req).gpu.vdpy = gpu.vdpy ++
        [.surface_update
          { pixel := r2d.image.data, x := req.r.x, y := req.r.y,
            width := r2d.width, height := r2d.height, stride := r2d.image.stride,
            surf_format := r2d.format, surf_pixman := true }]) ∧
    (virtio_gpu_cmd_resource_flush gpu cmd req).gpu.r2d_list = gpu.r2d_list ∧
    (virtio_gpu_cmd_resource_flush gpu cmd req).gpu.cfg = gpu.cfg := by
  unfold virtio_gpu_cmd_resource_flush
  cases hf : virtio_gpu_find_resource_2d gpu req.resource_id with
  | none =>
    refine ⟨fun _ => ⟨by simp [reply_type, virtio_gpu_resp.hdr], rfl⟩, ?_, rfl, rfl⟩
    intro r2d h; exact absurd h (by simp)
  | some r =>
    refine ⟨fun h => absurd h (by simp), ?_, rfl, rfl⟩
    intro r2d h
    simp only [Option.some.injEq] at h
    subst h
    exact ⟨by simp [reply_type, virtio_gpu_resp.hdr], rfl⟩

/-! ## Reset -/

/-- C20, as the specification states it, fails: on the device whose scanout
is bound to resource 7, `virtio_gpu_reset` empties the resource list but
makes no call to the display; the one call on record is still the
`vdpy_surface_set` that bound the scanout, and no null surface has been
published. -/
theorem reset_leaves_scanout_bound :
    ex_gpu_bound.vdpy.length = 1 ∧
    ex_gpu_bound.vdpy.any is_null_surface_set = false ∧
    (virtio_gpu_reset ex_gpu_bound).r2d_list = [] ∧
    (virtio_gpu_reset ex_gpu_bound).vdpy = ex_gpu_bound.vdpy ∧
    (virtio_gpu_reset ex_gpu_bound).vdpy.any is_null_surface_set = false := by
  refine ⟨by decide, by decide, rfl, rfl, by decide⟩

/-- C20 amended: for every device state, `virtio_gpu_reset` terminates and
leaves the resource list empty; it makes no call to the display (the calls
on record are the same before and after) and leaves the config registers
unchanged. -/
theorem reset_effect (gpu : virtio_gpu) :
    (virtio_gpu_reset gpu).r2d_list = [] ∧
    (virtio_gpu_reset gpu).vdpy = gpu.vdpy ∧
    (virtio_gpu_reset gpu).cfg = gpu.cfg ∧
    ∀ id, virtio_gpu_find_resource_2d (virtio_gpu_reset gpu) id = none := by
  have h : (virtio_gpu_reset gpu).r2d_list = [] := by
    simp [virtio_gpu_reset, reset_loop_nil]
  refine ⟨h, rfl, rfl, ?_⟩
  intro id
  unfold virtio_gpu_find_resource_2d
  rw [h]
  rfl


/-! ## GET_EDID -/

/-- The `GET_EDID` case of the switch: the EDID response is stored in
`cmd->iov[1]` with header type 0 (the handler never sets it), then the
display-info response is stored over it. -/
theorem get_edid_falls_through (env : host_env) (gpu : virtio_gpu) (cmd : virtio_gpu_command)
    (hty : cmd.hdr.type = VIRTIO_GPU_CMD_GET_EDID) :
    ∃ res, ctrl_dispatch env gpu cmd = some res ∧
      res.writes.map (fun w => (w.1, w.2.hdr.type, w.2.sizeof)) =
        [(1, 0, 1056), (1, VIRTIO_GPU_RESP_OK_DISPLAY_INFO, 408)] ∧
      reply_type res = some VIRTIO_GPU_RESP_OK_DISPLAY_INFO ∧ res.cmd.iolen = 408 := by
  unfold ctrl_dispatch
  simp only [hty, if_true]
  refine ⟨_, rfl, ?_, ?_, ?_⟩
  · simp only [virtio_gpu_cmd_get_edid, virtio_gpu_cmd_get_display_info,
      virtio_gpu_update_resp_fence, List.singleton_append, List.map_cons, List.map_nil,
      virtio_gpu_resp.hdr, virtio_gpu_resp.sizeof]
    split <;> rfl
  · simp only [reply_type, virtio_gpu_cmd_get_edid, virtio_gpu_cmd_get_display_info,
      virtio_gpu_update_resp_fence, List.singleton_append]
    split <;> rfl
  · rfl

/-- C18 at a `GET_EDID` chain. `virtio_gpu_ctrl_bh` stores two responses in
segment 1: first the EDID response (1056 bytes) whose header type is 0, not
OK_EDID, then, the `GET_EDID` case having no `break`, the display-info
response (408 bytes), which covers the header, the `size` field and the
first 128 EDID bytes. The header the segment finally holds has type
OK_DISPLAY_INFO and the chain is released with 408 bytes. -/
theorem get_edid_reply_overwritten :
    ∃ res, ctrl_bh_chain (ex_env (ex_mem ex_get_edid_bytes)) ex_gpu_empty 0 ex_chain = some res ∧
      (read_ctrl_hdr (ex_mem ex_get_edid_bytes) (chain_base ex_chain)).type =
        VIRTIO_GPU_CMD_GET_EDID ∧
      res.writes.map (fun w => (w.1, w.2.hdr.type, w.2.sizeof)) =
        [(1, 0, 1056), (1, VIRTIO_GPU_RESP_OK_DISPLAY_INFO, 408)] ∧
      reply_type res = some VIRTIO_GPU_RESP_OK_DISPLAY_INFO ∧
      reply_type res ≠ some VIRTIO_GPU_RESP_OK_EDID ∧
      res.cmd.iolen = 408 := by
  refine ⟨_, rfl, by decide, by decide, by decide, by decide, by decide⟩

/-! ## Config space -/

theorem testBit_mask32 (i : Nat) (hi : i < 32) : Nat.testBit 4294967295 i = true := by
  have h : (4294967295 : Nat) = 2 ^ 32 - 1 := by norm_num
  rw [h, Nat.testBit_two_pow_sub_one]
  exact decide_eq_true hi

/-- C19: a 4-byte write of a 32-bit value `M` at the offset of
`events_clear` (4) leaves in `events_read` exactly the bits that were set
before and are clear in `M` (old value AND NOT `M`), and leaves
`num_scanouts` and `num_capsets` unchanged; a write at any other offset
leaves the device, and so all four registers, unchanged. -/
theorem cfgwrite_effect (gpu : virtio_gpu) (M : Nat) (hM : M < 4294967296) :
    (∃ gpu2, virtio_gpu_cfgwrite gpu 4 4 M = some gpu2 ∧
      (∀ i, i < 32 → Nat.testBit gpu2.cfg.events_read i =
        (Nat.testBit gpu.cfg.events_read i && !Nat.testBit M i)) ∧
      gpu2.cfg.events_read ≤ gpu.cfg.events_read ∧
      gpu2.cfg.num_scanouts = gpu.cfg.num_scanouts ∧
      gpu2.cfg.num_capsets = gpu.cfg.num_capsets ∧
      gpu2.r2d_list = gpu.r2d_list) ∧
    (∀ offset size, offset ≠ 4 → virtio_gpu_cfgwrite gpu offset size M = some gpu) := by
  constructor
  · refine ⟨{ gpu with cfg :=
        { gpu.cfg with
          events_read := gpu.cfg.events_read &&& (4294967295 ^^^ M % 4294967296),
          events_clear := (gpu.cfg.events_clear / 256 ^ 4 * 256 ^ 4 + M % 256 ^ 4) &&&
            (4294967295 ^^^ M % 4294967296) } }, rfl, ?_, ?_, rfl, rfl, rfl⟩
    · intro i hi
      simp only [Nat.mod_eq_of_lt hM, Nat.testBit_and, Nat.testBit_xor, testBit_mask32 i hi]
      cases Nat.testBit M i <;> simp
    · exact Nat.and_le_left
  · intro offset size hne
    simp [virtio_gpu_cfgwrite, hne]

/-- Witness of C19: clearing bit 0 of `events_read = 1` by writing 1 at offset 4. -/
theorem cfgwrite_effect_witness :
    ∃ gpu2, virtio_gpu_cfgwrite
        { ex_gpu_empty with cfg := { ex_gpu_empty.cfg with events_read := 1 } } 4 4 1 =
        some gpu2 ∧
      (∀ i, i < 32 → Nat.testBit gpu2.cfg.events_read i =
        (Nat.testBit 1 i && !Nat.testBit 1 i)) ∧
      gpu2.cfg.events_read ≤ 1 ∧
      gpu2.cfg.num_scanouts = 1 ∧ gpu2.cfg.num_capsets = 0 ∧ gpu2.r2d_list = [] :=
  (cfgwrite_effect { ex_gpu_empty with cfg := { ex_gpu_empty.cfg with events_read := 1 } } 1
    (by decide)).1


/-! ## RESOURCE_ATTACH_BACKING: the backing vector -/

theorem le_encode_length (n v : Nat) : (le_encode n v).length = n := by
  induction n generalizing v with
  | zero => rfl
  | succ n ih => simp [le_encode, ih]

theorem le_bytes_of_encode (n : Nat) : ∀ (v : Nat) (f : Nat → Nat) (a : Nat),
    (∀ j, j < n → f (a + j) = ((le_encode n v)[j]?).getD 0) → le_bytes f a n = v % 256 ^ n := by
  induction n with
  | zero => intro v f a _; simp [le_bytes, Nat.mod_one]
  | succ n ih =>
    intro v f a h
    have h0 := h 0 (Nat.succ_pos n)
    simp only [Nat.add_zero, le_encode, List.getElem?_cons_zero, Option.getD_some] at h0
    have hrest : ∀ j, j < n → f (a + 1 + j) = ((le_encode n (v / 256))[j]?).getD 0 := by
      intro j hj
      have := h (j + 1) (Nat.succ_lt_succ hj)
      simp only [le_encode, List.getElem?_cons_succ] at this
      rw [← this]
      congr 1
      omega
    rw [le_bytes, ih (v / 256) f (a + 1) hrest, h0, pow_succ', Nat.mod_mul, Nat.mod_mod]

theorem mem_entry_bytes_length (e : virtio_gpu_mem_entry) (pad : Nat) :
    (mem_entry_bytes e pad).length = 16 := by
  simp [mem_entry_bytes, le_encode_length]

theorem flatten_blocks_get (bs : List (List Nat)) (hlen : ∀ b ∈ bs, b.length = 16) :
    ∀ (i j : Nat) (hi : i < bs.length), j < 16 → (bs.flatten)[16 * i + j]? = (bs[i])[j]? := by
  induction bs with
  | nil => intro i j hi; simp at hi
  | cons b rest ih =>
    intro i j hi hj
    have hb : b.length = 16 := hlen b (List.mem_cons_self _ _)
    cases i with
    | zero =>
      simp only [List.flatten_cons, Nat.mul_zero, Nat.zero_add, List.getElem_cons_zero]
      exact List.getElem?_append_left (by omega)
    | succ i =>
      simp only [List.flatten_cons, List.getElem_cons_succ]
      rw [List.getElem?_append_right (by omega)]
      have hidx : 16 * (i + 1) + j - b.length = 16 * i + j := by omega
      rw [hidx]
      exact ih (fun b hb => hlen b (List.mem_cons_of_mem _ hb)) i j
        (by simpa using hi) hj

theorem flatten_blocks_length (bs : List (List Nat)) (hlen : ∀ b ∈ bs, b.length = 16) :
    bs.flatten.length = 16 * bs.length := by
  induction bs with
  | nil => rfl
  | cons b rest ih =>
    simp only [List.flatten_cons, List.length_append, List.length_cons]
    rw [ih (fun b hb => hlen b (List.mem_cons_of_mem _ hb)), hlen b (List.mem_cons_self _ _)]
    omega

/-- Decoding entry `i` out of the entries buffer gives back the entry whose
bytes were copied in. -/
theorem mem_entry_at_encoded (entries : List (virtio_gpu_mem_entry × Nat)) (heap : Nat → Nat)
    (copied : List Nat)
    (hrange : ∀ e ∈ entries, e.1.addr < 18446744073709551616 ∧ e.1.length < 4294967296)
    (hbytes : copied = (entries.map (fun e => mem_entry_bytes e.1 e.2)).flatten)
    (i : Nat) (hi : i < entries.length) :
    mem_entry_at (fun k => if h : k < copied.length then copied[k] else heap k) i =
      (entries[i]).1 := by
  have hblocks : ∀ b ∈ entries.map (fun e => mem_entry_bytes e.1 e.2), b.length = 16 := by
    intro b hb
    obtain ⟨e, _, rfl⟩ := List.mem_map.mp hb
    exact mem_entry_bytes_length _ _
  have hbuf : ∀ k, (if h : k < copied.length then copied[k] else heap k) =
      (copied[k]?).getD (heap k) := by
    intro k
    by_cases hk : k < copied.length
    · simp [hk]
    · simp [hk, List.getElem?_eq_none (Nat.le_of_not_lt hk)]
  have hget : ∀ j, j < 16 → (copied[16 * i + j]?).getD (heap (16 * i + j)) =
      ((mem_entry_bytes (entries[i]).1 (entries[i]).2)[j]?).getD 0 := by
    intro j hj
    have hlen : copied.length = 16 * entries.length := by
      rw [hbytes, flatten_blocks_length _ hblocks, List.length_map]
    have hk : 16 * i + j < copied.length := by omega
    have h1 := flatten_blocks_get _ hblocks i j (by simpa using hi) hj
    rw [← hbytes] at h1
    simp only [List.getElem_map] at h1
    rw [← h1, List.getElem?_eq_getElem hk]
    rfl
  have hr := hrange _ (List.getElem_mem hi)
  have haddr : le_bytes (fun k => if h : k < copied.length then copied[k] else heap k)
      (16 * i) 8 = (entries[i]).1.addr := by
    rw [le_bytes_of_encode 8 (entries[i]).1.addr]
    · exact Nat.mod_eq_of_lt (by norm_num; exact hr.1)
    · intro j hj
      simp only [hbuf]
      rw [hget j (by omega)]
      simp only [mem_entry_bytes, List.append_assoc]
      rw [List.getElem?_append_left (by rw [le_encode_length]; exact hj)]
  have hlength : le_bytes (fun k => if h : k < copied.length then copied[k] else heap k)
      (16 * i + 8) 4 = (entries[i]).1.length := by
    rw [le_bytes_of_encode 4 (entries[i]).1.length]
    · exact Nat.mod_eq_of_lt (by norm_num; exact hr.2)
    · intro j hj
      simp only [hbuf]
      rw [show 16 * i + 8 + j = 16 * i + (8 + j) by omega, hget (8 + j) (by omega)]
      simp only [mem_entry_bytes, List.append_assoc]
      rw [List.getElem?_append_right (by rw [le_encode_length]; omega)]
      rw [le_encode_length]
      rw [List.getElem?_append_left (by rw [le_encode_length]; omega)]
      congr 2
      omega
  unfold mem_entry_at
  rw [haddr, hlength]

/-- C12: for a resource on the list and a chain whose segments `1 .. n-2`
concatenate to the bytes of exactly `nr_entries` 16-byte entries
`{addr, length, padding}` (however the bytes are split over the segments),
RESOURCE_ATTACH_BACKING runs to completion; afterwards the resource has a
backing vector of exactly `nr_entries` elements, element `i` having base
`paddr_guest2host(addr_i, length_i)` and length `length_i`, in entry order,
with `iovcnt = nr_entries`; its id, width, height, format and image are as
before and every other id is found as before. -/
theorem attach_backing_stores (env : host_env) (gpu : virtio_gpu) (cmd : virtio_gpu_command)
    (req : virtio_gpu_resource_attach_backing) (r2d : virtio_gpu_resource_2d)
    (entries : List (virtio_gpu_mem_entry × Nat))
    (hfind : virtio_gpu_find_resource_2d gpu req.resource_id = some r2d)
    (hn : entries.length = req.nr_entries)
    (hrange : ∀ e ∈ entries, e.1.addr < 18446744073709551616 ∧ e.1.length < 4294967296)
    (hbytes : attach_entry_bytes env.mem cmd =
      (entries.map (fun e => mem_entry_bytes e.1 e.2)).flatten) :
    ∃ res, virtio_gpu_cmd_resource_attach_backing env gpu cmd req = some res ∧
      virtio_gpu_find_resource_2d res.gpu req.resource_id =
        some { r2d with iov := some (entries.map (fun e => translate_entry env e.1)),
                        iovcnt := req.nr_entries } ∧
      (∀ other, other ≠ req.resource_id →
        virtio_gpu_find_resource_2d res.gpu other = virtio_gpu_find_resource_2d gpu other) := by
  have hblocks : ∀ b ∈ entries.map (fun e => mem_entry_bytes e.1 e.2), b.length = 16 := by
    intro b hb
    obtain ⟨e, _, rfl⟩ := List.mem_map.mp hb
    exact mem_entry_bytes_length _ _
  have hlen : (attach_entry_bytes env.mem cmd).length = 16 * req.nr_entries := by
    rw [hbytes, flatten_blocks_length _ hblocks, List.length_map, hn]
  have hfit : ¬ (req.nr_entries * 16 < (attach_entry_bytes env.mem cmd).length) := by omega
  have hiov : (List.range req.nr_entries).map (fun i =>
      ({ iov_base := env.paddr_guest2host
            (mem_entry_at (fun k => if h : k < (attach_entry_bytes env.mem cmd).length
              then (attach_entry_bytes env.mem cmd)[k] else env.heap k) i).addr
            (mem_entry_at (fun k => if h : k < (attach_entry_bytes env.mem cmd).length
              then (attach_entry_bytes env.mem cmd)[k] else env.heap k) i).length,
         iov_len := (mem_entry_at (fun k => if h : k < (attach_entry_bytes env.mem cmd).length
              then (attach_entry_bytes env.mem cmd)[k] else env.heap k) i).length } : iovec)) =
      entries.map (fun e => translate_entry env e.1) := by
    apply List.ext_getElem
    · simp [hn]
    · intro i h1 h2
      have hi : i < entries.length := by simpa using h2
      simp only [List.getElem_map, List.getElem_range]
      rw [mem_entry_at_encoded entries env.heap _ hrange hbytes i hi]
      rfl
  unfold virtio_gpu_find_resource_2d at hfind ⊢
  simp only [virtio_gpu_cmd_resource_attach_backing, virtio_gpu_find_resource_2d, hfind, hfit,
    if_false, hiov]
  refine ⟨_, rfl, ?_, ?_⟩
  · exact find_update_self req.resource_id
      (fun r2d => { r2d with iov := some (entries.map (fun e => translate_entry env e.1)),
                             iovcnt := req.nr_entries })
      (fun _ => rfl) _ _ hfind
  · intro other hne
    exact find_update_other req.resource_id other hne
      (fun r2d => { r2d with iov := some (entries.map (fun e => translate_entry env e.1)),
                             iovcnt := req.nr_entries })
      (fun _ => rfl) _

/-- Witness of C12: one entry `{addr = 8192, length = 32}` whose 16 bytes are
split 5 + 11 over two segments, attached to resource 7. -/
theorem attach_backing_stores_witness :
    ∃ res, virtio_gpu_cmd_resource_attach_backing (ex_env ex_mem_split) ex_gpu_one
        ex_attach_split_cmd { resource_id := 7, nr_entries := 1 } = some res ∧
      virtio_gpu_find_resource_2d res.gpu 7 =
        some { resource_id := 7, width := 4, height := 2, format := .PIXMAN_a8r8g8b8,
               image := { format := .PIXMAN_a8r8g8b8, stride := 16, data := fun _ => 0 },
               iov := some [{ iov_base := 8192, iov_len := 32 }], iovcnt := 1 } ∧
      (∀ other, other ≠ 7 →
        virtio_gpu_find_resource_2d res.gpu other = virtio_gpu_find_resource_2d ex_gpu_one other) :=
  attach_backing_stores (ex_env ex_mem_split) ex_gpu_one ex_attach_split_cmd
    { resource_id := 7, nr_entries := 1 }
    { resource_id := 7, width := 4, height := 2, format := .PIXMAN_a8r8g8b8,
      image := { format := .PIXMAN_a8r8g8b8, stride := 16, data := fun _ => 0 },
      iov := none, iovcnt := 0 }
    [({ addr := 8192, length := 32 }, 0)] rfl rfl (by decide) (by decide)


/-! ## Released length and reply segment -/

theorem reply_shape_single (cmd : virtio_gpu_command) (res : cmd_result) (k : Nat)
    (resp : virtio_gpu_resp) (hw : res.writes = [(k, resp)])
    (hk : k = 1 ∨ k = cmd.iovcnt - 1)
    (hlen : res.cmd.iolen = cmd.iolen ∨ res.cmd.iolen = resp.sizeof) : reply_shape cmd res := by
  refine ⟨?_, ?_⟩
  · intro w hmem
    rw [hw, List.mem_singleton] at hmem
    subst hmem
    exact hk
  · rcases hlen with h | h
    · exact Or.inl h
    · exact Or.inr ⟨(k, resp), by rw [hw]; rfl, h⟩

theorem respond_iov1_shape (gpu : virtio_gpu) (cmd : virtio_gpu_command)
    (resp : virtio_gpu_ctrl_hdr) : reply_shape cmd (respond_iov1 gpu cmd resp) :=
  reply_shape_single cmd _ 1 (.ctrl (virtio_gpu_update_resp_fence cmd.hdr resp)) rfl
    (Or.inl rfl) (Or.inr rfl)

theorem create_2d_shape (env : host_env) (gpu : virtio_gpu) (cmd : virtio_gpu_command)
    (req : virtio_gpu_resource_create_2d) :
    reply_shape cmd (virtio_gpu_cmd_resource_create_2d env gpu cmd req) := by
  cases h1 : find_r2d req.resource_id gpu.r2d_list with
  | some r => rw [create_2d_dup env gpu cmd req r h1]; exact respond_iov1_shape _ _ _
  | none =>
    cases ha : env.pixman_image_create_bits (virtio_gpu_get_pixman_format req.format)
        req.width req.height with
    | none => rw [create_2d_oom env gpu cmd req h1 ha]; exact respond_iov1_shape _ _ _
    | some img => rw [create_2d_ok env gpu cmd req img h1 ha]; exact respond_iov1_shape _ _ _

theorem unref_shape (gpu : virtio_gpu) (cmd : virtio_gpu_command)
    (req : virtio_gpu_resource_unref) :
    reply_shape cmd (virtio_gpu_cmd_resource_unref gpu cmd req) := by
  cases h1 : find_r2d req.resource_id gpu.r2d_list with
  | some r => rw [unref_present gpu cmd req r h1]; exact respond_iov1_shape _ _ _
  | none => rw [unref_absent gpu cmd req h1]; exact respond_iov1_shape _ _ _

theorem detach_backing_shape (gpu : virtio_gpu) (cmd : virtio_gpu_command)
    (req : virtio_gpu_resource_detach_backing) :
    reply_shape cmd (virtio_gpu_cmd_resource_detach_backing gpu cmd req) := by
  unfold virtio_gpu_cmd_resource_detach_backing
  exact respond_iov1_shape _ _ _

theorem attach_backing_shape (env : host_env) (gpu : virtio_gpu) (cmd : virtio_gpu_command)
    (req : virtio_gpu_resource_attach_backing) (res : cmd_result)
    (h : virtio_gpu_cmd_resource_attach_backing env gpu cmd req = some res) :
    reply_shape cmd res := by
  obtain ⟨hdr, hw, _, hlen⟩ := attach_backing_result env gpu cmd req res h
  exact reply_shape_single cmd res _ _ hw (Or.inr rfl) (Or.inr hlen)

theorem unspec_shape (gpu : virtio_gpu) (cmd : virtio_gpu_command) :
    reply_shape cmd (virtio_gpu_cmd_unspec gpu cmd) :=
  reply_shape_single cmd _ (cmd.iovcnt - 1) _ rfl (Or.inr rfl) (Or.inr rfl)

theorem get_display_info_shape (env : host_env) (gpu : virtio_gpu) (cmd : virtio_gpu_command) :
    reply_shape cmd (virtio_gpu_cmd_get_display_info env gpu cmd) :=
  reply_shape_single cmd _ 1 _ rfl (Or.inl rfl) (Or.inr rfl)

theorem set_scanout_shape (gpu : virtio_gpu) (cmd : virtio_gpu_command)
    (req : virtio_gpu_set_scanout) :
    reply_shape cmd (virtio_gpu_cmd_set_scanout gpu cmd req) := by
  unfold virtio_gpu_cmd_set_scanout
  split
  · exact reply_shape_single cmd _ 1 _ rfl (Or.inl rfl) (Or.inl rfl)
  · split
    · exact reply_shape_single cmd _ 1 _ rfl (Or.inl rfl) (Or.inl rfl)
    · split
      · exact reply_shape_single cmd _ 1 _ rfl (Or.inl rfl) (Or.inr rfl)
      · exact reply_shape_single cmd _ 1 _ rfl (Or.inl rfl) (Or.inr rfl)

theorem flush_shape (gpu : virtio_gpu) (cmd : virtio_gpu_command)
    (req : virtio_gpu_resource_flush) :
    reply_shape cmd (virtio_gpu_cmd_resource_flush gpu cmd req) := by
  unfold virtio_gpu_cmd_resource_flush
  split
  · exact reply_shape_single cmd _ 1 _ rfl (Or.inl rfl) (Or.inl rfl)
  · exact reply_shape_single cmd _ 1 _ rfl (Or.inl rfl) (Or.inr rfl)

theorem transfer_shape (env : host_env) (gpu : virtio_gpu) (cmd : virtio_gpu_command)
    (req : virtio_gpu_transfer_to_host_2d) (res : cmd_result)
    (h : virtio_gpu_cmd_transfer_to_host_2d env gpu cmd req = some res) :
    reply_shape cmd res := by
  cases hf : find_r2d req.resource_id gpu.r2d_list with
  | none =>
    simp only [virtio_gpu_cmd_transfer_to_host_2d, virtio_gpu_find_resource_2d, hf,
      Option.some.injEq] at h
    subst h
    exact reply_shape_single cmd _ 1 _ rfl (Or.inl rfl) (Or.inl rfl)
  | some r =>
    simp only [virtio_gpu_cmd_transfer_to_host_2d, virtio_gpu_find_resource_2d, hf] at h
    split at h
    · simp only [Option.some.injEq] at h; subst h
      exact reply_shape_single cmd _ 1 _ rfl (Or.inl rfl) (Or.inr rfl)
    · split at h
      · exact absurd h (by simp)
      · simp only [Option.some.injEq] at h; subst h
        exact reply_shape_single cmd _ 1 _ rfl (Or.inl rfl) (Or.inr rfl)

/-- Every dispatched command: its responses go to `cmd->iov[1]` or to
`cmd->iov[cmd->iovcnt - 1]`, and the length the chain is released with is
the size of the response stored last or the length left by the command
before. -/
theorem dispatch_shape (env : host_env) (gpu : virtio_gpu) (cmd : virtio_gpu_command)
    (res : cmd_result) (h : ctrl_dispatch env gpu cmd = some res) : reply_shape cmd res := by
  unfold ctrl_dispatch at h
  simp only at h
  split at h
  · simp only [Option.some.injEq] at h; subst h
    refine ⟨?_, Or.inr ⟨_, rfl, rfl⟩⟩
    intro w hw
    simp only [virtio_gpu_cmd_get_edid, virtio_gpu_cmd_get_display_info,
      List.singleton_append, List.mem_cons, List.mem_singleton, List.not_mem_nil, or_false] at hw
    rcases hw with hw | hw <;> (subst hw; exact Or.inl rfl)
  split at h
  · simp only [Option.some.injEq] at h; subst h; exact get_display_info_shape _ _ _
  split at h
  · simp only [Option.some.injEq] at h; subst h; exact create_2d_shape _ _ _ _
  split at h
  · simp only [Option.some.injEq] at h; subst h; exact unref_shape _ _ _
  split at h
  · exact attach_backing_shape _ _ _ _ _ h
  split at h
  · simp only [Option.some.injEq] at h; subst h; exact detach_backing_shape _ _ _
  split at h
  · simp only [Option.some.injEq] at h; subst h; exact set_scanout_shape _ _ _
  split at h
  · exact transfer_shape _ _ _ _ _ h
  split at h
  · simp only [Option.some.injEq] at h; subst h; exact flush_shape _ _ _
  · simp only [Option.some.injEq] at h; subst h; exact unspec_shape _ _

/-- On a chain of two segments every response goes to the last segment. -/
theorem dispatch_two_segments (env : host_env) (gpu : virtio_gpu) (cmd : virtio_gpu_command)
    (res : cmd_result) (h : ctrl_dispatch env gpu cmd = some res) (hn : cmd.iovcnt = 2) :
    ∀ w ∈ res.writes, w.1 = cmd.iovcnt - 1 := by
  intro w hw
  rcases (dispatch_shape env gpu cmd res h).1 w hw with h1 | h1
  · rw [h1, hn]
  · exact h1


/-- C21 at inputs where it fails. A queue holding only
`SET_SCANOUT(id=0)`: the handler stores a 24-byte response and returns
before `cmd->iolen` is set, so the chain is released with the initial 0. A
queue holding `GET_DISPLAY_INFO` and then the same `SET_SCANOUT`: the second
chain is released with 408, the length left by the first command, for the
same 24-byte response. -/
theorem released_length_stale :
    (∃ gpu rel, virtio_gpu_ctrl_bh (ex_env ex_mem_queue) [some ex_chain_set_scanout]
        ex_gpu_empty = some (gpu, rel, true) ∧
      rel.map (fun c => (c.iolen, c.writes.map (fun w => w.2.sizeof))) = [(0, [24])]) ∧
    (∃ gpu rel, virtio_gpu_ctrl_bh (ex_env ex_mem_queue)
        [some ex_chain_display_info, some ex_chain_set_scanout] ex_gpu_empty =
        some (gpu, rel, true) ∧
      rel.map (fun c => (c.iolen, c.writes.map (fun w => w.2.sizeof))) =
        [(408, [408]), (408, [24])]) := by
  refine ⟨⟨_, _, rfl, by decide⟩, ⟨_, _, rfl, by decide⟩⟩

/-- C22 at an input where it fails. `RESOURCE_CREATE_2D(id=7, ...)` on a
chain of three segments (header, body, response): the handler stores its
response in segment 1, the body segment, and nothing in segment 2, the last
segment of the chain. -/
theorem reply_not_in_last_segment :
    ∃ res, ctrl_bh_chain (ex_env (ex_mem ex_create_bytes)) ex_gpu_empty 0 ex_chain_three =
        some res ∧
      (read_ctrl_hdr (ex_mem ex_create_bytes) (chain_base ex_chain_three)).type =
        VIRTIO_GPU_CMD_RESOURCE_CREATE_2D ∧
      ex_chain_three.length = 3 ∧
      res.writes.map (fun w => w.1) = [1] ∧
      reply_type res = some VIRTIO_GPU_RESP_OK_NODATA ∧
      (virtio_gpu_find_resource_2d res.gpu 7).isSome = true := by
  refine ⟨_, rfl, by decide, by decide, by decide, by decide, rfl⟩


/-! ## Backing vector and element count -/

theorem mem_update_r2d (id : Nat) (f : virtio_gpu_resource_2d → virtio_gpu_resource_2d)
    (l : List virtio_gpu_resource_2d) (r : virtio_gpu_resource_2d)
    (h : r ∈ update_r2d id f l) : r ∈ l ∨ ∃ r0 ∈ l, r = f r0 := by
  induction l with
  | nil => simp [update_r2d] at h
  | cons a rest ih =>
    by_cases ha : a.resource_id = id
    · simp only [update_r2d, ha, if_true, List.mem_cons] at h
      rcases h with h | h
      · exact Or.inr ⟨a, List.mem_cons_self _ _, h⟩
      · exact Or.inl (List.mem_cons_of_mem _ h)
    · simp only [update_r2d, ha, if_false, List.mem_cons] at h
      rcases h with h | h
      · exact Or.inl (h ▸ List.mem_cons_self _ _)
      · rcases ih h with h1 | ⟨r0, h1, h2⟩
        · exact Or.inl (List.mem_cons_of_mem _ h1)
        · exact Or.inr ⟨r0, List.mem_cons_of_mem _ h1, h2⟩

theorem mem_remove_r2d (id : Nat) (l : List virtio_gpu_resource_2d)
    (r : virtio_gpu_resource_2d) (h : r ∈ remove_r2d id l) : r ∈ l := by
  induction l with
  | nil => simp [remove_r2d] at h
  | cons a rest ih =>
    by_cases ha : a.resource_id = id
    · simp only [remove_r2d, ha, if_true] at h
      exact List.mem_cons_of_mem _ h
    · simp only [remove_r2d, ha, if_false, List.mem_cons] at h
      rcases h with h | h
      · exact h ▸ List.mem_cons_self _ _
      · exact List.mem_cons_of_mem _ (ih h)

theorem create_2d_iovcnt (env : host_env) (gpu : virtio_gpu) (cmd : virtio_gpu_command)
    (req : virtio_gpu_resource_create_2d) (hinv : iovcnt_matches gpu) :
    iovcnt_matches (virtio_gpu_cmd_resource_create_2d env gpu cmd req).gpu := by
  cases h1 : find_r2d req.resource_id gpu.r2d_list with
  | some r => rw [create_2d_dup env gpu cmd req r h1]; exact hinv
  | none =>
    cases ha : env.pixman_image_create_bits (virtio_gpu_get_pixman_format req.format)
        req.width req.height with
    | none => rw [create_2d_oom env gpu cmd req h1 ha]; exact hinv
    | some img =>
      rw [create_2d_ok env gpu cmd req img h1 ha]
      intro r hr l hl
      simp only [respond_iov1, List.mem_cons] at hr
      rcases hr with hr | hr
      · subst hr; exact absurd hl (by simp)
      · exact hinv r hr l hl

theorem unref_iovcnt (gpu : virtio_gpu) (cmd : virtio_gpu_command)
    (req : virtio_gpu_resource_unref) (hinv : iovcnt_matches gpu) :
    iovcnt_matches (virtio_gpu_cmd_resource_unref gpu cmd req).gpu := by
  cases h1 : find_r2d req.resource_id gpu.r2d_list with
  | some r =>
    rw [unref_present gpu cmd req r h1]
    intro r hr l hl
    exact hinv r (mem_remove_r2d _ _ _ hr) l hl
  | none => rw [unref_absent gpu cmd req h1]; exact hinv

theorem attach_backing_iovcnt (env : host_env) (gpu : virtio_gpu) (cmd : virtio_gpu_command)
    (req : virtio_gpu_resource_attach_backing) (res : cmd_result)
    (h : virtio_gpu_cmd_resource_attach_backing env gpu cmd req = some res)
    (hinv : iovcnt_matches gpu) : iovcnt_matches res.gpu := by
  cases h1 : find_r2d req.resource_id gpu.r2d_list with
  | some r0 =>
    simp only [virtio_gpu_cmd_resource_attach_backing, virtio_gpu_find_resource_2d, h1] at h
    split at h
    · exact absurd h (by simp)
    · simp only [Option.some.injEq] at h
      subst h
      intro r hr l hl
      rcases mem_update_r2d _ _ _ _ hr with hr | ⟨r1, _, hr⟩
      · exact hinv r hr l hl
      · subst hr
        simp only [Option.some.injEq] at hl
        subst hl
        simp
  | none =>
    simp only [virtio_gpu_cmd_resource_attach_backing, virtio_gpu_find_resource_2d, h1,
      Option.some.injEq] at h
    subst h
    exact hinv

theorem detach_backing_iovcnt (gpu : virtio_gpu) (cmd : virtio_gpu_command)
    (req : virtio_gpu_resource_detach_backing) (hinv : iovcnt_matches gpu) :
    iovcnt_matches (virtio_gpu_cmd_resource_detach_backing gpu cmd req).gpu := by
  intro r hr l hl
  unfold virtio_gpu_cmd_resource_detach_backing at hr
  simp only [respond_iov1] at hr
  split at hr
  · split at hr
    · rcases mem_update_r2d _ _ _ _ hr with hr | ⟨r1, _, hr⟩
      · exact hinv r hr l hl
      · subst hr; exact absurd hl (by simp)
    · exact hinv r hr l hl
  · exact hinv r hr l hl

theorem transfer_iovcnt (env : host_env) (gpu : virtio_gpu) (cmd : virtio_gpu_command)
    (req : virtio_gpu_transfer_to_host_2d) (res : cmd_result)
    (h : virtio_gpu_cmd_transfer_to_host_2d env gpu cmd req = some res)
    (hinv : iovcnt_matches gpu) : iovcnt_matches res.gpu := by
  cases hf : find_r2d req.resource_id gpu.r2d_list with
  | none =>
    simp only [virtio_gpu_cmd_transfer_to_host_2d, virtio_gpu_find_resource_2d, hf,
      Option.some.injEq] at h
    subst h; exact hinv
  | some r0 =>
    simp only [virtio_gpu_cmd_transfer_to_host_2d, virtio_gpu_find_resource_2d, hf] at h
    split at h
    · simp only [Option.some.injEq] at h; subst h; exact hinv
    · split at h
      · exact absurd h (by simp)
      · simp only [Option.some.injEq] at h
        subst h
        intro r hr l hl
        rcases mem_update_r2d _ _ _ _ hr with hr | ⟨r1, hr1, hr⟩
        · exact hinv r hr l hl
        · subst hr
          exact hinv r1 hr1 l hl

theorem dispatch_iovcnt_matches (env : host_env) (gpu : virtio_gpu) (cmd : virtio_gpu_command)
    (res : cmd_result) (h : ctrl_dispatch env gpu cmd = some res)
    (hinv : iovcnt_matches gpu) : iovcnt_matches res.gpu := by
  unfold ctrl_dispatch at h
  simp only at h
  split at h
  · simp only [Option.some.injEq] at h; subst h; exact hinv
  split at h
  · simp only [Option.some.injEq] at h; subst h; exact hinv
  split at h
  · simp only [Option.some.injEq] at h; subst h; exact create_2d_iovcnt _ _ _ _ hinv
  split at h
  · simp only [Option.some.injEq] at h; subst h; exact unref_iovcnt _ _ _ hinv
  split at h
  · exact attach_backing_iovcnt _ _ _ _ _ h hinv
  split at h
  · simp only [Option.some.injEq] at h; subst h; exact detach_backing_iovcnt _ _ _ hinv
  split at h
  · simp only [Option.some.injEq] at h; subst h
    intro r hr l hl
    rw [set_scanout_r2d_list] at hr
    exact hinv r hr l hl
  split at h
  · exact transfer_iovcnt _ _ _ _ _ h hinv
  split at h
  · simp only [Option.some.injEq] at h; subst h
    intro r hr l hl
    rw [flush_r2d_list] at hr
    exact hinv r hr l hl
  · simp only [Option.some.injEq] at h; subst h; exact hinv

/-- The part of C23 the code keeps: in every reachable state a resource
that has a backing vector stores the length of that vector in `iovcnt`, so
the element loop never indexes past the end of a vector that is present. -/
theorem reachable_iovcnt_matches {gpu : virtio_gpu} (h : Reachable gpu) : iovcnt_matches gpu := by
  induction h with
  | init cfg vdpy => intro r hr; simp at hr
  | dispatch env cmd res _ hd ih => exact dispatch_iovcnt_matches env _ cmd res hd ih
  | reset _ _ =>
    intro r hr
    simp [virtio_gpu_reset, reset_loop_nil] at hr

/-- C23 at an input where it fails. After `CREATE_2D(id=1, B8G8R8A8, 4, 2)`,
`ATTACH_BACKING(id=1, one entry)` and `DETACH_BACKING(id=1)`, each
dispatched as `virtio_gpu_ctrl_bh` does, resource 1 has no backing vector
but `iovcnt` is still 1; `TRANSFER_TO_HOST_2D(id=1, rect=(0,0,4,2))` then
enters the element loop and reads `r2d->iov[0]` through the NULL pointer:
the handler has no result. -/
theorem transfer_after_detach_faults :
    Reachable ex_gpu_detached ∧
    (∃ r2d, virtio_gpu_find_resource_2d ex_gpu_detached 1 = some r2d ∧
      r2d.iov = none ∧ r2d.iovcnt = 1) ∧
    virtio_gpu_cmd_transfer_to_host_2d (ex_env ex_mem_a) ex_gpu_detached ex_create_cmd
      { r := { x := 0, y := 0, width := 4, height := 2 }, offset := 0, resource_id := 1 } =
      none := by
  refine ⟨?_, ⟨_, rfl, rfl, rfl⟩, rfl⟩
  have h1 : Reachable (virtio_gpu_cmd_resource_create_2d (ex_env ex_mem_create_a) ex_gpu_empty
      (ex_cmd_of ex_mem_create_a ex_chain)
      { resource_id := 1, format := 1, width := 4, height := 2 }).gpu :=
    Reachable.dispatch (ex_env ex_mem_create_a) (ex_cmd_of ex_mem_create_a ex_chain) _
      (Reachable.init _ _) (by rfl)
  have h2 : Reachable ex_gpu_a :=
    Reachable.dispatch (ex_env ex_mem_attach_a) (ex_cmd_of ex_mem_attach_a ex_attach_cmd.iov)
      { gpu := ex_gpu_a, cmd := { ex_cmd_of ex_mem_attach_a ex_attach_cmd.iov with iolen := 24 },
        writes := [(2, .ctrl { resp_zero with type := VIRTIO_GPU_RESP_OK_NODATA })] }
      h1 (by rfl)
  exact Reachable.dispatch (ex_env ex_mem_detach_a) (ex_cmd_of ex_mem_detach_a ex_chain)
    (virtio_gpu_cmd_resource_detach_backing ex_gpu_a (ex_cmd_of ex_mem_detach_a ex_chain)
      { resource_id := 1 })
    h2 (by rfl)


/-! ## TRANSFER_TO_HOST_2D: bytes outside the rectangle -/

/-- The row loop, whatever the backing vector holds: if it runs to
completion, the pixel bytes outside `[dst + D, dst + T)` are as before. -/
theorem transfer_row_frame (mem : Nat → Nat) (iov : Option (List iovec)) (dst T : Nat)
    (hT : T < 2147483648) :
    ∀ (n i src D : Nat) (data data2 : Nat → Nat), D ≤ T →
      transfer_row mem iov dst (T : Int) n i src (D : Int) data = some data2 →
      ∀ j, j < dst + D ∨ dst + T ≤ j → data2 j = data j := by
  intro n
  induction n with
  | zero =>
    intro i src D data data2 _ h j _
    rw [transfer_row] at h
    simp only [Option.some.injEq] at h
    rw [h]
  | succ n ih =>
    intro i src D data data2 hD h j hj
    cases iov with
    | none => rw [transfer_row] at h; exact absurd h (by simp)
    | some l =>
      cases hl : l[i]? with
      | none =>
        rw [transfer_row] at h
        simp only [hl] at h
        exact absurd h (by simp)
      | some e =>
        by_cases hv : e.iov_base = 0 ∨ e.iov_len = 0
        · rw [transfer_row] at h
          simp only [hl, hv, if_true] at h
          exact ih (i + 1) src D data data2 hD h j hj
        · have hb : e.iov_base ≠ 0 := fun h0 => hv (Or.inl h0)
          have hlen : e.iov_len ≠ 0 := fun h0 => hv (Or.inr h0)
          rw [transfer_row_step mem l dst T D n i src data e hl hb hlen hT hD] at h
          split at h
          · split at h
            · simp only [Option.some.injEq] at h
              rw [← h]
              unfold memcpy_image
              have : ¬ (dst + D ≤ j ∧ j < dst + D + min (T - D) (e.iov_len - src)) := by omega
              simp only [this, if_false]
            · rw [ih (i + 1) 0 (D + min (T - D) (e.iov_len - src)) _ data2 (by omega) h j
                (by omega)]
              unfold memcpy_image
              have : ¬ (dst + D ≤ j ∧ j < dst + D + min (T - D) (e.iov_len - src)) := by omega
              simp only [this, if_false]
          · exact ih (i + 1) (src - e.iov_len) D data data2 hD h j hj

/-- The row loops, whatever the backing vector holds, when the destination
offsets do not wrap: if they run to completion, every pixel byte outside the
byte ranges of rows `h .. h + n - 1` is as before. -/
theorem transfer_rows_frame (mem : Nat → Nat) (r2d : virtio_gpu_resource_2d)
    (req : virtio_gpu_transfer_to_host_2d) (stride bpp width : Nat)
    (hwb : width * bpp < 2147483648)
    (hfit : req.r.x * bpp + width * bpp ≤ stride) :
    ∀ (n h : Nat) (data data2 : Nat → Nat),
      (req.r.y + (h + n)) * stride < 4294967296 →
      transfer_rows mem r2d req stride bpp width n h data = some data2 →
      ∀ j, (∀ r, h ≤ r → r < h + n →
          j < (req.r.y + r) * stride + req.r.x * bpp ∨
          (req.r.y + r) * stride + req.r.x * bpp + width * bpp ≤ j) → data2 j = data j := by
  intro n
  induction n with
  | zero =>
    intro h data data2 _ hrun j _
    rw [transfer_rows] at hrun
    simp only [Option.some.injEq] at hrun
    rw [hrun]
  | succ n ih =>
    intro h data data2 hdst hrun j hj
    have e2 : (req.r.y + (h + (n + 1))) * stride =
        (req.r.y + h) * stride + n * stride + stride := by ring
    rw [e2] at hdst
    rw [transfer_rows] at hrun
    have hdst_eq : ((req.r.y + h) % 4294967296 * stride % 4294967296 +
        req.r.x * bpp % 4294967296) % 4294967296 = (req.r.y + h) * stride + req.r.x * bpp := by
      rw [mod_mul_mod_left]
      omega
    have htotal : int32 ((width * bpp % 4294967296 : Nat) : Int) = ((width * bpp : Nat) : Int) := by
      rw [Nat.mod_eq_of_lt (by omega)]
      exact int32_natCast _ hwb
    simp only [hdst_eq, htotal] at hrun
    clear hdst_eq htotal
    split at hrun
    · exact absurd hrun (by simp)
    · rename_i data1 hrow
      have hframe1 := transfer_row_frame mem r2d.iov ((req.r.y + h) * stride + req.r.x * bpp)
        (width * bpp) hwb r2d.iovcnt 0 _ 0 data data1 (Nat.zero_le _)
        (by simpa only [Nat.cast_zero] using hrow) j
        (by have := hj h (Nat.le_refl _) (by omega); omega)
      have e4 : (req.r.y + (h + 1 + n)) * stride =
          (req.r.y + h) * stride + n * stride + stride := by ring
      rw [ih (h + 1) data1 data2 (by rw [e4]; exact hdst) hrun j
        (fun r hr1 hr2 => hj r (by omega) (by omega))]
      exact hframe1

/-- Frame of TRANSFER_TO_HOST_2D when no 32-bit offset wraps: for a resource
whose rows fit in the stride and whose pixel buffer is shorter than 4 GiB,
and a rectangle inside the resource, whenever the handler returns, the
target resource differs from before at most in its pixel bytes, every pixel
byte outside the rows of the rectangle is as before, every changed byte lies
below `stride * H`, and every other resource, the config registers and the
display log are unchanged. -/
theorem transfer_frame (env : host_env) (gpu : virtio_gpu) (cmd : virtio_gpu_command)
    (req : virtio_gpu_transfer_to_host_2d) (r2d : virtio_gpu_resource_2d)
    (res : cmd_result)
    (hfind : virtio_gpu_find_resource_2d gpu req.resource_id = some r2d)
    (hx : req.r.x + req.r.width ≤ r2d.width) (hy : req.r.y + req.r.height ≤ r2d.height)
    (hpitch : r2d.width * image_bpp r2d.image ≤ r2d.image.stride)
    (hs : r2d.image.stride < 2147483648)
    (hsize : r2d.image.stride * r2d.height < 4294967296)
    (hres : virtio_gpu_cmd_transfer_to_host_2d env gpu cmd req = some res) :
    ∃ data,
      virtio_gpu_find_resource_2d res.gpu req.resource_id =
        some { r2d with image := { r2d.image with data := data } } ∧
      (∀ j, (∀ r, r < req.r.height →
          j < (req.r.y + r) * r2d.image.stride + req.r.x * image_bpp r2d.image ∨
          (req.r.y + r) * r2d.image.stride + req.r.x * image_bpp r2d.image +
            req.r.width * image_bpp r2d.image ≤ j) → data j = r2d.image.data j) ∧
      (∀ j, data j ≠ r2d.image.data j → j < r2d.image.stride * r2d.height) ∧
      (∀ other, other ≠ req.resource_id →
        virtio_gpu_find_resource_2d res.gpu other = virtio_gpu_find_resource_2d gpu other) ∧
      res.gpu.cfg = gpu.cfg ∧ res.gpu.vdpy = gpu.vdpy := by
  have hwidth : (if req.r.width < r2d.width then req.r.width else r2d.width) = req.r.width := by
    split_ifs <;> omega
  have hheight : (if req.r.height < r2d.height then req.r.height else r2d.height) =
      req.r.height := by
    split_ifs <;> omega
  have hsmod : r2d.image.stride % 4294967296 = r2d.image.stride := Nat.mod_eq_of_lt (by omega)
  have hxw : req.r.x * image_bpp r2d.image + req.r.width * image_bpp r2d.image ≤
      r2d.image.stride := by
    have := Nat.mul_le_mul_right (image_bpp r2d.image) hx
    rw [Nat.add_mul] at this
    omega
  have hyh : (req.r.y + (0 + req.r.height)) * r2d.image.stride < 4294967296 := by
    have := Nat.mul_le_mul_right r2d.image.stride hy
    rw [Nat.zero_add]
    rw [Nat.mul_comm r2d.image.stride r2d.height] at hsize
    omega
  have hbelow : ∀ (data : Nat → Nat),
      (∀ j, (∀ r, r < req.r.height →
          j < (req.r.y + r) * r2d.image.stride + req.r.x * image_bpp r2d.image ∨
          (req.r.y + r) * r2d.image.stride + req.r.x * image_bpp r2d.image +
            req.r.width * image_bpp r2d.image ≤ j) → data j = r2d.image.data j) →
      ∀ j, data j ≠ r2d.image.data j → j < r2d.image.stride * r2d.height := by
    intro data hframe j hj
    by_contra hge
    apply hj
    apply hframe
    intro r hr
    right
    have h1 : (req.r.y + r + 1) * r2d.image.stride ≤ r2d.height * r2d.image.stride :=
      Nat.mul_le_mul_right _ (by omega)
    rw [Nat.add_mul, Nat.one_mul] at h1
    rw [Nat.mul_comm r2d.image.stride r2d.height] at hge
    omega
  simp only [virtio_gpu_cmd_transfer_to_host_2d, hfind, hwidth, hheight, hsmod] at hres
  split at hres
  · simp only [Option.some.injEq] at hres
    subst hres
    exact ⟨r2d.image.data, hfind, fun _ _ => rfl, fun _ hj => absurd rfl hj,
      fun _ _ => rfl, rfl, rfl⟩
  · split at hres
    · exact absurd hres (by simp)
    · rename_i data hrun
      simp only [Option.some.injEq] at hres
      subst hres
      have hframe := transfer_rows_frame env.mem r2d req r2d.image.stride (image_bpp r2d.image)
        req.r.width (by omega) hxw req.r.height 0 r2d.image.data data hyh hrun
      have hframe2 : ∀ j, (∀ r, r < req.r.height →
          j < (req.r.y + r) * r2d.image.stride + req.r.x * image_bpp r2d.image ∨
          (req.r.y + r) * r2d.image.stride + req.r.x * image_bpp r2d.image +
            req.r.width * image_bpp r2d.image ≤ j) → data j = r2d.image.data j := by
        intro j hj
        exact hframe j (fun r _ hr => hj r (by omega))
      refine ⟨data, ?_, hframe2, hbelow data hframe2, ?_, rfl, rfl⟩
      · exact find_update_self req.resource_id
          (fun r2d => { r2d with image := { r2d.image with data := data } }) (fun _ => rfl)
          gpu.r2d_list r2d hfind
      · intro other hne
        exact find_update_other req.resource_id other hne
          (fun r2d => { r2d with image := { r2d.image with data := data } }) (fun _ => rfl)
          gpu.r2d_list

/-- C24 at an input where it fails. The resource is 1 x 1073741825 pixels
(stride 4, 4 bytes per pixel) with one usable backing element of 4 bytes;
the request is the rectangle `(0, 1073741824, 1, 1)` at offset 0, inside
the resource. The handler replies OK_NODATA. Pixel index 0 is not of the
form `(y + r) * stride + x * bpp + k` with `r < h` and `k < w * bpp`, yet
its byte changes from 0 to 0xAA: `dst_offset = (1073741824 + 0) * 4` is
computed in `uint32_t` and wraps to 0. The id, width, height, format and
backing vector of the resource are as before. -/
theorem transfer_writes_outside_rectangle :
    ∃ res r2d,
      virtio_gpu_find_resource_2d ex_gpu_tall_backed 1 = some ex_r2d_tall ∧
      (0 + 1 ≤ ex_r2d_tall.width ∧ 1073741824 + 1 ≤ ex_r2d_tall.height) ∧
      virtio_gpu_cmd_transfer_to_host_2d (ex_env ex_mem_tall) ex_gpu_tall_backed ex_create_cmd
        { r := { x := 0, y := 1073741824, width := 1, height := 1 }, offset := 0,
          resource_id := 1 } = some res ∧
      reply_type res = some VIRTIO_GPU_RESP_OK_NODATA ∧
      virtio_gpu_find_resource_2d res.gpu 1 = some r2d ∧
      (∀ r k, r < 1 → k < 1 * image_bpp ex_r2d_tall.image →
        (1073741824 + r) * ex_r2d_tall.image.stride + 0 * image_bpp ex_r2d_tall.image + k ≠ 0) ∧
      ex_r2d_tall.image.data 0 = 0 ∧
      r2d.image.data 0 = 0xAA ∧
      (r2d.resource_id = ex_r2d_tall.resource_id ∧ r2d.width = ex_r2d_tall.width ∧
        r2d.height = ex_r2d_tall.height ∧ r2d.format = ex_r2d_tall.format ∧
        r2d.iov = ex_r2d_tall.iov ∧ r2d.iovcnt = ex_r2d_tall.iovcnt) := by
  refine ⟨_, _, rfl, by decide, rfl, by decide, rfl, ?_, rfl, by decide, ?_⟩
  · intro r k hr _
    have h4 : ex_r2d_tall.image.stride = 4 := rfl
    rw [h4]
    omega
  · exact ⟨rfl, rfl, rfl, rfl, rfl, rfl⟩

end VirtioGpu
